import Mathlib

/-!
# v4l2-cedrus-enc-test: the encoder session over a kernel transport

A shallow embedding of `v4l2.c`, `v4l2-encoder.c` and the test pattern of
`draw.c`.

* C structures are Lean structures with the C field names.  Unsigned fields are
  `Nat`, reduced modulo the width of the C type at the places where the source
  can overflow; `int` fields are `Int`.
* The kernel is an environment `Env` of oracles.  Every oracle sees the whole
  history of system calls made so far (`Trace`, newest call first), so any
  deterministic behaviour of the transport is an `Env`.
* Every system call made by the code is recorded in the trace together with
  its arguments and its result.
* A function returns `none` when the C call does not return normally in the
  model: a retry loop that is still spinning when the fuel is used up, an array
  access outside the declared array, or a division by zero.
* The `!encoder` guards are discharged by the types: an encoder argument is a
  record, not a pointer that may be null.  `printf` output is not modelled.
* The calls made while the device is opened and probed go to a second
  transport, `ProbeEnv`, with its own trace; the lookups of `media.c` and the
  udev library are parameters of `media_device_probe` and `v4l2_encoder_open`.
* A `float` argument is the record `c_float` of what the code observes of it.
* `write` is recorded with the descriptor, the address and the length handed
  to it; the memory behind the address and the count `write` returns, which the
  code ignores, are not modelled.
-/

namespace Cedrus

/-! ## Constants of the kernel headers -/

def EPERM : Int := 1
def EAGAIN : Int := 11
def ENOMEM : Int := 12
def EBUSY : Int := 16
def ENODEV : Int := 19
def EINVAL : Int := 22

def V4L2_BUF_TYPE_VIDEO_CAPTURE : Nat := 1
def V4L2_BUF_TYPE_VIDEO_OUTPUT : Nat := 2
def V4L2_BUF_TYPE_VIDEO_CAPTURE_MPLANE : Nat := 9
def V4L2_BUF_TYPE_VIDEO_OUTPUT_MPLANE : Nat := 10

def V4L2_MEMORY_MMAP : Nat := 1

def V4L2_BUF_FLAG_KEYFRAME : Nat := 0x8
def V4L2_BUF_FLAG_PFRAME : Nat := 0x10
def V4L2_BUF_FLAG_ERROR : Nat := 0x40

def V4L2_PIX_FMT_H264 : Nat := 0x34363248
def V4L2_SEL_TGT_CROP : Nat := 0

def V4L2_CID_MPEG_BASE : Nat := 0x00990900
def V4L2_CID_MPEG_VIDEO_GOP_SIZE : Nat := V4L2_CID_MPEG_BASE + 203
def V4L2_CID_MPEG_VIDEO_GOP_CLOSURE : Nat := V4L2_CID_MPEG_BASE + 204
def V4L2_CID_MPEG_VIDEO_FORCE_KEY_FRAME : Nat := V4L2_CID_MPEG_BASE + 229
def V4L2_CID_MPEG_VIDEO_H264_I_FRAME_QP : Nat := V4L2_CID_MPEG_BASE + 350
def V4L2_CID_MPEG_VIDEO_H264_P_FRAME_QP : Nat := V4L2_CID_MPEG_BASE + 351
def V4L2_CID_MPEG_VIDEO_H264_ENTROPY_MODE : Nat := V4L2_CID_MPEG_BASE + 357
def V4L2_CID_MPEG_VIDEO_H264_I_PERIOD : Nat := V4L2_CID_MPEG_BASE + 358
def V4L2_CID_MPEG_VIDEO_PREPEND_SPSPPS_TO_IDR : Nat := V4L2_CID_MPEG_BASE + 644
def V4L2_MPEG_VIDEO_H264_ENTROPY_MODE_CABAC : Int := 1

/-- Width of `unsigned int`. -/
def UINT_WIDTH : Nat := 2 ^ 32

/-- Width of `uint64_t` and of `unsigned long` on the LP64 target. -/
def U64_WIDTH : Nat := 2 ^ 64

/-! ## Results of system calls -/

/-- The value of `errno` after a failed system call: a positive number. -/
abbrev Errno := {e : Nat // 0 < e}

/-- Result of a system call: success with the data written back by the kernel,
or failure with `errno` set. -/
inductive Sys (α : Type) where
  | ok (a : α)
  | err (errno : Errno)
deriving DecidableEq, Repr

/-- The value `-errno` returned by the wrappers of `v4l2.c`. -/
def neg_errno (e : Errno) : Int := -((e.val : Nat) : Int)

/-- A `void *` as the code tests it: null, `MAP_FAILED`, or the address of a
mapped region. -/
inductive Ptr where
  | null
  | map_failed
  | addr (a : Nat)
deriving DecidableEq, Repr

/-! ## Kernel structures -/

structure timeval where
  tv_sec : Int
  tv_usec : Int
deriving DecidableEq, Repr

structure v4l2_plane where
  bytesused : Nat
  length : Nat
  mem_offset : Nat
deriving DecidableEq, Repr

/-- The fields of `struct v4l2_buffer` the code reads or writes.  The union `m`
is kept as its two members in use: `m_offset`, and `m_planes`, a pointer held
together with the plane array it points to (`none` is the null pointer).  An
accessor asked for a plane past the end of that array, which `length` should
exclude, answers as for a failed bound check. -/
structure v4l2_buffer where
  index : Nat
  type : Nat
  bytesused : Nat
  flags : Nat
  timestamp : timeval
  memory : Nat
  m_offset : Nat
  m_planes : Option (List v4l2_plane)
  length : Nat
  request_fd : Int
deriving DecidableEq, Repr

/-- The structure after `memset(buffer, 0, sizeof(*buffer))`. -/
def v4l2_buffer.zero : v4l2_buffer :=
  { index := 0, type := 0, bytesused := 0, flags := 0,
    timestamp := { tv_sec := 0, tv_usec := 0 }, memory := 0, m_offset := 0,
    m_planes := none, length := 0, request_fd := 0 }

/-- The fields of `struct v4l2_pix_format` in use. -/
structure v4l2_pix_format where
  width : Nat
  height : Nat
  pixelformat : Nat
  sizeimage : Nat
deriving DecidableEq, Repr

/-- The fields of `struct v4l2_pix_format_mplane` in use; `plane_fmt` holds the
`sizeimage` of each of the `VIDEO_MAX_PLANES` entries. -/
structure v4l2_pix_format_mplane where
  width : Nat
  height : Nat
  pixelformat : Nat
  plane_fmt : List Nat
  num_planes : Nat
deriving DecidableEq, Repr

/-- The structure `struct v4l2_format`; of the union `fmt` the members `pix`
and `pix_mp` are kept side by side, each being used under its own buffer type
only. -/
structure v4l2_format where
  type : Nat
  pix : v4l2_pix_format
  pix_mp : v4l2_pix_format_mplane
deriving DecidableEq, Repr

def VIDEO_MAX_PLANES : Nat := 8

/-- The structure after `memset(format, 0, sizeof(*format))`. -/
def v4l2_format.zero : v4l2_format :=
  { type := 0,
    pix := { width := 0, height := 0, pixelformat := 0, sizeimage := 0 },
    pix_mp := { width := 0, height := 0, pixelformat := 0,
                plane_fmt := List.replicate VIDEO_MAX_PLANES 0, num_planes := 0 } }

structure v4l2_rect where
  left : Int
  top : Int
  width : Nat
  height : Nat
deriving DecidableEq, Repr

structure v4l2_selection where
  type : Nat
  target : Nat
  r : v4l2_rect
deriving DecidableEq, Repr

/-- The structure `struct v4l2_streamparm` with `parm.output.timeperframe`. -/
structure v4l2_streamparm where
  type : Nat
  numerator : Nat
  denominator : Nat
deriving DecidableEq, Repr

/-! ## The transport -/

/-- Result of `select` on the one-descriptor read set: an error, or the number
of ready descriptors together with `FD_ISSET(video_fd, &read_fds)`. -/
inductive SelectResult where
  | err (errno : Errno)
  | ready (ret : Nat) (fd_isset : Bool)
deriving DecidableEq, Repr

/-- A system or library call made by the code, with its arguments and its
result. -/
inductive Event where
  | s_fmt (fd : Int) (arg : v4l2_format) (res : Sys v4l2_format)
  | g_fmt (fd : Int) (arg : v4l2_format) (res : Sys v4l2_format)
  | s_selection (fd : Int) (arg : v4l2_selection) (res : Sys v4l2_selection)
  | reqbufs (fd : Int) (type memory count : Nat) (res : Sys Unit)
  | querybuf (fd : Int) (arg : v4l2_buffer) (res : Sys v4l2_buffer)
  | qbuf (fd : Int) (arg : v4l2_buffer) (res : Sys v4l2_buffer)
  | dqbuf (fd : Int) (arg : v4l2_buffer) (res : Sys v4l2_buffer)
  | s_ctrl (fd : Int) (id : Nat) (value : Int) (res : Sys Unit)
  | s_parm (fd : Int) (arg : v4l2_streamparm) (res : Sys v4l2_streamparm)
  | streamon (fd : Int) (type : Nat) (res : Sys Unit)
  | streamoff (fd : Int) (type : Nat) (res : Sys Unit)
  | select (fd : Int) (timeout_usec : Nat) (res : SelectResult)
  | mmap (length : Nat) (fd : Int) (offset : Nat) (res : Sys Nat)
  | munmap (addr : Nat) (length : Nat)
  | close (fd : Int)
  | media_request_alloc (media_fd : Int) (res : Int)
  | write (fd : Int) (data : Ptr) (length : Nat)
  | calloc (nmemb size : Nat) (res : Bool)
  | free
deriving DecidableEq, Repr

/-- History of the calls made so far, newest first. -/
abbrev Trace := List Event

/-- The kernel transport and the C runtime: what each call answers, given the
history.  A failed ioctl leaves its argument untouched.  `uninit` is the value
found in an automatic variable that was never written. -/
structure Env where
  s_fmt : Trace → Int → v4l2_format → Sys v4l2_format
  g_fmt : Trace → Int → v4l2_format → Sys v4l2_format
  s_selection : Trace → Int → v4l2_selection → Sys v4l2_selection
  reqbufs : Trace → Int → Nat → Nat → Nat → Sys Unit
  querybuf : Trace → Int → v4l2_buffer → Sys v4l2_buffer
  qbuf : Trace → Int → v4l2_buffer → Sys v4l2_buffer
  dqbuf : Trace → Int → v4l2_buffer → Sys v4l2_buffer
  s_ctrl : Trace → Int → Nat → Int → Sys Unit
  s_parm : Trace → Int → v4l2_streamparm → Sys v4l2_streamparm
  streamon : Trace → Int → Nat → Sys Unit
  streamoff : Trace → Int → Nat → Sys Unit
  select : Trace → Int → SelectResult
  mmap : Trace → Nat → Int → Nat → Sys Nat
  media_request_alloc : Trace → Int → Int
  calloc : Trace → Nat → Nat → Bool
  uninit : Trace → Nat

/-! ## Encoder structures (v4l2-encoder.h) -/

/-- The structure `struct v4l2_encoder_buffer`.  `encoder` tells whether the
back pointer is set (it then points to the owning encoder); `planes` is the
array as it is when `v4l2_buffer_setup_planes` hands it to `buffer.m_planes`;
`mmap_data` has four entries. -/
structure v4l2_encoder_buffer where
  encoder : Bool
  buffer : v4l2_buffer
  planes : List v4l2_plane
  planes_count : Nat
  mmap_data : List Ptr
  queued : Bool
  request_fd : Int
deriving DecidableEq, Repr

/-- The record after `memset(buffer, 0, sizeof(*buffer))`. -/
def v4l2_encoder_buffer.zero : v4l2_encoder_buffer :=
  { encoder := false, buffer := v4l2_buffer.zero,
    planes := List.replicate 4 { bytesused := 0, length := 0, mem_offset := 0 },
    planes_count := 0, mmap_data := List.replicate 4 Ptr.null, queued := false,
    request_fd := 0 }

/-- The structure `struct v4l2_encoder_setup`. -/
structure struct_v4l2_encoder_setup where
  width : Nat
  height : Nat
  format : Nat
  fps_num : Nat
  fps_den : Nat
  qp_i : Nat
  qp_p : Nat
  gop_closure : Nat
  gop_size : Nat
deriving DecidableEq, Repr

/-- The structure `struct draw_buffer` as `draw_buffer_create` fills it. -/
structure draw_buffer where
  width : Nat
  height : Nat
  stride : Nat
  size : Nat
deriving DecidableEq, Repr

/-- The structure `struct v4l2_encoder`, without the name strings and the
Mandelbrot state.  `output_buffers` and `capture_buffers` are the arrays of
three records. -/
structure v4l2_encoder where
  video_fd : Int
  media_fd : Int
  capabilities : Nat
  memory : Nat
  up : Bool
  started : Bool
  setup : struct_v4l2_encoder_setup
  output_type : Nat
  output_capabilities : Nat
  output_format : v4l2_format
  output_buffers : List v4l2_encoder_buffer
  output_buffers_count : Nat
  output_buffers_index : Nat
  capture_type : Nat
  capture_capabilities : Nat
  capture_format : v4l2_format
  capture_buffers : List v4l2_encoder_buffer
  capture_buffers_count : Nat
  capture_buffers_index : Nat
  capture_returned_index : Nat
  frame_number : Nat
  draw_buffer : Option draw_buffer
  pattern_step : Nat
  x : Nat
  y : Nat
  pattern_drawn : Bool
  direction : Bool
  bitstream_fd : Int
deriving DecidableEq, Repr

/-- Size of both buffer arrays: `ARRAY_SIZE(encoder->output_buffers)`. -/
def BUFFERS_ARRAY_SIZE : Nat := 3

/-- Size of the `planes` and `mmap_data` arrays of a buffer record. -/
def PLANES_ARRAY_SIZE : Nat := 4

/-! ## v4l2.c: type and buffer helpers -/

def v4l2_type_mplane_check (type : Nat) : Bool :=
  type == V4L2_BUF_TYPE_VIDEO_OUTPUT_MPLANE || type == V4L2_BUF_TYPE_VIDEO_CAPTURE_MPLANE

def v4l2_type_base (type : Nat) : Nat :=
  if type = V4L2_BUF_TYPE_VIDEO_OUTPUT_MPLANE then V4L2_BUF_TYPE_VIDEO_OUTPUT
  else if type = V4L2_BUF_TYPE_VIDEO_CAPTURE_MPLANE then V4L2_BUF_TYPE_VIDEO_CAPTURE
  else type

def v4l2_buffer_setup_base (type memory : Nat) : v4l2_buffer :=
  { v4l2_buffer.zero with type := type, memory := memory }

def v4l2_buffer_setup_index (buffer : v4l2_buffer) (index : Nat) : v4l2_buffer :=
  { buffer with index := index }

def v4l2_buffer_setup_planes (buffer : v4l2_buffer) (type : Nat)
    (planes : List v4l2_plane) (planes_count : Nat) : v4l2_buffer :=
  if v4l2_type_mplane_check type then
    { buffer with m_planes := some planes, length := planes_count }
  else buffer

/-- Returns the C return value and the buffer after the call. -/
def v4l2_buffer_setup_plane_length_used (buffer : v4l2_buffer) (plane_index length : Nat) :
    Int × v4l2_buffer :=
  if length = 0 then (-EINVAL, buffer)
  else if v4l2_type_mplane_check buffer.type then
    match buffer.m_planes with
    | none => (-EINVAL, buffer)
    | some planes =>
      if plane_index ≥ buffer.length then (-EINVAL, buffer)
      else
        match planes[plane_index]? with
        | none => (-EINVAL, buffer)
        | some p =>
          (0, { buffer with
                m_planes := some (planes.set plane_index { p with bytesused := length }) })
  else if plane_index > 0 then (-EINVAL, buffer)
  else (0, { buffer with bytesused := length })

/-- `timestamp` is a `uint64_t`. -/
def v4l2_buffer_setup_timestamp (buffer : v4l2_buffer) (timestamp : Nat) : v4l2_buffer :=
  { buffer with
    timestamp := { tv_sec := ((timestamp / 1000000000 : Nat) : Int),
                   tv_usec := ((timestamp % 1000000000 / 1000 : Nat) : Int) } }

/-- The inline helper of `linux/videodev2.h`, which is not part of this
repository: `(__u64)tv->tv_sec * 1000000000ULL + tv->tv_usec * 1000`, in
64-bit unsigned arithmetic. -/
def v4l2_timeval_to_ns (tv : timeval) : Nat :=
  ((tv.tv_sec * 1000000000 + tv.tv_usec * 1000) % (U64_WIDTH : Int)).toNat

def v4l2_buffer_timestamp (buffer : v4l2_buffer) : Nat :=
  v4l2_timeval_to_ns buffer.timestamp

/-- The out parameter is written only on success. -/
def v4l2_buffer_plane_offset (buffer : v4l2_buffer) (plane_index : Nat) : Except Int Nat :=
  if v4l2_type_mplane_check buffer.type then
    match buffer.m_planes with
    | none => .error (-EINVAL)
    | some planes =>
      if plane_index ≥ buffer.length then .error (-EINVAL)
      else
        match planes[plane_index]? with
        | none => .error (-EINVAL)
        | some p => .ok p.mem_offset
  else if plane_index > 0 then .error (-EINVAL)
  else .ok buffer.m_offset

def v4l2_buffer_plane_length (buffer : v4l2_buffer) (plane_index : Nat) : Except Int Nat :=
  if v4l2_type_mplane_check buffer.type then
    match buffer.m_planes with
    | none => .error (-EINVAL)
    | some planes =>
      if plane_index ≥ buffer.length then .error (-EINVAL)
      else
        match planes[plane_index]? with
        | none => .error (-EINVAL)
        | some p => .ok p.length
  else if plane_index > 0 then .error (-EINVAL)
  else .ok buffer.length

def v4l2_buffer_plane_length_used (buffer : v4l2_buffer) (plane_index : Nat) : Except Int Nat :=
  if v4l2_type_mplane_check buffer.type then
    match buffer.m_planes with
    | none => .error (-EINVAL)
    | some planes =>
      if plane_index ≥ buffer.length then .error (-EINVAL)
      else
        match planes[plane_index]? with
        | none => .error (-EINVAL)
        | some p => .ok p.bytesused
  else if plane_index > 0 then .error (-EINVAL)
  else .ok buffer.bytesused

/-! ## v4l2.c: wrappers of the system calls

Each wrapper returns the C return value, the argument structure after the call
and the extended trace. -/

def v4l2_buffer_query (env : Env) (video_fd : Int) (buffer : v4l2_buffer) (t : Trace) :
    Int × v4l2_buffer × Trace :=
  match env.querybuf t video_fd buffer with
  | .ok b => (0, b, Event.querybuf video_fd buffer (.ok b) :: t)
  | .err e => (neg_errno e, buffer, Event.querybuf video_fd buffer (.err e) :: t)

def v4l2_buffer_queue (env : Env) (video_fd : Int) (buffer : v4l2_buffer) (t : Trace) :
    Int × v4l2_buffer × Trace :=
  match env.qbuf t video_fd buffer with
  | .ok b => (0, b, Event.qbuf video_fd buffer (.ok b) :: t)
  | .err e => (neg_errno e, buffer, Event.qbuf video_fd buffer (.err e) :: t)

def v4l2_buffer_dequeue (env : Env) (video_fd : Int) (buffer : v4l2_buffer) (t : Trace) :
    Int × v4l2_buffer × Trace :=
  match env.dqbuf t video_fd buffer with
  | .ok b => (0, b, Event.dqbuf video_fd buffer (.ok b) :: t)
  | .err e => (neg_errno e, buffer, Event.dqbuf video_fd buffer (.err e) :: t)

def v4l2_buffers_request (env : Env) (video_fd : Int) (type memory count : Nat) (t : Trace) :
    Int × Trace :=
  match env.reqbufs t video_fd type memory count with
  | .ok u => (0, Event.reqbufs video_fd type memory count (.ok u) :: t)
  | .err e => (neg_errno e, Event.reqbufs video_fd type memory count (.err e) :: t)

def v4l2_buffers_destroy (env : Env) (video_fd : Int) (type memory : Nat) (t : Trace) :
    Int × Trace :=
  match env.reqbufs t video_fd type memory 0 with
  | .ok u => (0, Event.reqbufs video_fd type memory 0 (.ok u) :: t)
  | .err e => (neg_errno e, Event.reqbufs video_fd type memory 0 (.err e) :: t)

def v4l2_format_set (env : Env) (video_fd : Int) (format : v4l2_format) (t : Trace) :
    Int × v4l2_format × Trace :=
  match env.s_fmt t video_fd format with
  | .ok f => (0, f, Event.s_fmt video_fd format (.ok f) :: t)
  | .err e => (neg_errno e, format, Event.s_fmt video_fd format (.err e) :: t)

def v4l2_format_get (env : Env) (video_fd : Int) (format : v4l2_format) (t : Trace) :
    Int × v4l2_format × Trace :=
  match env.g_fmt t video_fd format with
  | .ok f => (0, f, Event.g_fmt video_fd format (.ok f) :: t)
  | .err e => (neg_errno e, format, Event.g_fmt video_fd format (.err e) :: t)

def v4l2_selection_set (env : Env) (video_fd : Int) (selection : v4l2_selection) (t : Trace) :
    Int × v4l2_selection × Trace :=
  match env.s_selection t video_fd selection with
  | .ok s => (0, s, Event.s_selection video_fd selection (.ok s) :: t)
  | .err e => (neg_errno e, selection, Event.s_selection video_fd selection (.err e) :: t)

/-- The structure `struct v4l2_control` is given by its `id` and `value`. -/
def v4l2_control_set (env : Env) (video_fd : Int) (id : Nat) (value : Int) (t : Trace) :
    Int × Trace :=
  match env.s_ctrl t video_fd id value with
  | .ok u => (0, Event.s_ctrl video_fd id value (.ok u) :: t)
  | .err e => (neg_errno e, Event.s_ctrl video_fd id value (.err e) :: t)

def v4l2_parm_setup_base (type : Nat) : v4l2_streamparm :=
  { type := type, numerator := 0, denominator := 0 }

def v4l2_parm_set (env : Env) (video_fd : Int) (streamparm : v4l2_streamparm) (t : Trace) :
    Int × v4l2_streamparm × Trace :=
  match env.s_parm t video_fd streamparm with
  | .ok p => (0, p, Event.s_parm video_fd streamparm (.ok p) :: t)
  | .err e => (neg_errno e, streamparm, Event.s_parm video_fd streamparm (.err e) :: t)

def v4l2_stream_on (env : Env) (video_fd : Int) (type : Nat) (t : Trace) : Int × Trace :=
  match env.streamon t video_fd type with
  | .ok u => (0, Event.streamon video_fd type (.ok u) :: t)
  | .err e => (neg_errno e, Event.streamon video_fd type (.err e) :: t)

def v4l2_stream_off (env : Env) (video_fd : Int) (type : Nat) (t : Trace) : Int × Trace :=
  match env.streamoff t video_fd type with
  | .ok u => (0, Event.streamoff video_fd type (.ok u) :: t)
  | .err e => (neg_errno e, Event.streamoff video_fd type (.err e) :: t)

/-- The timeout is given in microseconds (`tv_sec` is 0 at the only call). -/
def v4l2_poll (env : Env) (video_fd : Int) (timeout_usec : Nat) (t : Trace) : Int × Trace :=
  match env.select t video_fd with
  | .err e => (neg_errno e, Event.select video_fd timeout_usec (.err e) :: t)
  | .ready ret fd_isset =>
    if !fd_isset then (0, Event.select video_fd timeout_usec (.ready ret fd_isset) :: t)
    else ((ret : Int), Event.select video_fd timeout_usec (.ready ret fd_isset) :: t)

/-! ## v4l2.c: formats and selections -/

def v4l2_format_setup_base (type : Nat) : v4l2_format :=
  { v4l2_format.zero with type := type }

def v4l2_format_setup_pixel (format : v4l2_format) (width height pixel_format : Nat) :
    v4l2_format :=
  if v4l2_type_mplane_check format.type then
    { format with
      pix_mp := { format.pix_mp with
                  width := width, height := height, pixelformat := pixel_format } }
  else
    { format with
      pix := { format.pix with width := width, height := height, pixelformat := pixel_format } }

def v4l2_format_setup_sizeimage (format : v4l2_format) (plane_index sizeimage : Nat) :
    Int × v4l2_format :=
  if v4l2_type_mplane_check format.type then
    if plane_index ≥ format.pix_mp.num_planes then (-EINVAL, format)
    else
      (0, { format with
            pix_mp := { format.pix_mp with
                        plane_fmt := format.pix_mp.plane_fmt.set plane_index sizeimage } })
  else if plane_index > 0 then (-EINVAL, format)
  else (0, { format with pix := { format.pix with sizeimage := sizeimage } })

/-- The width and height read by `v4l2_format_pixel`. -/
def v4l2_format_pixel (format : v4l2_format) : Nat × Nat :=
  if v4l2_type_mplane_check format.type then (format.pix_mp.width, format.pix_mp.height)
  else (format.pix.width, format.pix.height)

def v4l2_format_planes_count (format : v4l2_format) : Nat :=
  if v4l2_type_mplane_check format.type then format.pix_mp.num_planes else 1

def v4l2_selection_setup_base (type target : Nat) : v4l2_selection :=
  { type := v4l2_type_base type, target := target,
    r := { left := 0, top := 0, width := 0, height := 0 } }

def v4l2_selection_setup_rect (selection : v4l2_selection) (top left : Int)
    (width height : Nat) : v4l2_selection :=
  { selection with r := { top := top, left := left, width := width, height := height } }

/-- The argument `frame_number * 1000UL` that `v4l2_encoder_run` gives to
`v4l2_buffer_setup_timestamp`. -/
def v4l2_encoder_run_timestamp (frame_number : Nat) : Nat :=
  frame_number * 1000 % U64_WIDTH

/-- The assignment `frame_number = timestamp / 1000UL` of `v4l2_encoder_run`,
narrowed to `unsigned int`. -/
def v4l2_encoder_run_frame_number (timestamp : Nat) : Nat :=
  timestamp / 1000 % UINT_WIDTH

/-! ## v4l2-encoder.c: one buffer record -/

/-- The loop `for (i = 0; i < buffer->planes_count; i++)` of
`v4l2_encoder_buffer_setup`, from plane `i` with `n` planes left.  The result
is the value of `ret` when the loop ends or jumps to `complete`. -/
def v4l2_encoder_buffer_setup_mmap (env : Env) (encoder : v4l2_encoder) :
    Nat → Nat → v4l2_encoder_buffer → Trace → Option (Int × v4l2_encoder_buffer × Trace)
  | 0, _, buffer, t => some (0, buffer, t)
  | n + 1, i, buffer, t =>
    match v4l2_buffer_plane_offset buffer.buffer i with
    | .error ret => some (ret, buffer, t)
    | .ok offset =>
      match v4l2_buffer_plane_length buffer.buffer i with
      | .error ret => some (ret, buffer, t)
      | .ok length =>
        if i < PLANES_ARRAY_SIZE then
          match env.mmap t length encoder.video_fd offset with
          | .ok a =>
            v4l2_encoder_buffer_setup_mmap env encoder n (i + 1)
              { buffer with mmap_data := buffer.mmap_data.set i (Ptr.addr a) }
              (Event.mmap length encoder.video_fd offset (.ok a) :: t)
          | .err e =>
            some (neg_errno e,
                  { buffer with mmap_data := buffer.mmap_data.set i Ptr.map_failed },
                  Event.mmap length encoder.video_fd offset (.err e) :: t)
        else none

/-- The record `encoder` is the one `buffer->encoder` points to.
`media_request_alloc` belongs to `media.c`; it answers with a descriptor or a
negative value and is an oracle of the environment. -/
def v4l2_encoder_buffer_setup (env : Env) (encoder : v4l2_encoder)
    (buffer : v4l2_encoder_buffer) (type index : Nat) (t : Trace) :
    Option (Int × v4l2_encoder_buffer × Trace) :=
  if !buffer.encoder then some (-EINVAL, buffer, t)
  else
    let q := v4l2_buffer_query env encoder.video_fd
      (v4l2_buffer_setup_planes
        (v4l2_buffer_setup_index (v4l2_buffer_setup_base type encoder.memory) index)
        type buffer.planes buffer.planes_count) t
    if q.1 ≠ 0 then some (q.1, { buffer with buffer := q.2.1 }, q.2.2)
    else
      match (if encoder.memory = V4L2_MEMORY_MMAP then
               v4l2_encoder_buffer_setup_mmap env encoder buffer.planes_count 0
                 { buffer with buffer := q.2.1 } q.2.2
             else some (0, { buffer with buffer := q.2.1 }, q.2.2)) with
      | none => none
      | some (ret, buffer1, t1) =>
        if ret ≠ 0 then some (ret, buffer1, t1)
        else if type = encoder.output_type then
          let fd := env.media_request_alloc t1 encoder.media_fd
          if fd < 0 then
            some (-EINVAL, { buffer1 with request_fd := fd },
                  Event.media_request_alloc encoder.media_fd fd :: t1)
          else
            some (0, { buffer1 with request_fd := fd },
                  Event.media_request_alloc encoder.media_fd fd :: t1)
        else some (0, { buffer1 with request_fd := -1 }, t1)

/-- The loop of `v4l2_encoder_buffer_cleanup`, from plane `i` with `n` planes
left.  The local `length` is not initialised and the result of
`v4l2_buffer_plane_length` is not checked. -/
def v4l2_encoder_buffer_cleanup_munmap (env : Env) :
    Nat → Nat → v4l2_encoder_buffer → Trace → Option Trace
  | 0, _, _, t => some t
  | n + 1, i, buffer, t =>
    if i < PLANES_ARRAY_SIZE then
      match buffer.mmap_data[i]? with
      | none => none
      | some Ptr.null => v4l2_encoder_buffer_cleanup_munmap env n (i + 1) buffer t
      | some Ptr.map_failed => v4l2_encoder_buffer_cleanup_munmap env n (i + 1) buffer t
      | some (Ptr.addr a) =>
        match v4l2_buffer_plane_length buffer.buffer i with
        | .ok length =>
          v4l2_encoder_buffer_cleanup_munmap env n (i + 1) buffer (Event.munmap a length :: t)
        | .error _ =>
          v4l2_encoder_buffer_cleanup_munmap env n (i + 1) buffer
            (Event.munmap a (env.uninit t) :: t)
    else none

def v4l2_encoder_buffer_cleanup (env : Env) (encoder : v4l2_encoder)
    (buffer : v4l2_encoder_buffer) (t : Trace) :
    Option (Int × v4l2_encoder_buffer × Trace) :=
  if !buffer.encoder then some (-EINVAL, buffer, t)
  else
    match (if encoder.memory = V4L2_MEMORY_MMAP then
             v4l2_encoder_buffer_cleanup_munmap env buffer.planes_count 0 buffer t
           else some t) with
    | none => none
    | some t1 =>
      some (0, { v4l2_encoder_buffer.zero with request_fd := -1 },
            if 0 ≤ buffer.request_fd then Event.close buffer.request_fd :: t1 else t1)

/-! ## v4l2-encoder.c: the per-frame step -/

def v4l2_encoder_complete (env : Env) (encoder : v4l2_encoder) (t : Trace) :
    Option (Int × v4l2_encoder × Trace) :=
  match encoder.capture_buffers[encoder.capture_returned_index]? with
  | none => none
  | some buffer =>
    let length :=
      match v4l2_buffer_plane_length_used buffer.buffer 0 with
      | .ok l => l
      | .error _ => env.uninit t
    some (0, { encoder with frame_number := (encoder.frame_number + 1) % UINT_WIDTH },
          if 0 ≤ encoder.bitstream_fd ∧ 0 < length then
            Event.write encoder.bitstream_fd (buffer.mmap_data.getD 0 Ptr.null) length :: t
          else t)

/-- The buffer that `v4l2_encoder_run` hands to the first `v4l2_buffer_queue`:
the slot's buffer with the bytes used of plane 0 set to the plane length (the
local `length` starts at 0) and the timestamp set from the frame number. -/
def v4l2_encoder_run_picture (encoder : v4l2_encoder) (output_buffer : v4l2_encoder_buffer) :
    v4l2_buffer :=
  v4l2_buffer_setup_timestamp
    (v4l2_buffer_setup_plane_length_used output_buffer.buffer 0
      (match v4l2_buffer_plane_length output_buffer.buffer 0 with
       | .ok l => l
       | .error _ => 0)).2
    (v4l2_encoder_run_timestamp encoder.frame_number)

/-- Where the first part of `v4l2_encoder_run` (up to the wait) leaves the
call: an early `return`, or both slots queued and the wait reporting the
device ready. -/
inductive RunSubmit where
  | ret (r : Int) (encoder : v4l2_encoder) (t : Trace)
  | wait (output_index capture_index : Nat) (encoder : v4l2_encoder) (t : Trace)

/-- The function `v4l2_encoder_run` from the slot selection to the test of the
result of `v4l2_poll`. -/
def v4l2_encoder_run_submit (env : Env) (encoder : v4l2_encoder) (t : Trace) :
    Option RunSubmit :=
  match encoder.output_buffers[encoder.output_buffers_index]? with
  | none => none
  | some output_buffer =>
    if encoder.output_buffers_count = 0 then none
    else
      let q := v4l2_buffer_queue env encoder.video_fd
        (v4l2_encoder_run_picture encoder output_buffer) t
      let e1 : v4l2_encoder :=
        { encoder with
          output_buffers_index :=
            (encoder.output_buffers_index + 1) % UINT_WIDTH % encoder.output_buffers_count,
          output_buffers :=
            encoder.output_buffers.set encoder.output_buffers_index
              { output_buffer with buffer := q.2.1 } }
      if q.1 ≠ 0 then some (.ret q.1 e1 q.2.2)
      else
        match e1.capture_buffers[e1.capture_buffers_index]? with
        | none => none
        | some capture_buffer =>
          if e1.capture_buffers_count = 0 then none
          else
            let c := v4l2_buffer_queue env e1.video_fd capture_buffer.buffer q.2.2
            let e2 : v4l2_encoder :=
              { e1 with
                capture_buffers_index :=
                  (e1.capture_buffers_index + 1) % UINT_WIDTH % e1.capture_buffers_count,
                capture_buffers :=
                  e1.capture_buffers.set e1.capture_buffers_index
                    { capture_buffer with buffer := c.2.1 } }
            if c.1 ≠ 0 then some (.ret c.1 e2 c.2.2)
            else
              let p := v4l2_poll env e2.video_fd 300000 c.2.2
              if p.1 ≤ 0 then some (.ret p.1 e2 p.2)
              else
                some (.wait encoder.output_buffers_index e1.capture_buffers_index e2 p.2)

/-- The loop `do { ret = v4l2_buffer_dequeue(...); if (ret && ret != -EAGAIN)
return ret; } while (ret == -EAGAIN);` with at most `fuel` attempts.  The
result is the last `ret`: 0, or the error the function returns with. -/
def v4l2_encoder_run_dequeue (env : Env) (video_fd : Int) :
    Nat → v4l2_buffer → Trace → Option (Int × v4l2_buffer × Trace)
  | 0, _, _ => none
  | fuel + 1, buffer, t =>
    let d := v4l2_buffer_dequeue env video_fd buffer t
    if d.1 ≠ 0 ∧ d.1 ≠ -EAGAIN then some d
    else if d.1 = -EAGAIN then v4l2_encoder_run_dequeue env video_fd fuel d.2.1 d.2.2
    else some d

/-- Each of the two retry loops may make `fuel` attempts.  The flag
`force_key_frame` is the constant `false`. -/
def v4l2_encoder_run (env : Env) (fuel : Nat) (encoder : v4l2_encoder) (t : Trace) :
    Option (Int × v4l2_encoder × Trace) :=
  match v4l2_encoder_run_submit env encoder t with
  | none => none
  | some (.ret r e t1) => some (r, e, t1)
  | some (.wait output_index capture_index e t1) =>
    match e.output_buffers[output_index]?, e.capture_buffers[capture_index]? with
    | some output_buffer, some capture_buffer =>
      match v4l2_encoder_run_dequeue env e.video_fd fuel
              (v4l2_buffer_setup_base e.output_type e.memory) t1 with
      | none => none
      | some (ret, buffer, t2) =>
        if ret ≠ 0 then some (ret, e, t2)
        else if buffer.index ≠ output_buffer.buffer.index then some (-1, e, t2)
        else
          match v4l2_encoder_run_dequeue env e.video_fd fuel
                  (v4l2_buffer_setup_base e.capture_type e.memory) t2 with
          | none => none
          | some (ret, buffer, t3) =>
            if ret ≠ 0 then some (ret, e, t3)
            else if buffer.index ≠ capture_buffer.buffer.index then some (-1, e, t3)
            else
              match e.capture_buffers[buffer.index]? with
              | none => none
              | some returned =>
                some (0,
                      { e with
                        capture_returned_index := buffer.index,
                        capture_buffers :=
                          e.capture_buffers.set buffer.index { returned with buffer := buffer } },
                      t3)
    | _, _ => none

/-! ## v4l2-encoder.c: configuration -/

/-- Conversion of an `unsigned int` argument to the `int` parameter `value`. -/
def int_of_uint (n : Nat) : Int :=
  if n % UINT_WIDTH < 2 ^ 31 then ((n % UINT_WIDTH : Nat) : Int)
  else ((n % UINT_WIDTH : Nat) : Int) - 2 ^ 32

def v4l2_encoder_control_set (env : Env) (encoder : v4l2_encoder) (id : Nat) (value : Int)
    (t : Trace) : Int × Trace :=
  v4l2_control_set env encoder.video_fd id value t

/-- Size of `struct draw_buffer` on the LP64 target: four `unsigned int` and a
pointer. -/
def sizeof_draw_buffer : Nat := 24

/-- From `draw.c`; `calloc` is an oracle of the environment. -/
def draw_buffer_create (env : Env) (width height : Nat) (t : Trace) :
    Option draw_buffer × Trace :=
  if width = 0 ∨ height = 0 then (none, t)
  else if !env.calloc t 1 sizeof_draw_buffer then
    (none, Event.calloc 1 sizeof_draw_buffer false :: t)
  else
    let t1 := Event.calloc 1 sizeof_draw_buffer true :: t
    let stride := width * 4 % UINT_WIDTH
    let size := stride * height % UINT_WIDTH
    if !env.calloc t1 1 size then (none, Event.free :: Event.calloc 1 size false :: t1)
    else
      (some { width := width, height := height, stride := stride, size := size },
       Event.calloc 1 size true :: t1)

/-- One of the two allocation loops of `v4l2_encoder_setup`: the records from
index `i` on are set up in turn, until one fails. -/
def v4l2_encoder_setup_buffers (env : Env) (encoder : v4l2_encoder)
    (planes_count type : Nat) :
    Nat → List v4l2_encoder_buffer → Trace →
      Option (Int × List v4l2_encoder_buffer × Trace)
  | _, [], t => some (0, [], t)
  | i, buffer :: rest, t =>
    match v4l2_encoder_buffer_setup env encoder
            { buffer with encoder := true, planes_count := planes_count } type i t with
    | none => none
    | some (ret, buffer1, t1) =>
      if ret ≠ 0 then some (ret, buffer1 :: rest, t1)
      else
        match v4l2_encoder_setup_buffers env encoder planes_count type (i + 1) rest t1 with
        | none => none
        | some (ret2, rest1, t2) => some (ret2, buffer1 :: rest1, t2)

/-- The loop `for (i = 0; i < buffers_count; i++)
v4l2_encoder_buffer_cleanup(&buffers[i]);` over one of the arrays. -/
def v4l2_encoder_buffers_cleanup (env : Env) (encoder : v4l2_encoder) :
    List v4l2_encoder_buffer → Trace → Option (List v4l2_encoder_buffer × Trace)
  | [], t => some ([], t)
  | buffer :: rest, t =>
    match v4l2_encoder_buffer_cleanup env encoder buffer t with
    | none => none
    | some (_, buffer1, t1) =>
      match v4l2_encoder_buffers_cleanup env encoder rest t1 with
      | none => none
      | some (rest1, t2) => some (buffer1 :: rest1, t2)

/-- The code under the label `error` of `v4l2_encoder_setup`. -/
def v4l2_encoder_setup_error (env : Env) (encoder : v4l2_encoder) (t : Trace) :
    Option (v4l2_encoder × Trace) :=
  match v4l2_encoder_buffers_cleanup env encoder encoder.output_buffers t with
  | none => none
  | some (output_buffers, t1) =>
    match v4l2_encoder_buffers_cleanup env encoder encoder.capture_buffers
            (v4l2_buffers_destroy env encoder.video_fd encoder.output_type
              encoder.memory t1).2 with
    | none => none
    | some (capture_buffers, t2) =>
      some ({ encoder with output_buffers := output_buffers,
                           capture_buffers := capture_buffers },
            (v4l2_buffers_destroy env encoder.video_fd encoder.capture_type
              encoder.memory t2).2)

/-- The label a path through `v4l2_encoder_setup` jumps to. -/
inductive SetupExit where
  | error
  | complete
deriving DecidableEq, Repr

/-- The part "Controls", "Parm" and "Draw buffer" of `v4l2_encoder_setup`. -/
def v4l2_encoder_setup_controls (env : Env) (encoder : v4l2_encoder) (t : Trace) :
    SetupExit × Int × v4l2_encoder × Trace :=
  let c1 := v4l2_encoder_control_set env encoder
    V4L2_CID_MPEG_VIDEO_PREPEND_SPSPPS_TO_IDR 1 t
  if c1.1 ≠ 0 then (.error, c1.1, encoder, c1.2)
  else
    let c2 := v4l2_encoder_control_set env encoder
      V4L2_CID_MPEG_VIDEO_H264_I_FRAME_QP (int_of_uint encoder.setup.qp_i) c1.2
    if c2.1 ≠ 0 then (.error, c2.1, encoder, c2.2)
    else
      let c3 := v4l2_encoder_control_set env encoder
        V4L2_CID_MPEG_VIDEO_H264_P_FRAME_QP (int_of_uint encoder.setup.qp_p) c2.2
      if c3.1 ≠ 0 then (.error, c3.1, encoder, c3.2)
      else
        let c4 := v4l2_encoder_control_set env encoder
          V4L2_CID_MPEG_VIDEO_H264_ENTROPY_MODE V4L2_MPEG_VIDEO_H264_ENTROPY_MODE_CABAC c3.2
        if c4.1 ≠ 0 then (.error, c4.1, encoder, c4.2)
        else
          let c5 := v4l2_encoder_control_set env encoder
            V4L2_CID_MPEG_VIDEO_GOP_CLOSURE (int_of_uint encoder.setup.gop_closure) c4.2
          if c5.1 ≠ 0 then (.error, c5.1, encoder, c5.2)
          else
            let c6 :=
              if encoder.setup.gop_closure ≠ 0 then
                v4l2_encoder_control_set env encoder
                  V4L2_CID_MPEG_VIDEO_GOP_SIZE (int_of_uint encoder.setup.gop_size) c5.2
              else
                v4l2_encoder_control_set env encoder
                  V4L2_CID_MPEG_VIDEO_H264_I_PERIOD (int_of_uint encoder.setup.gop_size) c5.2
            if c6.1 ≠ 0 then (.error, c6.1, encoder, c6.2)
            else
              let pm := v4l2_parm_set env encoder.video_fd
                { v4l2_parm_setup_base encoder.output_type with
                  numerator := encoder.setup.fps_num,
                  denominator := encoder.setup.fps_den } c6.2
              if pm.1 ≠ 0 then (.error, pm.1, encoder, pm.2.2)
              else
                let d := draw_buffer_create env encoder.setup.width encoder.setup.height pm.2.2
                match d.1 with
                | none => (.error, pm.1, { encoder with draw_buffer := none }, d.2)
                | some b => (.complete, 0, { encoder with draw_buffer := some b, up := true }, d.2)

/-- The part "Allocate capture buffers", "Allocate output buffers" of
`v4l2_encoder_setup`, followed by the controls. -/
def v4l2_encoder_setup_allocate (env : Env) (encoder : v4l2_encoder) (t : Trace) :
    Option (SetupExit × Int × v4l2_encoder × Trace) :=
  let rc := v4l2_buffers_request env encoder.video_fd encoder.capture_type encoder.memory
    BUFFERS_ARRAY_SIZE t
  if rc.1 ≠ 0 then some (.error, rc.1, encoder, rc.2)
  else
    match v4l2_encoder_setup_buffers env encoder
            (v4l2_format_planes_count encoder.capture_format) encoder.capture_type 0
            encoder.capture_buffers rc.2 with
    | none => none
    | some (ret, capture_buffers, t1) =>
      if ret ≠ 0 then some (.error, ret, { encoder with capture_buffers := capture_buffers }, t1)
      else
        let e1 : v4l2_encoder :=
          { encoder with capture_buffers := capture_buffers,
                         capture_buffers_count := BUFFERS_ARRAY_SIZE }
        let ro := v4l2_buffers_request env e1.video_fd e1.output_type e1.memory
          BUFFERS_ARRAY_SIZE t1
        if ro.1 ≠ 0 then some (.complete, ro.1, e1, ro.2)
        else
          match v4l2_encoder_setup_buffers env e1
                  (v4l2_format_planes_count e1.output_format) e1.output_type 0
                  e1.output_buffers ro.2 with
          | none => none
          | some (ret2, output_buffers, t2) =>
            if ret2 ≠ 0 then
              some (.error, ret2, { e1 with output_buffers := output_buffers }, t2)
            else
              some (v4l2_encoder_setup_controls env
                      { e1 with output_buffers := output_buffers,
                                output_buffers_count := BUFFERS_ARRAY_SIZE } t2)

/-- The part "Setup capture format", "Setup output format" of
`v4l2_encoder_setup`, followed by the allocation. -/
def v4l2_encoder_setup_formats (env : Env) (encoder : v4l2_encoder) (t : Trace) :
    Option (SetupExit × Int × v4l2_encoder × Trace) :=
  let width := encoder.setup.width
  let height := encoder.setup.height
  let cf := v4l2_format_set env encoder.video_fd
    (v4l2_format_setup_sizeimage
      (v4l2_format_setup_pixel (v4l2_format_setup_base encoder.capture_type) width height
        V4L2_PIX_FMT_H264) 0 (2 * 1024 * 1024)).2 t
  let e1 : v4l2_encoder := { encoder with capture_format := cf.2.1 }
  if cf.1 ≠ 0 then some (.complete, cf.1, e1, cf.2.2)
  else
    let os := v4l2_format_set env e1.video_fd
      (v4l2_format_setup_pixel (v4l2_format_setup_base e1.output_type) width height
        encoder.setup.format) cf.2.2
    let e2 : v4l2_encoder := { e1 with output_format := os.2.1 }
    if os.1 ≠ 0 then some (.complete, os.1, e2, os.2.2)
    else
      let og := v4l2_format_get env e2.video_fd e2.output_format os.2.2
      let e3 : v4l2_encoder := { e2 with output_format := og.2.1 }
      if og.1 ≠ 0 then some (.complete, og.1, e3, og.2.2)
      else if (v4l2_format_pixel e3.output_format).1 ≠ width ∨
              (v4l2_format_pixel e3.output_format).2 ≠ height then
        let sl := v4l2_selection_set env e3.video_fd
          (v4l2_selection_setup_rect
            (v4l2_selection_setup_base e3.output_type V4L2_SEL_TGT_CROP) 0 0 width height)
          og.2.2
        if sl.1 ≠ 0 then some (.complete, sl.1, e3, sl.2.2)
        else v4l2_encoder_setup_allocate env e3 sl.2.2
      else v4l2_encoder_setup_allocate env e3 og.2.2

def v4l2_encoder_setup (env : Env) (encoder : v4l2_encoder) (t : Trace) :
    Option (Int × v4l2_encoder × Trace) :=
  if encoder.up then some (-EINVAL, encoder, t)
  else
    match v4l2_encoder_setup_formats env encoder t with
    | none => none
    | some (.complete, ret, e, t1) => some (ret, e, t1)
    | some (.error, ret, e, t1) =>
      match v4l2_encoder_setup_error env e t1 with
      | none => none
      | some (e1, t2) => some (ret, e1, t2)

def v4l2_encoder_cleanup (env : Env) (encoder : v4l2_encoder) (t : Trace) :
    Option (Int × v4l2_encoder × Trace) :=
  if !encoder.up then some (-EINVAL, encoder, t)
  else
    match v4l2_encoder_setup_error env encoder t with
    | none => none
    | some (e1, t1) => some (0, { e1 with up := false }, t1)

/-! ## Observations on a trace -/

/-- The region `(address, length)` an event maps, if it is a successful `mmap`. -/
def Event.mapped : Event → Option (Nat × Nat)
  | .mmap length _ _ (.ok a) => some (a, length)
  | _ => none

/-- The region `(address, length)` an event unmaps, if it is a `munmap`. -/
def Event.unmapped : Event → Option (Nat × Nat)
  | .munmap a length => some (a, length)
  | _ => none

/-- The request handle an event opens, if it is a successful
`media_request_alloc`. -/
def Event.opened : Event → Option Int
  | .media_request_alloc _ fd => if 0 ≤ fd then some fd else none
  | _ => none

/-- The descriptor an event closes, if it is a `close`. -/
def Event.closed : Event → Option Int
  | .close fd => some fd
  | _ => none

/-- The queue type an event asks the kernel to release, if it is a request for
zero buffers. -/
def Event.released : Event → Option Nat
  | .reqbufs _ type _ 0 _ => some type
  | _ => none

/-- Regions mapped in the course of a trace, newest first. -/
def mapped_regions (t : Trace) : List (Nat × Nat) := t.filterMap Event.mapped

/-- Regions unmapped in the course of a trace, newest first. -/
def unmapped_regions (t : Trace) : List (Nat × Nat) := t.filterMap Event.unmapped

/-- Request handles opened in the course of a trace, newest first. -/
def opened_requests (t : Trace) : List Int := t.filterMap Event.opened

/-- Descriptors closed in the course of a trace, newest first. -/
def closed_fds (t : Trace) : List Int := t.filterMap Event.closed

/-- Queue types whose release was requested in the course of a trace, newest
first. -/
def released_queues (t : Trace) : List Nat := t.filterMap Event.released

/-- Whether an event is a dequeue attempt. -/
def Event.is_dqbuf : Event → Bool
  | .dqbuf _ _ _ => true
  | _ => false

/-- Number of dequeue attempts in a trace. -/
def dequeue_attempts (t : Trace) : Nat := t.countP Event.is_dqbuf

/-! ## Sequences of calls -/

/-- The first `n` calls of a sequence of `v4l2_encoder_run` calls, whatever
each call returns to its caller. -/
def v4l2_encoder_run_times (env : Env) (fuel : Nat) :
    Nat → v4l2_encoder → Trace → Option (v4l2_encoder × Trace)
  | 0, encoder, t => some (encoder, t)
  | n + 1, encoder, t =>
    match v4l2_encoder_run_times env fuel n encoder t with
    | none => none
    | some (e, t1) =>
      match v4l2_encoder_run env fuel e t1 with
      | none => none
      | some (_, e1, t2) => some (e1, t2)

/-- Whether the first `v4l2_buffer_queue` of a call of `v4l2_encoder_run` in
this state is accepted. -/
def v4l2_encoder_run_picture_queued (env : Env) (encoder : v4l2_encoder) (t : Trace) : Bool :=
  match encoder.output_buffers[encoder.output_buffers_index]? with
  | none => false
  | some output_buffer =>
    decide ((v4l2_buffer_queue env encoder.video_fd
              (v4l2_encoder_run_picture encoder output_buffer) t).1 = 0)

/-- The encoding loop: `n` iterations of `v4l2_encoder_run` followed by
`v4l2_encoder_complete`, each of them returning 0. -/
def v4l2_encoder_encode (env : Env) (fuel : Nat) :
    Nat → v4l2_encoder → Trace → Option (v4l2_encoder × Trace)
  | 0, encoder, t => some (encoder, t)
  | n + 1, encoder, t =>
    match v4l2_encoder_encode env fuel n encoder t with
    | none => none
    | some (e, t1) =>
      match v4l2_encoder_run env fuel e t1 with
      | some (0, e1, t2) =>
        match v4l2_encoder_complete env e1 t2 with
        | some (0, e2, t3) => some (e2, t3)
        | _ => none
      | _ => none

/-! ## Sample transports and sessions -/

def errno_EAGAIN : Errno := ⟨11, by decide⟩

def errno_ENOMEM : Errno := ⟨12, by decide⟩

def V4L2_PIX_FMT_NV12 : Nat := 0x3231564E

/-- The buffer most recently accepted on the queue of the given type. -/
def last_queued (type : Nat) : Trace → Option v4l2_buffer
  | [] => none
  | Event.qbuf _ _ (.ok b) :: t => if b.type = type then some b else last_queued type t
  | _ :: t => last_queued type t

/-- A transport on which every call succeeds at once: formats and buffers come
back as given (a queried buffer has length 4096 at offset `4096 * index`), a
dequeue returns the buffer last queued on its queue, the wait reports the
device ready. -/
def ready_env : Env :=
  { s_fmt := fun _ _ f => .ok f
    g_fmt := fun _ _ f => .ok f
    s_selection := fun _ _ s => .ok s
    reqbufs := fun _ _ _ _ _ => .ok ()
    querybuf := fun _ _ b => .ok { b with length := 4096, m_offset := 4096 * b.index }
    qbuf := fun _ _ b => .ok b
    dqbuf := fun t _ b =>
      match last_queued b.type t with
      | some q => .ok q
      | none => .err errno_EAGAIN
    s_ctrl := fun _ _ _ _ => .ok ()
    s_parm := fun _ _ p => .ok p
    streamon := fun _ _ _ => .ok ()
    streamoff := fun _ _ _ => .ok ()
    select := fun _ _ => .ready 1 true
    mmap := fun t _ _ _ => .ok (65536 * (t.length + 1))
    media_request_alloc := fun t _ => ((t.length + 10 : Nat) : Int)
    calloc := fun _ _ _ => true
    uninit := fun _ => 0 }

/-- A session after `v4l2_encoder_open` and `v4l2_encoder_probe` on a
single-plane device, with the default parameters. -/
def opened_encoder : v4l2_encoder :=
  { video_fd := 4, media_fd := 3, capabilities := 0, memory := V4L2_MEMORY_MMAP,
    up := false, started := false,
    setup := { width := 1280, height := 720, format := V4L2_PIX_FMT_NV12, fps_num := 25000,
               fps_den := 1000, qp_i := 24, qp_p := 26, gop_closure := 0, gop_size := 3 },
    output_type := V4L2_BUF_TYPE_VIDEO_OUTPUT, output_capabilities := 0,
    output_format := v4l2_format.zero,
    output_buffers := List.replicate BUFFERS_ARRAY_SIZE v4l2_encoder_buffer.zero,
    output_buffers_count := 0, output_buffers_index := 0,
    capture_type := V4L2_BUF_TYPE_VIDEO_CAPTURE, capture_capabilities := 0,
    capture_format := v4l2_format.zero,
    capture_buffers := List.replicate BUFFERS_ARRAY_SIZE v4l2_encoder_buffer.zero,
    capture_buffers_count := 0, capture_buffers_index := 0, capture_returned_index := 0,
    frame_number := 0, draw_buffer := none, pattern_step := 0, x := 0, y := 0,
    pattern_drawn := false, direction := false, bitstream_fd := 5 }

/-- The session `opened_encoder` after `v4l2_encoder_setup` on `ready_env`. -/
def configured_encoder : v4l2_encoder :=
  match v4l2_encoder_setup ready_env opened_encoder [] with
  | some (_, e, _) => e
  | none => opened_encoder

/-- The trace of that `v4l2_encoder_setup`. -/
def configured_trace : Trace :=
  match v4l2_encoder_setup ready_env opened_encoder [] with
  | some (_, _, t) => t
  | none => []

/-- A transport on which the wait elapses with nothing ready. -/
def timeout_env : Env := { ready_env with select := fun _ _ => .ready 0 false }

/-- The session `configured_encoder` holding in coded slot 0 a completed buffer
flagged as errored with 100 bytes used. -/
def errored_encoder : v4l2_encoder :=
  { configured_encoder with
    capture_buffers :=
      configured_encoder.capture_buffers.set 0
        { (configured_encoder.capture_buffers.getD 0 v4l2_encoder_buffer.zero) with
          buffer :=
            { (configured_encoder.capture_buffers.getD 0 v4l2_encoder_buffer.zero).buffer with
              flags := V4L2_BUF_FLAG_ERROR, bytesused := 100 } } }

/-- The length an event hands to the bitstream sink, if it is a `write`. -/
def Event.written : Event → Option Nat
  | .write _ _ length => some length
  | _ => none

/-- Lengths of the writes to the bitstream sink in a trace, newest first. -/
def written_lengths (t : Trace) : List Nat := t.filterMap Event.written

/-- The return value a wrapper of `v4l2.c` derives from the result of its
system call. -/
def Sys.ret {α : Type} : Sys α → Int
  | .ok _ => 0
  | .err e => neg_errno e

/-- The argument structure after a system call that was given `a`. -/
def Sys.arg {α : Type} (a : α) : Sys α → α
  | .ok b => b
  | .err _ => a

/-- The encoder record where the first part of `v4l2_encoder_run` leaves it. -/
def RunSubmit.encoder : RunSubmit → v4l2_encoder
  | .ret _ e _ => e
  | .wait _ _ e _ => e

/-- The trace where the first part of `v4l2_encoder_run` leaves it. -/
def RunSubmit.trace : RunSubmit → Trace
  | .ret _ _ t => t
  | .wait _ _ _ t => t

/-- A transport that answers every dequeue with a buffer whose index is one
more than the index of the buffer last queued. -/
def desync_env : Env :=
  { ready_env with
    dqbuf := fun t _ b =>
      match last_queued b.type t with
      | some q => .ok { q with index := q.index + 1 }
      | none => .err errno_EAGAIN }

/-- The run on `desync_env`, up to the wait. -/
def desync_submit : RunSubmit :=
  (v4l2_encoder_run_submit desync_env configured_encoder configured_trace).getD
    (.ret 0 configured_encoder [])

/-- The first dequeue loop of the run on `desync_env`. -/
def desync_dequeue : Int × v4l2_buffer × Trace :=
  (v4l2_encoder_run_dequeue desync_env desync_submit.encoder.video_fd 1
    (v4l2_buffer_setup_base desync_submit.encoder.output_type desync_submit.encoder.memory)
    desync_submit.trace).getD (0, v4l2_buffer.zero, [])

/-- A transport whose first two dequeue attempts find nothing ready. -/
def retry_env : Env :=
  { ready_env with
    dqbuf := fun t fd b =>
      if dequeue_attempts t < 2 then .err errno_EAGAIN else ready_env.dqbuf t fd b }

/-- The run on `retry_env`, up to the wait. -/
def retry_submit : RunSubmit :=
  (v4l2_encoder_run_submit retry_env configured_encoder configured_trace).getD
    (.ret 0 configured_encoder [])

/-- Whether an event is an enqueue attempt. -/
def Event.is_qbuf : Event → Bool
  | .qbuf _ _ _ => true
  | _ => false

/-- The session `configured_encoder` with the frame counter at its largest
value. -/
def last_frame_encoder : v4l2_encoder :=
  { configured_encoder with frame_number := 4294967295 }

/-- Planes `lo ≤ j < hi` of a record hold no mapping: each entry of
`mmap_data` is null or `MAP_FAILED`. -/
def planes_unmapped (buffer : v4l2_encoder_buffer) (lo hi : Nat) : Prop :=
  ∀ j, j < hi → lo ≤ j →
    buffer.mmap_data[j]? = some Ptr.null ∨ buffer.mmap_data[j]? = some Ptr.map_failed

instance (buffer : v4l2_encoder_buffer) (lo hi : Nat) :
    Decidable (planes_unmapped buffer lo hi) := by
  unfold planes_unmapped
  infer_instance

/-- A zeroed buffer record of one plane, with the back pointer set. -/
def fresh_buffer : v4l2_encoder_buffer :=
  { v4l2_encoder_buffer.zero with encoder := true, planes_count := 1 }

/-- A transport that refuses the buffer request on the raw-input queue and
accepts every other call. -/
def output_request_env : Env :=
  { ready_env with
    reqbufs := fun _ _ type _ count =>
      if type = V4L2_BUF_TYPE_VIDEO_OUTPUT ∧ count ≠ 0 then .err errno_ENOMEM else .ok () }

/-- A transport that refuses every control and accepts every other call. -/
def control_env : Env :=
  { ready_env with s_ctrl := fun _ _ _ _ => .err errno_ENOMEM }

/-! ## v4l2-encoder.c: streaming and closing -/

def v4l2_encoder_start (env : Env) (encoder : v4l2_encoder) (t : Trace) :
    Int × v4l2_encoder × Trace :=
  if encoder.started then (-EINVAL, encoder, t)
  else
    let o := v4l2_stream_on env encoder.video_fd encoder.output_type t
    if o.1 ≠ 0 then (o.1, encoder, o.2)
    else
      let c := v4l2_stream_on env encoder.video_fd encoder.capture_type o.2
      if c.1 ≠ 0 then (c.1, encoder, c.2)
      else (0, { encoder with started := true }, c.2)

def v4l2_encoder_stop (env : Env) (encoder : v4l2_encoder) (t : Trace) :
    Int × v4l2_encoder × Trace :=
  if !encoder.started then (-EINVAL, encoder, t)
  else
    let o := v4l2_stream_off env encoder.video_fd encoder.output_type t
    if o.1 ≠ 0 then (o.1, encoder, o.2)
    else
      let c := v4l2_stream_off env encoder.video_fd encoder.capture_type o.2
      if c.1 ≠ 0 then (c.1, encoder, c.2)
      else (0, { encoder with started := false }, c.2)

/-- One of the three steps of `v4l2_encoder_close`: a descriptor above 0 is
closed and recorded as -1. -/
def v4l2_encoder_close_fd (fd : Int) (t : Trace) : Int × Trace :=
  if 0 < fd then (-1, Event.close fd :: t) else (fd, t)

def v4l2_encoder_close (encoder : v4l2_encoder) (t : Trace) : v4l2_encoder × Trace :=
  let b := v4l2_encoder_close_fd encoder.bitstream_fd t
  let m := v4l2_encoder_close_fd encoder.media_fd b.2
  let v := v4l2_encoder_close_fd encoder.video_fd m.2
  ({ encoder with bitstream_fd := b.1, media_fd := m.1, video_fd := v.1 }, v.2)

/-- A call of the streaming switch. -/
inductive StreamCall where
  | start
  | stop
deriving DecidableEq, Repr

/-- A sequence of `v4l2_encoder_start` and `v4l2_encoder_stop` calls; the third
component is the last call that returned 0, `last` if none did. -/
def v4l2_encoder_stream_calls (env : Env) :
    List StreamCall → v4l2_encoder → Trace → Option StreamCall →
      v4l2_encoder × Trace × Option StreamCall
  | [], encoder, t, last => (encoder, t, last)
  | .start :: calls, encoder, t, last =>
    v4l2_encoder_stream_calls env calls (v4l2_encoder_start env encoder t).2.1
      (v4l2_encoder_start env encoder t).2.2
      (if (v4l2_encoder_start env encoder t).1 = 0 then some .start else last)
  | .stop :: calls, encoder, t, last =>
    v4l2_encoder_stream_calls env calls (v4l2_encoder_stop env encoder t).2.1
      (v4l2_encoder_stop env encoder t).2.2
      (if (v4l2_encoder_stop env encoder t).1 = 0 then some .stop else last)

/-- The value of `started` that the last successful call stands for. -/
def StreamCall.started : Option StreamCall → Bool → Bool
  | some .start, _ => true
  | some .stop, _ => false
  | none, initial => initial

/-- Whether an event is a stream-on or stream-off call. -/
def Event.is_stream : Event → Bool
  | .streamon _ _ _ => true
  | .streamoff _ _ _ => true
  | _ => false

/-- Number of stream-on and stream-off calls in a trace. -/
def stream_calls (t : Trace) : Nat := t.countP Event.is_stream

/-- Number of enqueue attempts in a trace. -/
def enqueue_attempts (t : Trace) : Nat := t.countP Event.is_qbuf

/-- The result of the first part of `v4l2_encoder_run` with `started` set to
`b` in the encoder record. -/
def RunSubmit.with_started (b : Bool) : RunSubmit → RunSubmit
  | .ret r e t => .ret r { e with started := b } t
  | .wait oi ci e t => .wait oi ci { e with started := b } t

/-! ## Observations on the trace of a configuration -/

/-- Whether an event belongs to the allocation or the release of a pool. -/
def Event.is_pool : Event → Bool
  | .reqbufs _ _ _ _ _ => true
  | .querybuf _ _ _ => true
  | .mmap _ _ _ _ => true
  | .munmap _ _ => true
  | .close _ => true
  | .media_request_alloc _ _ => true
  | _ => false

/-- The trace `t'` continues `t` with events that all satisfy `p`. -/
def trace_extends (p : Event → Bool) (t t' : Trace) : Prop :=
  ∃ seg, t' = seg ++ t ∧ ∀ ev, ev ∈ seg → p ev = true

/-- The control and value an event sets, if it is a control-set call. -/
def Event.control : Event → Option (Nat × Int)
  | .s_ctrl _ id value _ => some (id, value)
  | _ => none

/-- The control-set calls of a trace, oldest first. -/
def control_sets (t : Trace) : List (Nat × Int) := (t.filterMap Event.control).reverse

/-- The selection an event sets, if it is a selection-set call. -/
def Event.selection : Event → Option v4l2_selection
  | .s_selection _ arg _ => some arg
  | _ => none

/-- The selection-set calls of a trace, oldest first. -/
def selection_sets (t : Trace) : List v4l2_selection := (t.filterMap Event.selection).reverse

/-- The format an event reads back from the device, if it is a successful
format-get call. -/
def Event.read_format : Event → Option v4l2_format
  | .g_fmt _ _ (.ok f) => some f
  | _ => none

/-- The formats read back from the device along a trace, oldest first. -/
def format_reads (t : Trace) : List v4l2_format := (t.filterMap Event.read_format).reverse

/-- The sequence of control-set calls the specification names for a
configuration; each value is given as the `int` the call receives. -/
def spec_encoder_controls (setup : struct_v4l2_encoder_setup) : List (Nat × Int) :=
  [(V4L2_CID_MPEG_VIDEO_PREPEND_SPSPPS_TO_IDR, 1),
   (V4L2_CID_MPEG_VIDEO_H264_I_FRAME_QP, int_of_uint setup.qp_i),
   (V4L2_CID_MPEG_VIDEO_H264_P_FRAME_QP, int_of_uint setup.qp_p),
   (V4L2_CID_MPEG_VIDEO_H264_ENTROPY_MODE, V4L2_MPEG_VIDEO_H264_ENTROPY_MODE_CABAC),
   (V4L2_CID_MPEG_VIDEO_GOP_CLOSURE, int_of_uint setup.gop_closure),
   (if setup.gop_closure ≠ 0 then V4L2_CID_MPEG_VIDEO_GOP_SIZE
    else V4L2_CID_MPEG_VIDEO_H264_I_PERIOD, int_of_uint setup.gop_size)]

/-- A transport as `ready_env`, on which the device rounds the size of a format
it is asked for up to multiples of 32. -/
def aligning_env : Env :=
  { ready_env with
    g_fmt := fun _ _ f =>
      .ok { f with pix := { f.pix with width := (f.pix.width + 31) / 32 * 32,
                                       height := (f.pix.height + 31) / 32 * 32 } } }

/-! ## Opening and probing the device

The calls of `v4l2_encoder_open` and `v4l2_encoder_probe` go to a second
transport, `ProbeEnv`, with its own trace.  The lookups of `media.c` and the
udev library are parameters: a lookup is a function of the topology, the udev
database does not change during a call. -/

def O_WRONLY : Nat := 0x1
def O_RDWR : Nat := 0x2
def O_CREAT : Nat := 0x40
def O_TRUNC : Nat := 0x200
def O_NONBLOCK : Nat := 0x800

def MEDIA_ENT_F_PROC_VIDEO_ENCODER : Nat := 0x4007
def MEDIA_PAD_FL_SINK : Nat := 0x1

def V4L2_CAP_VIDEO_M2M_MPLANE : Nat := 0x00004000
def V4L2_CAP_VIDEO_M2M : Nat := 0x00008000
def V4L2_CAP_DEVICE_CAPS : Nat := 0x80000000

def V4L2_BUF_CAP_SUPPORTS_MMAP : Nat := 0x1
def V4L2_BUF_CAP_SUPPORTS_REQUESTS : Nat := 0x8

/-- The fields of `struct v4l2_capability` in use. -/
structure v4l2_capability where
  capabilities : Nat
  device_caps : Nat
deriving DecidableEq, Repr

structure media_v2_entity where
  id : Nat
  function : Nat
  flags : Nat
deriving DecidableEq, Repr

structure media_v2_intf_devnode where
  major : Nat
  minor : Nat
deriving DecidableEq, Repr

structure media_v2_interface where
  id : Nat
  intf_type : Nat
  flags : Nat
  devnode : media_v2_intf_devnode
deriving DecidableEq, Repr

structure media_v2_pad where
  id : Nat
  entity_id : Nat
  flags : Nat
  index : Nat
deriving DecidableEq, Repr

structure media_v2_link where
  id : Nat
  source_id : Nat
  sink_id : Nat
  flags : Nat
deriving DecidableEq, Repr

/-- The structure `struct media_v2_topology`.  Each `ptr_` field is held
together with the array it points to; `none` is the null pointer. -/
structure media_v2_topology where
  num_entities : Nat
  ptr_entities : Option (List media_v2_entity)
  num_interfaces : Nat
  ptr_interfaces : Option (List media_v2_interface)
  num_pads : Nat
  ptr_pads : Option (List media_v2_pad)
  num_links : Nat
  ptr_links : Option (List media_v2_link)
deriving DecidableEq, Repr

/-- The structure after `= { 0 }`. -/
def media_v2_topology.zero : media_v2_topology :=
  { num_entities := 0, ptr_entities := none, num_interfaces := 0, ptr_interfaces := none,
    num_pads := 0, ptr_pads := none, num_links := 0, ptr_links := none }

def media_v2_entity.zero : media_v2_entity := { id := 0, function := 0, flags := 0 }

def media_v2_interface.zero : media_v2_interface :=
  { id := 0, intf_type := 0, flags := 0, devnode := { major := 0, minor := 0 } }

def media_v2_pad.zero : media_v2_pad := { id := 0, entity_id := 0, flags := 0, index := 0 }

def media_v2_link.zero : media_v2_link := { id := 0, source_id := 0, sink_id := 0, flags := 0 }

def sizeof_media_v2_interface : Nat := 112
def sizeof_media_v2_entity : Nat := 96
def sizeof_media_v2_pad : Nat := 32
def sizeof_media_v2_link : Nat := 40

/-- A `struct udev_device`, by what `udev_device_get_devnode` returns for it
(`none` is the null pointer). -/
structure udev_device where
  devnode : Option String
deriving DecidableEq, Repr

/-- The udev library: whether `udev_new` and `udev_enumerate_new` return an
object, the names of the list entries of the enumeration of the subsystem
`media` (`none` is a null name), and the devices found by path and by
character device number (`none` is the null pointer). -/
structure Udev where
  udev_new : Bool
  udev_enumerate_new : Bool
  list_entry : List (Option String)
  udev_device_new_from_syspath : String → Option udev_device
  udev_device_new_from_devnum : Nat → Option udev_device

/-- The lookups of `media.c`; `none` is the null pointer. -/
structure Media where
  media_topology_entity_find_by_function : media_v2_topology → Nat → Option media_v2_entity
  media_topology_pad_find_by_entity : media_v2_topology → Nat → Nat → Option media_v2_pad
  media_topology_link_find_by_pad : media_v2_topology → Nat → Nat → Option media_v2_link
  media_topology_pad_find_by_id : media_v2_topology → Nat → Option media_v2_pad
  media_topology_link_find_by_entity : media_v2_topology → Nat → Nat → Option media_v2_link
  media_topology_interface_find_by_id : media_v2_topology → Nat → Option media_v2_interface

/-- One call recorded while opening or probing, with its arguments and its
result.  A freed block is named by its size. -/
inductive ProbeEvent where
  | open_file (path : Option String) (flags : Nat) (result : Sys Nat)
  | close (fd : Int)
  | media_device_info (fd : Int) (ret : Int) (driver : String)
  | media_topology_get (fd : Int) (arg : media_v2_topology) (ret : Int)
      (topology : media_v2_topology)
  | calloc (nmemb size : Nat) (ok : Bool)
  | free (size : Nat)
  | querycap (fd : Int) (result : Sys v4l2_capability)
  | create_bufs (fd : Int) (type memory count : Nat) (result : Sys Nat)
  | enum_fmt (fd : Int) (type index : Nat) (result : Sys Nat)
deriving DecidableEq, Repr

/-- The calls made so far, newest first. -/
abbrev ProbeTrace := List ProbeEvent

/-- The transport of `v4l2_encoder_open` and `v4l2_encoder_probe`.  `open_file`
is `open(2)` with the descriptor it returns; `media_device_info` and
`media_topology_get` are the calls of `media.c` with their return value and
the structure they fill in; `create_bufs` gives the `capabilities` field and
`enum_fmt` the `pixelformat` field written back. -/
structure ProbeEnv where
  open_file : ProbeTrace → Option String → Nat → Sys Nat
  media_device_info : ProbeTrace → Int → Int × String
  media_topology_get : ProbeTrace → Int → media_v2_topology → Int × media_v2_topology
  calloc : ProbeTrace → Nat → Nat → Bool
  querycap : ProbeTrace → Int → Sys v4l2_capability
  create_bufs : ProbeTrace → Int → Nat → Nat → Nat → Sys Nat
  enum_fmt : ProbeTrace → Int → Nat → Nat → Sys Nat

/-- The events of `t1` that came after `t`, when `t1` continues `t`. -/
def trace_since (t t1 : ProbeTrace) : ProbeTrace := t1.take (t1.length - t.length)

/-! ### libc -/

/-- The function `strncmp` on the bytes of two C strings (the terminating NUL
left out), as the difference of the first two bytes that differ. -/
def strncmp_bytes : List Nat → List Nat → Nat → Int
  | _, _, 0 => 0
  | [], [], _ + 1 => 0
  | [], y :: _, _ + 1 => -(y : Int)
  | x :: _, [], _ + 1 => (x : Int)
  | x :: xs, y :: ys, n + 1 => if x ≠ y then (x : Int) - (y : Int) else strncmp_bytes xs ys n

/-- The strings compared are names of drivers, in ASCII. -/
def strncmp (s1 s2 : String) (n : Nat) : Int :=
  strncmp_bytes (s1.toList.map Char.toNat) (s2.toList.map Char.toNat) n

def strlen (s : String) : Nat := s.length

/-- The macro `makedev` of glibc. -/
def makedev (major minor : Nat) : Nat :=
  ((major &&& 0x00000fff) <<< 8) ||| ((major &&& 0xfffff000) <<< 32) |||
    (minor &&& 0x000000ff) ||| ((minor &&& 0xffffff00) <<< 12)

/-! ### v4l2.c: capabilities and pixel formats -/

/-- The third component is `*capabilities` after the call. -/
def v4l2_capabilities_probe (env : ProbeEnv) (video_fd : Int) (capabilities : Nat)
    (t : ProbeTrace) : Int × Nat × ProbeTrace :=
  match env.querycap t video_fd with
  | .err e => (neg_errno e, capabilities, ProbeEvent.querycap video_fd (.err e) :: t)
  | .ok capability =>
    (0,
     if capability.capabilities &&& V4L2_CAP_DEVICE_CAPS ≠ 0 then capability.device_caps
     else capability.capabilities,
     ProbeEvent.querycap video_fd (.ok capability) :: t)

def v4l2_capabilities_check (capabilities_probed capabilities : Nat) : Bool :=
  (capabilities_probed &&& capabilities) == capabilities

/-- The result is `-errno` or the pixel format written to `*pixel_format`. -/
def v4l2_pixel_format_enum (env : ProbeEnv) (video_fd : Int) (type index : Nat)
    (t : ProbeTrace) : Except Int Nat × ProbeTrace :=
  match env.enum_fmt t video_fd type index with
  | .err e => (.error (neg_errno e), ProbeEvent.enum_fmt video_fd type index (.err e) :: t)
  | .ok pixelformat =>
    (.ok pixelformat, ProbeEvent.enum_fmt video_fd type index (.ok pixelformat) :: t)

/-- The loop of `v4l2_pixel_format_check` from `index` on, with at most `fuel`
enumerations.  The condition `ret >= 0` of the loop holds for every
`unsigned int`, and a `-errno` stored in `ret` is not zero. -/
def v4l2_pixel_format_check (env : ProbeEnv) (video_fd : Int) (type pixel_format : Nat) :
    Nat → Nat → ProbeTrace → Option (Bool × ProbeTrace)
  | 0, _, _ => none
  | fuel + 1, index, t =>
    match v4l2_pixel_format_enum env video_fd type index t with
    | (.error _, t1) => some (false, t1)
    | (.ok pixel_format_enum, t1) =>
      if pixel_format_enum = pixel_format then some (true, t1)
      else
        v4l2_pixel_format_check env video_fd type pixel_format fuel
          ((index + 1) % UINT_WIDTH) t1

/-- The third component is `*capabilities` after the call. -/
def v4l2_buffers_capabilities_probe (env : ProbeEnv) (video_fd : Int) (type memory : Nat)
    (capabilities : Nat) (t : ProbeTrace) : Int × Nat × ProbeTrace :=
  match env.create_bufs t video_fd type memory 0 with
  | .err e =>
    (neg_errno e, capabilities, ProbeEvent.create_bufs video_fd type memory 0 (.err e) :: t)
  | .ok c =>
    (0, if c ≠ 0 then c else V4L2_BUF_CAP_SUPPORTS_MMAP,
     ProbeEvent.create_bufs video_fd type memory 0 (.ok c) :: t)

/-! ### v4l2-encoder.c: probe -/

/-- The enumeration of pixel formats may make `fuel` calls. -/
def v4l2_encoder_probe (env : ProbeEnv) (fuel : Nat) (encoder : v4l2_encoder)
    (t : ProbeTrace) : Option (Int × v4l2_encoder × ProbeTrace) :=
  if encoder.video_fd < 0 then some (-EINVAL, encoder, t)
  else
    let c := v4l2_capabilities_probe env encoder.video_fd encoder.capabilities t
    let e1 : v4l2_encoder := { encoder with capabilities := c.2.1 }
    if c.1 ≠ 0 then some (c.1, e1, c.2.2)
    else if !v4l2_capabilities_check e1.capabilities V4L2_CAP_VIDEO_M2M then
      some (-1, e1, c.2.2)
    else
      let e2 : v4l2_encoder :=
        if v4l2_capabilities_check e1.capabilities V4L2_CAP_VIDEO_M2M_MPLANE then
          { e1 with output_type := V4L2_BUF_TYPE_VIDEO_OUTPUT_MPLANE,
                    capture_type := V4L2_BUF_TYPE_VIDEO_CAPTURE_MPLANE }
        else
          { e1 with output_type := V4L2_BUF_TYPE_VIDEO_OUTPUT,
                    capture_type := V4L2_BUF_TYPE_VIDEO_CAPTURE }
      let e3 : v4l2_encoder := { e2 with memory := V4L2_MEMORY_MMAP }
      let o := v4l2_buffers_capabilities_probe env e3.video_fd e3.output_type e3.memory
        e3.output_capabilities c.2.2
      let e4 : v4l2_encoder := { e3 with output_capabilities := o.2.1 }
      if o.1 ≠ 0 then some (o.1, e4, o.2.2)
      else if !v4l2_capabilities_check e4.output_capabilities V4L2_BUF_CAP_SUPPORTS_REQUESTS then
        some (-EINVAL, e4, o.2.2)
      else
        let k := v4l2_buffers_capabilities_probe env e4.video_fd e4.capture_type e4.memory
          e4.capture_capabilities o.2.2
        let e5 : v4l2_encoder := { e4 with capture_capabilities := k.2.1 }
        if k.1 ≠ 0 then some (k.1, e5, k.2.2)
        else
          match v4l2_pixel_format_check env e5.video_fd e5.capture_type V4L2_PIX_FMT_H264
                  fuel 0 k.2.2 with
          | none => none
          | some (check, t1) =>
            if !check then some (-EINVAL, e5, t1) else some (0, e5, t1)

/-! ### v4l2-encoder.c: the resolver -/

/-- The code under the label `complete` of `media_device_probe`.  A local
array pointer is given by the size of its block; `none` is the null pointer. -/
def media_device_probe_complete (interfaces entities pads links : Option Nat)
    (t : ProbeTrace) : ProbeTrace :=
  let t1 := match links with
    | some size => ProbeEvent.free size :: t
    | none => t
  let t2 := match pads with
    | some size => ProbeEvent.free size :: t1
    | none => t1
  let t3 := match entities with
    | some size => ProbeEvent.free size :: t2
    | none => t2
  match interfaces with
  | some size => ProbeEvent.free size :: t3
  | none => t3

/-- The code under the label `error` of `media_device_probe`, which runs on
into `complete`. -/
def media_device_probe_error (media_fd video_fd : Int)
    (interfaces entities pads links : Option Nat) (t : ProbeTrace) : ProbeTrace :=
  let t1 := if media_fd ≥ 0 then ProbeEvent.close media_fd :: t else t
  let t2 := if video_fd ≥ 0 then ProbeEvent.close video_fd :: t1 else t1
  media_device_probe_complete interfaces entities pads links t2

/-- The driver name `media_device_probe` asks for. -/
def media_device_probe_driver : String := "cedrus"

def media_device_probe (env : ProbeEnv) (media : Media) (udev : Udev)
    (encoder : v4l2_encoder) (device : udev_device) (function : Nat) (t : ProbeTrace) :
    Int × v4l2_encoder × ProbeTrace :=
  let path := device.devnode
  match env.open_file t path O_RDWR with
  | .err e => (neg_errno e, encoder, ProbeEvent.open_file path O_RDWR (.err e) :: t)
  | .ok fd =>
    let media_fd : Int := (fd : Int)
    let t1 := ProbeEvent.open_file path O_RDWR (.ok fd) :: t
    let info := env.media_device_info t1 media_fd
    let t2 := ProbeEvent.media_device_info media_fd info.1 info.2 :: t1
    if info.1 ≠ 0 then
      (info.1, encoder, media_device_probe_error media_fd (-1) none none none none t2)
    else
      let cmp := strncmp info.2 media_device_probe_driver (strlen media_device_probe_driver)
      if cmp ≠ 0 then
        (cmp, encoder, media_device_probe_error media_fd (-1) none none none none t2)
      else
        let g := env.media_topology_get t2 media_fd media_v2_topology.zero
        let t3 := ProbeEvent.media_topology_get media_fd media_v2_topology.zero g.1 g.2 :: t2
        if g.1 ≠ 0 then
          (g.1, encoder, media_device_probe_error media_fd (-1) none none none none t3)
        else if g.2.num_interfaces = 0 ∨ g.2.num_entities = 0 ∨ g.2.num_pads = 0 ∨
                g.2.num_links = 0 then
          (-ENODEV, encoder, media_device_probe_error media_fd (-1) none none none none t3)
        else
          let si := g.2.num_interfaces * sizeof_media_v2_interface % U64_WIDTH
          if !env.calloc t3 1 si then
            (-ENOMEM, encoder,
             media_device_probe_error media_fd (-1) none none none none
               (ProbeEvent.calloc 1 si false :: t3))
          else
            let t4 := ProbeEvent.calloc 1 si true :: t3
            let topology1 : media_v2_topology :=
              { g.2 with
                ptr_interfaces := some (List.replicate g.2.num_interfaces media_v2_interface.zero) }
            let se := topology1.num_entities * sizeof_media_v2_entity % U64_WIDTH
            if !env.calloc t4 1 se then
              (-ENOMEM, encoder,
               media_device_probe_error media_fd (-1) (some si) none none none
                 (ProbeEvent.calloc 1 se false :: t4))
            else
              let t5 := ProbeEvent.calloc 1 se true :: t4
              let topology2 : media_v2_topology :=
                { topology1 with
                  ptr_entities := some (List.replicate topology1.num_entities media_v2_entity.zero) }
              let sp := topology2.num_pads * sizeof_media_v2_pad % U64_WIDTH
              if !env.calloc t5 1 sp then
                (-ENOMEM, encoder,
                 media_device_probe_error media_fd (-1) (some si) (some se) none none
                   (ProbeEvent.calloc 1 sp false :: t5))
              else
                let t6 := ProbeEvent.calloc 1 sp true :: t5
                let topology3 : media_v2_topology :=
                  { topology2 with
                    ptr_pads := some (List.replicate topology2.num_pads media_v2_pad.zero) }
                let sl := topology3.num_links * sizeof_media_v2_link % U64_WIDTH
                if !env.calloc t6 1 sl then
                  (-ENOMEM, encoder,
                   media_device_probe_error media_fd (-1) (some si) (some se) (some sp) none
                     (ProbeEvent.calloc 1 sl false :: t6))
                else
                  let t7 := ProbeEvent.calloc 1 sl true :: t6
                  let topology4 : media_v2_topology :=
                    { topology3 with
                      ptr_links := some (List.replicate topology3.num_links media_v2_link.zero) }
                  let g2 := env.media_topology_get t7 media_fd topology4
                  let t8 := ProbeEvent.media_topology_get media_fd topology4 g2.1 g2.2 :: t7
                  let error := fun (ret : Int) (tr : ProbeTrace) =>
                    (ret, encoder,
                     media_device_probe_error media_fd (-1) (some si) (some se) (some sp)
                       (some sl) tr)
                  if g2.1 ≠ 0 then error g2.1 t8
                  else
                    match media.media_topology_entity_find_by_function g2.2 function with
                    | none => error (-ENODEV) t8
                    | some encoder_entity =>
                    match media.media_topology_pad_find_by_entity g2.2 encoder_entity.id
                            MEDIA_PAD_FL_SINK with
                    | none => error (-ENODEV) t8
                    | some sink_pad =>
                    match media.media_topology_link_find_by_pad g2.2 sink_pad.id
                            sink_pad.flags with
                    | none => error (-ENODEV) t8
                    | some sink_link =>
                    match media.media_topology_pad_find_by_id g2.2 sink_link.source_id with
                    | none => error (-ENODEV) t8
                    | some source_pad =>
                    match media.media_topology_link_find_by_entity g2.2 source_pad.entity_id
                            MEDIA_PAD_FL_SINK with
                    | none => error (-ENODEV) t8
                    | some source_link =>
                    match media.media_topology_interface_find_by_id g2.2
                            source_link.source_id with
                    | none => error (-ENODEV) t8
                    | some encoder_interface =>
                    match udev.udev_device_new_from_devnum
                            (makedev encoder_interface.devnode.major
                              encoder_interface.devnode.minor) with
                    | none => error (-ENODEV) t8
                    | some video_device =>
                    match env.open_file t8 video_device.devnode (O_RDWR ||| O_NONBLOCK) with
                    | .err e =>
                      error (neg_errno e)
                        (ProbeEvent.open_file video_device.devnode (O_RDWR ||| O_NONBLOCK)
                          (.err e) :: t8)
                    | .ok video_fd =>
                      (0, { encoder with media_fd := media_fd, video_fd := (video_fd : Int) },
                       media_device_probe_complete (some si) (some se) (some sp) (some sl)
                         (ProbeEvent.open_file video_device.devnode (O_RDWR ||| O_NONBLOCK)
                           (.ok video_fd) :: t8))

/-- The chain of lookups of `media_device_probe` on a topology: entity by
function, its sink pad, the link into that pad, the source pad of that link,
the link into the entity of that pad, the interface of the source id of that
link.  The result is `none` when one of them finds nothing. -/
def media_device_probe_lookup (media : Media) (topology : media_v2_topology)
    (function : Nat) : Option media_v2_interface :=
  (media.media_topology_entity_find_by_function topology function).bind fun encoder_entity =>
  (media.media_topology_pad_find_by_entity topology encoder_entity.id
    MEDIA_PAD_FL_SINK).bind fun sink_pad =>
  (media.media_topology_link_find_by_pad topology sink_pad.id sink_pad.flags).bind
    fun sink_link =>
  (media.media_topology_pad_find_by_id topology sink_link.source_id).bind fun source_pad =>
  (media.media_topology_link_find_by_entity topology source_pad.entity_id
    MEDIA_PAD_FL_SINK).bind fun source_link =>
  media.media_topology_interface_find_by_id topology source_link.source_id

/-! ### v4l2-encoder.c: open -/

/-- The name of the output file. -/
def bitstream_path : String := "bitstream.bin"

/-- The code under the label `error` of `v4l2_encoder_open`: a handle that is
not 0 is closed and set to -1, the result is -1. -/
def v4l2_encoder_open_error (encoder : v4l2_encoder) (t : ProbeTrace) :
    Int × v4l2_encoder × ProbeTrace :=
  let m : v4l2_encoder × ProbeTrace :=
    if encoder.media_fd ≠ 0 then
      ({ encoder with media_fd := -1 }, ProbeEvent.close encoder.media_fd :: t)
    else (encoder, t)
  let v : v4l2_encoder × ProbeTrace :=
    if m.1.video_fd ≠ 0 then
      ({ m.1 with video_fd := -1 }, ProbeEvent.close m.1.video_fd :: m.2)
    else m
  (-1, v.1, v.2)

/-- The loop `udev_list_entry_foreach (entry, devices)` of
`v4l2_encoder_open` over the names of the entries. -/
def v4l2_encoder_open_devices (env : ProbeEnv) (media : Media) (udev : Udev) :
    List (Option String) → v4l2_encoder → ProbeTrace → v4l2_encoder × ProbeTrace
  | [], encoder, t => (encoder, t)
  | none :: rest, encoder, t => v4l2_encoder_open_devices env media udev rest encoder t
  | some path :: rest, encoder, t =>
    match udev.udev_device_new_from_syspath path with
    | none => v4l2_encoder_open_devices env media udev rest encoder t
    | some device =>
      let p := media_device_probe env media udev encoder device
        MEDIA_ENT_F_PROC_VIDEO_ENCODER t
      if p.1 = 0 then (p.2.1, p.2.2)
      else v4l2_encoder_open_devices env media udev rest p.2.1 p.2.2

def v4l2_encoder_open (env : ProbeEnv) (media : Media) (udev : Udev)
    (encoder : v4l2_encoder) (t : ProbeTrace) : Int × v4l2_encoder × ProbeTrace :=
  let e0 : v4l2_encoder := { encoder with media_fd := -1, video_fd := -1 }
  if !udev.udev_new then v4l2_encoder_open_error e0 t
  else if !udev.udev_enumerate_new then v4l2_encoder_open_error e0 t
  else
    let l := v4l2_encoder_open_devices env media udev udev.list_entry e0 t
    if l.1.media_fd < 0 then v4l2_encoder_open_error l.1 l.2
    else if l.1.video_fd < 0 then v4l2_encoder_open_error l.1 l.2
    else
      match env.open_file l.2 (some bitstream_path) (O_WRONLY ||| O_CREAT ||| O_TRUNC) with
      | .err e =>
        v4l2_encoder_open_error { l.1 with bitstream_fd := -1 }
          (ProbeEvent.open_file (some bitstream_path) (O_WRONLY ||| O_CREAT ||| O_TRUNC)
            (.err e) :: l.2)
      | .ok fd =>
        (0, { l.1 with bitstream_fd := (fd : Int) },
         ProbeEvent.open_file (some bitstream_path) (O_WRONLY ||| O_CREAT ||| O_TRUNC)
           (.ok fd) :: l.2)

/-! ## Sample devices -/

def errno_EACCES : Errno := ⟨13, by decide⟩

def errno_EINVAL : Errno := ⟨22, by decide⟩

/-- The arrays of a graph with a source (entity 1), the encoder (entity 3) and
a sink (entity 6), joined by data links, and one video interface (id 10,
character device 81:0) linked to the source and to the sink. -/
def sample_entities : List media_v2_entity :=
  [{ id := 1, function := 0x10001, flags := 0 },
   { id := 3, function := MEDIA_ENT_F_PROC_VIDEO_ENCODER, flags := 0 },
   { id := 6, function := 0x10001, flags := 0 }]

def sample_interfaces : List media_v2_interface :=
  [{ id := 10, intf_type := 0x200, flags := 0, devnode := { major := 81, minor := 0 } }]

def sample_pads : List media_v2_pad :=
  [{ id := 2, entity_id := 1, flags := 2, index := 0 },
   { id := 4, entity_id := 3, flags := 1, index := 0 },
   { id := 5, entity_id := 3, flags := 2, index := 1 },
   { id := 7, entity_id := 6, flags := 1, index := 0 }]

def sample_links : List media_v2_link :=
  [{ id := 8, source_id := 2, sink_id := 4, flags := 3 },
   { id := 9, source_id := 5, sink_id := 7, flags := 3 },
   { id := 11, source_id := 10, sink_id := 1, flags := 0x10000003 },
   { id := 12, source_id := 10, sink_id := 6, flags := 0x10000003 }]

/-- What the topology call answers on the sample graph: the counts, and the
arrays where the caller has given room for them. -/
def sample_topology (arg : media_v2_topology) : media_v2_topology :=
  { num_entities := 3, ptr_entities := arg.ptr_entities.map fun _ => sample_entities,
    num_interfaces := 1, ptr_interfaces := arg.ptr_interfaces.map fun _ => sample_interfaces,
    num_pads := 4, ptr_pads := arg.ptr_pads.map fun _ => sample_pads,
    num_links := 4, ptr_links := arg.ptr_links.map fun _ => sample_links }

/-- Lookups that take the first element of the array that fits. -/
def sample_media : Media :=
  { media_topology_entity_find_by_function := fun topology function =>
      (topology.ptr_entities.getD []).find? fun e => e.function == function
    media_topology_pad_find_by_entity := fun topology entity_id flags =>
      (topology.ptr_pads.getD []).find? fun p =>
        p.entity_id == entity_id && (p.flags &&& flags) == flags
    media_topology_link_find_by_pad := fun topology pad_id pad_flags =>
      (topology.ptr_links.getD []).find? fun l =>
        if pad_flags &&& MEDIA_PAD_FL_SINK ≠ 0 then l.sink_id == pad_id
        else l.source_id == pad_id
    media_topology_pad_find_by_id := fun topology id =>
      (topology.ptr_pads.getD []).find? fun p => p.id == id
    media_topology_link_find_by_entity := fun topology entity_id flags =>
      (topology.ptr_links.getD []).find? fun l =>
        if flags &&& MEDIA_PAD_FL_SINK ≠ 0 then l.sink_id == entity_id
        else l.source_id == entity_id
    media_topology_interface_find_by_id := fun topology id =>
      (topology.ptr_interfaces.getD []).find? fun i => i.id == id }

def media0_syspath : String := "/sys/devices/platform/soc/1c0e000.video-codec/media0"

def media1_syspath : String := "/sys/devices/platform/soc/1c0e000.video-codec/media1"

def media0_devnode : String := "/dev/media0"

def media1_devnode : String := "/dev/media1"

def video0_devnode : String := "/dev/video0"

/-- A udev database with two media devices and the video device 81:0. -/
def sample_udev : Udev :=
  { udev_new := true
    udev_enumerate_new := true
    list_entry := [some media0_syspath, some media1_syspath]
    udev_device_new_from_syspath := fun path =>
      if path = media0_syspath then some { devnode := some media0_devnode }
      else if path = media1_syspath then some { devnode := some media1_devnode }
      else none
    udev_device_new_from_devnum := fun devnum =>
      if devnum = makedev 81 0 then some { devnode := some video0_devnode } else none }

/-- A transport on which every file opens (the descriptor is 3 plus the number
of calls made before), the media device is a Cedrus with the sample graph, and
the video device is a single-plane memory-to-memory device with request
support whose only coded format is H.264. -/
def cedrus_env : ProbeEnv :=
  { open_file := fun t _ _ => .ok (t.length + 3)
    media_device_info := fun _ _ => (0, media_device_probe_driver)
    media_topology_get := fun _ _ arg => (0, sample_topology arg)
    calloc := fun _ _ _ => true
    querycap := fun _ _ => .ok { capabilities := 0x84208000, device_caps := 0x04208000 }
    create_bufs := fun _ _ _ _ _ => .ok 0xd
    enum_fmt := fun _ _ _ index =>
      if index = 0 then .ok V4L2_PIX_FMT_H264 else .err errno_EINVAL }

/-- As `cedrus_env`, with a graph that has no link. -/
def unlinked_env : ProbeEnv :=
  { cedrus_env with
    media_topology_get := fun _ _ arg => (0, { sample_topology arg with num_links := 0 }) }

/-- As `cedrus_env`, where the output file cannot be created. -/
def readonly_env : ProbeEnv :=
  { cedrus_env with
    open_file := fun t path _ =>
      if path = some bitstream_path then .err errno_EACCES else .ok (t.length + 3) }

/-- As `cedrus_env`, where the first media device is driven by another driver. -/
def second_env : ProbeEnv :=
  { cedrus_env with
    media_device_info := fun t _ =>
      if t.length = 1 then (0, media0_devnode) else (0, media_device_probe_driver) }

/-- As `cedrus_env`, where the queues report no buffer capability. -/
def plain_buffers_env : ProbeEnv :=
  { cedrus_env with create_bufs := fun _ _ _ _ _ => .ok 0 }

/-- As `cedrus_env`, where the only format enumerated is NV12. -/
def raw_only_env : ProbeEnv :=
  { cedrus_env with
    enum_fmt := fun _ _ _ index =>
      if index = 0 then .ok V4L2_PIX_FMT_NV12 else .err errno_EINVAL }

/-- As `cedrus_env`, where the video device is a capture device. -/
def capture_only_env : ProbeEnv :=
  { cedrus_env with
    querycap := fun _ _ => .ok { capabilities := 0x85200001, device_caps := 0x05200001 } }

/-- A session before `v4l2_encoder_open`. -/
def closed_encoder : v4l2_encoder :=
  { opened_encoder with video_fd := 0, media_fd := 0, bitstream_fd := 0,
                        output_type := 0, capture_type := 0, memory := 0 }

/-! ## Observations on a trace of opening and probing -/

/-- The descriptor an event opens, if it is a successful `open`. -/
def ProbeEvent.opened : ProbeEvent → Option Int
  | .open_file _ _ (.ok fd) => some (fd : Int)
  | _ => none

/-- The descriptors opened along a trace, oldest first. -/
def opened_handles (t : ProbeTrace) : List Int := (t.filterMap ProbeEvent.opened).reverse

/-- The descriptor an event closes, if it is a `close`. -/
def ProbeEvent.closed : ProbeEvent → Option Int
  | .close fd => some fd
  | _ => none

/-- The descriptors closed along a trace, oldest first. -/
def closed_handles (t : ProbeTrace) : List Int := (t.filterMap ProbeEvent.closed).reverse

/-- What makes the resolver give up on a graph: the answer to the first
topology call (the one made with the zeroed structure) has a count that is
zero, or a lookup of the chain finds nothing in the answer to the second. -/
def media_probe_missing (media : Media) (function : Nat) (arg topology : media_v2_topology) :
    Prop :=
  (arg = media_v2_topology.zero ∧
      (topology.num_interfaces = 0 ∨ topology.num_entities = 0 ∨ topology.num_pads = 0 ∨
        topology.num_links = 0)) ∨
    (arg ≠ media_v2_topology.zero ∧ media_device_probe_lookup media topology function = none)

/-- The candidate media devices of `v4l2_encoder_open`, in the order of the
enumeration: the entries that have a name and a device.  There is none when
udev gives no object. -/
def open_candidates (udev : Udev) : List udev_device :=
  if udev.udev_new && udev.udev_enumerate_new then
    udev.list_entry.filterMap fun name => name.bind udev.udev_device_new_from_syspath
  else []

/-- The specification of the iteration: the candidates are probed in order
until `media_device_probe` returns 0 for one; the result is the pair of
handles of that candidate (`none` if there is none) and the trace after the
last probe made. -/
def spec_first_resolved (env : ProbeEnv) (media : Media) (udev : Udev)
    (encoder : v4l2_encoder) : List udev_device → ProbeTrace → Option (Int × Int) × ProbeTrace
  | [], t => (none, t)
  | device :: rest, t =>
    let p := media_device_probe env media udev encoder device MEDIA_ENT_F_PROC_VIDEO_ENCODER t
    if p.1 = 0 then (some (p.2.1.media_fd, p.2.1.video_fd), p.2.2)
    else spec_first_resolved env media udev encoder rest p.2.2

/-! ## Further sample transports and sessions -/

/-- The session `opened_encoder` on a multi-plane device. -/
def mplane_encoder : v4l2_encoder :=
  { opened_encoder with output_type := V4L2_BUF_TYPE_VIDEO_OUTPUT_MPLANE,
                        capture_type := V4L2_BUF_TYPE_VIDEO_CAPTURE_MPLANE }

/-- The format an event sets, if it is a format-set call. -/
def Event.format : Event → Option v4l2_format
  | .s_fmt _ arg _ => some arg
  | _ => none

/-- The arguments of the format-set calls of a trace, oldest first. -/
def format_sets (t : Trace) : List v4l2_format := (t.filterMap Event.format).reverse

/-- A transport as `ready_env` on which `calloc` returns no memory. -/
def nomem_env : Env := { ready_env with calloc := fun _ _ _ => false }

/-- The session `opened_encoder` with a width that was never set. -/
def unsized_encoder : v4l2_encoder :=
  { opened_encoder with setup := { opened_encoder.setup with width := 0 } }

/-- A transport as `ready_env` that refuses every buffer query. -/
def query_env : Env := { ready_env with querybuf := fun _ _ _ => .err errno_ENOMEM }

/-- A transport as `ready_env` on which no region can be mapped. -/
def nomap_env : Env := { ready_env with mmap := fun _ _ _ _ => .err errno_ENOMEM }

/-! ## v4l2-encoder.c: the parameter setters -/

/-- A `float` argument, given by what the code observes of it: whether it
compares equal to zero, and the `unsigned int` its product with an `unsigned
int` converts to. -/
structure c_float where
  is_zero : Bool
  times : Nat → Nat

/-- The constant `25` passed as a `float`. -/
def float_25 : c_float := { is_zero := false, times := fun n => 25 * n % UINT_WIDTH }

def v4l2_encoder_setup_dimensions (encoder : v4l2_encoder) (width height : Nat) :
    Int × v4l2_encoder :=
  if width = 0 ∨ height = 0 then (-EINVAL, encoder)
  else if encoder.up then (-EBUSY, encoder)
  else (0, { encoder with setup := { encoder.setup with width := width, height := height } })

def v4l2_encoder_setup_format (encoder : v4l2_encoder) (format : Nat) : Int × v4l2_encoder :=
  if encoder.up then (-EBUSY, encoder)
  else (0, { encoder with setup := { encoder.setup with format := format } })

def v4l2_encoder_setup_fps (encoder : v4l2_encoder) (fps : c_float) : Int × v4l2_encoder :=
  if fps.is_zero then (-EINVAL, encoder)
  else
    (0, { encoder with
          setup := { encoder.setup with fps_den := 1000, fps_num := fps.times 1000 } })

def v4l2_encoder_setup_qp (encoder : v4l2_encoder) (qp_i qp_p : Nat) : Int × v4l2_encoder :=
  if qp_i = 0 ∨ qp_p = 0 then (-EINVAL, encoder)
  else (0, { encoder with setup := { encoder.setup with qp_i := qp_i, qp_p := qp_p } })

def v4l2_encoder_setup_gop (encoder : v4l2_encoder) (closure size : Nat) : Int × v4l2_encoder :=
  (0, { encoder with setup := { encoder.setup with gop_closure := closure, gop_size := size } })

def v4l2_encoder_setup_defaults (encoder : v4l2_encoder) : Int × v4l2_encoder :=
  if encoder.up then (-EBUSY, encoder)
  else
    let d := v4l2_encoder_setup_dimensions encoder 1280 720
    if d.1 ≠ 0 then d
    else
      let f := v4l2_encoder_setup_format d.2 V4L2_PIX_FMT_NV12
      if f.1 ≠ 0 then f
      else
        let r := v4l2_encoder_setup_fps f.2 float_25
        if r.1 ≠ 0 then r
        else
          let q := v4l2_encoder_setup_qp r.2 24 26
          if q.1 ≠ 0 then q
          else
            let g := v4l2_encoder_setup_gop q.2 0 3
            if g.1 ≠ 0 then g else (0, g.2)

/-! ## draw.c: the test pattern -/

structure nv12_color where
  y : Nat
  u : Nat
  v : Nat
deriving DecidableEq, Repr

def colors : List nv12_color :=
  [{ y := 104, u := 128, v := 128 },
   { y := 180, u := 128, v := 128 },
   { y := 168, u := 44, v := 136 },
   { y := 133, u := 63, v := 52 },
   { y := 63, u := 193, v := 204 },
   { y := 51, u := 109, v := 212 },
   { y := 28, u := 212, v := 120 },
   { y := 16, u := 128, v := 128 }]

/-- The value of `sizeof(colors) / sizeof(*colors)`. -/
def colors_count : Nat := colors.length

/-- The two write pointers `l` and `c` of `test_pattern_step`, with the
stores made through each of them, newest first, as `(address, byte)`. -/
structure pattern_cursor where
  l : Nat
  c : Nat
  luma : List (Nat × Nat)
  chroma : List (Nat × Nat)
deriving DecidableEq, Repr

/-- The body of the inner loop of `test_pattern_step` at column `x` of row
`y`.  There is no result when `color_width` is zero (a division by zero) or
when `index` is not an index of `colors`. -/
def test_pattern_pixel (color_width box_y box_height x y : Nat) (s : pattern_cursor) :
    Option pattern_cursor :=
  if color_width = 0 then none
  else
    match colors[x / color_width]? with
    | none => none
    | some color0 =>
      let color : nv12_color :=
        if box_y ≤ y ∧ y < (box_y + box_height) % UINT_WIDTH then
          { y := 255 - color0.y, u := 255 - color0.u, v := 255 - color0.v }
        else color0
      let s1 : pattern_cursor := { s with l := s.l + 1, luma := (s.l, color.y) :: s.luma }
      if y % 2 = 0 ∧ x % 2 = 0 then
        some { s1 with c := s1.c + 2,
                       chroma := (s1.c + 1, color.v) :: (s1.c, color.u) :: s1.chroma }
      else some s1

/-- The loop `for (x = 0; x < width; x++)`, from column `x` with `n` columns
left. -/
def test_pattern_row (color_width box_y box_height y : Nat) :
    Nat → Nat → pattern_cursor → Option pattern_cursor
  | 0, _, s => some s
  | n + 1, x, s =>
    match test_pattern_pixel color_width box_y box_height x y s with
    | none => none
    | some s1 => test_pattern_row color_width box_y box_height y n (x + 1) s1

/-- The loop `for (y = 0; y < height; y++)`, from row `y` with `n` rows left. -/
def test_pattern_rows (width stride color_width box_y box_height : Nat) :
    Nat → Nat → pattern_cursor → Option pattern_cursor
  | 0, _, s => some s
  | n + 1, y, s =>
    match test_pattern_row color_width box_y box_height y width 0 s with
    | none => none
    | some s1 =>
      test_pattern_rows width stride color_width box_y box_height n (y + 1)
        (if 0 < (stride + UINT_WIDTH - width) % UINT_WIDTH then
           { s1 with l := s1.l + (stride + UINT_WIDTH - width) % UINT_WIDTH,
                     c := s1.c + (stride + UINT_WIDTH - width) % UINT_WIDTH }
         else s1)

/-- The arguments `luma` and `chroma` are addresses; `width`, `height`,
`stride` and `step` are `unsigned int` values.  The result holds the stores
through `l` and through `c`, oldest first; there is none when the function
divides by zero or reads outside `colors`. -/
def test_pattern_step (width height stride step luma chroma : Nat) :
    Option (List (Nat × Nat) × List (Nat × Nat)) :=
  let box_height := 50
  if (height + UINT_WIDTH - box_height) % UINT_WIDTH = 0 then none
  else
    let box_y := (step * 2 % UINT_WIDTH) % ((height + UINT_WIDTH - box_height) % UINT_WIDTH)
    let color_width := width / colors_count
    match test_pattern_rows width stride color_width box_y box_height height 0
            { l := luma, c := chroma, luma := [], chroma := [] } with
    | none => none
    | some s => some (s.luma.reverse, s.chroma.reverse)

/-! ### Observations on the enumeration of pixel formats -/

/-- The trace after the first `k` enumerations of a call of
`v4l2_pixel_format_check` that never stops; enumeration number `k` asks for the
index `k % UINT_WIDTH`, which is `k` below `2 ^ 32`. -/
def enum_trace (env : ProbeEnv) (video_fd : Int) (type : Nat) (t : ProbeTrace) :
    Nat → ProbeTrace
  | 0 => t
  | k + 1 =>
    (v4l2_pixel_format_enum env video_fd type (k % UINT_WIDTH)
      (enum_trace env video_fd type t k)).2

/-- The outcome of enumeration number `k`. -/
def enum_result (env : ProbeEnv) (video_fd : Int) (type : Nat) (t : ProbeTrace) (k : Nat) :
    Except Int Nat :=
  (v4l2_pixel_format_enum env video_fd type (k % UINT_WIDTH)
    (enum_trace env video_fd type t k)).1

/-! ## Observations on the buffers exchanged with the queues -/

/-- The buffer an event hands to an enqueue, accepted or not. -/
def Event.enqueue_call : Event → Option v4l2_buffer
  | .qbuf _ arg _ => some arg
  | _ => none

/-- The buffers handed to the enqueues of a trace, oldest first. -/
def enqueue_calls (t : Trace) : List v4l2_buffer := (t.filterMap Event.enqueue_call).reverse

/-- The queue type and the index of the buffer an accepted enqueue hands to
the device. -/
def Event.enqueued : Event → Option (Nat × Nat)
  | .qbuf _ arg (.ok _) => some (arg.type, arg.index)
  | _ => none

/-- The buffers enqueued in a trace, as `(type, index)`, oldest first. -/
def enqueued_buffers (t : Trace) : List (Nat × Nat) := (t.filterMap Event.enqueued).reverse

/-- The queue type asked for and the index of the buffer a successful dequeue
hands back. -/
def Event.dequeued : Event → Option (Nat × Nat)
  | .dqbuf _ arg (.ok b) => some (arg.type, b.index)
  | _ => none

/-- The buffers dequeued in a trace, as `(type, index)`, oldest first. -/
def dequeued_buffers (t : Trace) : List (Nat × Nat) := (t.filterMap Event.dequeued).reverse

/-- The `queued` flags of the records of a pool. -/
def queued_flags (buffers : List v4l2_encoder_buffer) : List Bool :=
  buffers.map (fun b => b.queued)

/-- The session `configured_encoder` whose input slot 0 holds a buffer of
length 0 with 5 bytes used. -/
def stale_encoder : v4l2_encoder :=
  { configured_encoder with
    output_buffers :=
      configured_encoder.output_buffers.set 0
        { (configured_encoder.output_buffers.getD 0 v4l2_encoder_buffer.zero) with
          buffer :=
            { (configured_encoder.output_buffers.getD 0 v4l2_encoder_buffer.zero).buffer with
              length := 0, bytesused := 5 } } }

/-- The run on `ready_env`, up to the wait. -/
def ready_submit : RunSubmit :=
  (v4l2_encoder_run_submit ready_env configured_encoder configured_trace).getD
    (.ret 0 configured_encoder [])

/-- The run on `ready_env`. -/
def ready_run : Int × v4l2_encoder × Trace :=
  (v4l2_encoder_run ready_env 1 configured_encoder configured_trace).getD
    (0, configured_encoder, [])

/-! ## The bitstream -/

/-- What an event hands to `write`: the descriptor, the address and the
length. -/
def Event.chunk : Event → Option (Int × Ptr × Nat)
  | .write fd data length => some (fd, data, length)
  | _ => none

/-- The chunks handed to `write` in a trace, oldest first. -/
def written_chunks (t : Trace) : List (Int × Ptr × Nat) := (t.filterMap Event.chunk).reverse

/-- A sequence of calls of `v4l2_encoder_complete`: each item gives the events
of the calls made in between, newest first, and the record as the call finds
it. -/
def v4l2_encoder_complete_calls (env : Env) :
    List (Trace × v4l2_encoder) → Trace → Option Trace
  | [], t => some t
  | (gap, encoder) :: rest, t =>
    match v4l2_encoder_complete env encoder (gap ++ t) with
    | none => none
    | some (_, _, t1) => v4l2_encoder_complete_calls env rest t1

/-- The chunk the specification names for a call of `v4l2_encoder_complete`:
the first bytes-used bytes of plane 0 of the completed coded buffer, for the
sink of the record; none for a length of 0. -/
def spec_bitstream_chunk (encoder : v4l2_encoder) : Option (Int × Ptr × Nat) :=
  match encoder.capture_buffers[encoder.capture_returned_index]? with
  | none => none
  | some buffer =>
    match v4l2_buffer_plane_length_used buffer.buffer 0 with
    | .ok length =>
      if 0 < length then some (encoder.bitstream_fd, buffer.mmap_data.getD 0 Ptr.null, length)
      else none
    | .error _ => none

/-- The session `errored_encoder` with 7 bytes used in coded slot 1, which is
the slot returned last. -/
def second_frame_encoder : v4l2_encoder :=
  { errored_encoder with
    capture_returned_index := 1,
    capture_buffers :=
      errored_encoder.capture_buffers.set 1
        { (errored_encoder.capture_buffers.getD 1 v4l2_encoder_buffer.zero) with
          buffer :=
            { (errored_encoder.capture_buffers.getD 1 v4l2_encoder_buffer.zero).buffer with
              bytesused := 7 } } }

/-! ## Records with more planes than the arrays hold -/

/-- A transport as `ready_env` whose queried buffers come back with five
planes of 4096 bytes. -/
def wide_env : Env :=
  { ready_env with
    querybuf := fun _ _ b =>
      .ok { b with
            m_planes :=
              some (List.replicate 5 { bytesused := 0, length := 4096, mem_offset := 0 }) } }

/-- A zeroed buffer record with the back pointer set and the given plane
count. -/
def planes_buffer (planes_count : Nat) : v4l2_encoder_buffer :=
  { v4l2_encoder_buffer.zero with encoder := true, planes_count := planes_count }

/-- The session `configured_encoder` once started. -/
def started_encoder : v4l2_encoder := { configured_encoder with started := true }

/-! # Theorems -/

/-! ## Timestamps -/

/-- C1: for every frame number `n < 2^32`, the timestamp `n * 1000` stored by
`v4l2_buffer_setup_timestamp`, read back by `v4l2_buffer_timestamp` and divided
by 1000 as `v4l2_encoder_run` does, is `n` again, and the stored `tv_usec` lies
in `[0, 1000000)`. -/
theorem timestamp_round_trip (buffer : v4l2_buffer) (n : Nat) (hn : n < 2 ^ 32) :
    v4l2_encoder_run_frame_number
        (v4l2_buffer_timestamp
          (v4l2_buffer_setup_timestamp buffer (v4l2_encoder_run_timestamp n))) = n ∧
      0 ≤ (v4l2_buffer_setup_timestamp buffer
            (v4l2_encoder_run_timestamp n)).timestamp.tv_usec ∧
      (v4l2_buffer_setup_timestamp buffer
            (v4l2_encoder_run_timestamp n)).timestamp.tv_usec < 1000000 := by
  have h1 : n * 1000 % 18446744073709551616 = n * 1000 := Nat.mod_eq_of_lt (by omega)
  have h2 : n * 1000 / 1000000000 = n / 1000000 := by omega
  have h3 : n * 1000 % 1000000000 / 1000 = n % 1000000 := by omega
  have h4 : ((n / 1000000 : Nat) : Int) * 1000000000 + ((n % 1000000 : Nat) : Int) * 1000
      = ((n * 1000 : Nat) : Int) := by
    push_cast
    omega
  have h5 : (((n * 1000 : Nat) : Int) % ((18446744073709551616 : Nat) : Int)).toNat
      = n * 1000 := by
    rw [← Int.ofNat_emod, Int.toNat_ofNat, h1]
  simp only [v4l2_encoder_run_frame_number, v4l2_buffer_timestamp, v4l2_timeval_to_ns,
    v4l2_buffer_setup_timestamp, v4l2_encoder_run_timestamp, U64_WIDTH, UINT_WIDTH]
  norm_num only [h1, h2, h3] at hn ⊢
  refine ⟨?_, ?_, ?_⟩
  · rw [h4]
    have h6 : (((n * 1000 : Nat) : Int) % 18446744073709551616).toNat = n * 1000 := by
      exact_mod_cast h5
    rw [h6]
    omega
  · omega
  · omega

theorem timestamp_round_trip_witness :
    (25 : Nat) < 2 ^ 32 ∧
      (v4l2_encoder_run_frame_number
          (v4l2_buffer_timestamp
            (v4l2_buffer_setup_timestamp v4l2_buffer.zero (v4l2_encoder_run_timestamp 25))) = 25 ∧
        0 ≤ (v4l2_buffer_setup_timestamp v4l2_buffer.zero
              (v4l2_encoder_run_timestamp 25)).timestamp.tv_usec ∧
        (v4l2_buffer_setup_timestamp v4l2_buffer.zero
              (v4l2_encoder_run_timestamp 25)).timestamp.tv_usec < 1000000) :=
  ⟨by norm_num, timestamp_round_trip v4l2_buffer.zero 25 (by norm_num)⟩

/-! ## Configuration guard -/

/-- C8: on an encoder with `up == true`, `v4l2_encoder_setup` returns `-EINVAL`,
makes no call to the transport (the trace is unchanged) and leaves the encoder
record as it was. -/
theorem setup_rejected_when_up (env : Env) (encoder : v4l2_encoder) (t : Trace)
    (hup : encoder.up = true) :
    v4l2_encoder_setup env encoder t = some (-EINVAL, encoder, t) := by
  simp [v4l2_encoder_setup, hup]

theorem setup_rejected_when_up_witness :
    configured_encoder.up = true ∧
      v4l2_encoder_setup ready_env configured_encoder configured_trace
        = some (-EINVAL, configured_encoder, configured_trace) :=
  ⟨by decide, setup_rejected_when_up ready_env configured_encoder configured_trace (by decide)⟩

/-! ## Completion of a frame -/

/-- C5, as stated, fails: a completed coded buffer with the error flag set and
100 bytes used makes `v4l2_encoder_complete` hand 100 bytes to the bitstream
sink. -/
theorem complete_error_frame_counterexample :
    (errored_encoder.capture_buffers[errored_encoder.capture_returned_index]?).map
        (fun b => (b.buffer.flags &&& V4L2_BUF_FLAG_ERROR, b.buffer.bytesused))
        = some (V4L2_BUF_FLAG_ERROR, 100) ∧
      (v4l2_encoder_complete ready_env errored_encoder []).map
        (fun r => (r.1, written_lengths r.2.2)) = some (0, [100]) := by
  decide

/-- C5, amended: for a completed coded buffer with the error flag set,
`v4l2_encoder_complete` returns 0 and hands to the bitstream sink the bytes used
of plane 0 as read from the buffer; nothing is written exactly when that value
is 0 or no sink is open.  The error flag has no part in the decision to write. -/
theorem complete_error_frame (env : Env) (encoder : v4l2_encoder) (t : Trace)
    (buffer : v4l2_encoder_buffer) (length : Nat)
    (hslot : encoder.capture_buffers[encoder.capture_returned_index]? = some buffer)
    (_herror : buffer.buffer.flags &&& V4L2_BUF_FLAG_ERROR ≠ 0)
    (hlength : v4l2_buffer_plane_length_used buffer.buffer 0 = .ok length) :
    v4l2_encoder_complete env encoder t
        = some (0, { encoder with frame_number := (encoder.frame_number + 1) % UINT_WIDTH },
                if 0 ≤ encoder.bitstream_fd ∧ 0 < length then
                  Event.write encoder.bitstream_fd (buffer.mmap_data.getD 0 Ptr.null) length :: t
                else t) ∧
      ((v4l2_encoder_complete env encoder t).map (fun r => written_lengths r.2.2)
          = some (written_lengths t) ↔ (encoder.bitstream_fd < 0 ∨ length = 0)) := by
  have hrun : v4l2_encoder_complete env encoder t
        = some (0, { encoder with frame_number := (encoder.frame_number + 1) % UINT_WIDTH },
                if 0 ≤ encoder.bitstream_fd ∧ 0 < length then
                  Event.write encoder.bitstream_fd (buffer.mmap_data.getD 0 Ptr.null) length :: t
                else t) := by
    simp only [v4l2_encoder_complete, hslot, hlength]
  refine ⟨hrun, ?_⟩
  rw [hrun]
  by_cases hw : 0 ≤ encoder.bitstream_fd ∧ 0 < length
  · simp only [hw, and_self, if_true, Option.map_some', written_lengths, List.filterMap_cons,
      Event.written, Option.some.injEq]
    constructor
    · intro h
      have := congrArg List.length h
      simp at this
    · intro h
      omega
  · simp only [hw, if_false, Option.map_some', true_iff]
    omega

theorem complete_error_frame_witness :
    errored_encoder.capture_buffers[errored_encoder.capture_returned_index]?
        = some (errored_encoder.capture_buffers.getD 0 v4l2_encoder_buffer.zero) ∧
      (v4l2_encoder_complete ready_env errored_encoder []
          = some (0,
                  { errored_encoder with
                    frame_number := (errored_encoder.frame_number + 1) % UINT_WIDTH },
                  if 0 ≤ errored_encoder.bitstream_fd ∧ 0 < 100 then
                    Event.write errored_encoder.bitstream_fd
                      ((errored_encoder.capture_buffers.getD 0
                          v4l2_encoder_buffer.zero).mmap_data.getD 0 Ptr.null) 100 :: []
                  else []) ∧
        ((v4l2_encoder_complete ready_env errored_encoder []).map
            (fun r => written_lengths r.2.2) = some (written_lengths [])
          ↔ (errored_encoder.bitstream_fd < 0 ∨ 100 = 0))) :=
  ⟨by decide,
   complete_error_frame ready_env errored_encoder []
     (errored_encoder.capture_buffers.getD 0 v4l2_encoder_buffer.zero) 100
     (by decide) (by decide) rfl⟩

/-! ## A wait that elapses -/

/-- C3 fails on the code: with both slots queued and nothing ready when the
wait elapses, `v4l2_encoder_run` returns 0, the value of a completed
iteration; it has made no dequeue attempt and `capture_returned_index` still
names the slot of an earlier frame. -/
theorem run_timeout_returns_zero :
    (v4l2_encoder_run timeout_env 1 configured_encoder configured_trace).map
        (fun r => (r.1, r.2.1.capture_returned_index,
                   r.2.1.output_buffers_index, r.2.1.capture_buffers_index,
                   dequeue_attempts r.2.2, r.2.2.head?))
      = some (0, configured_encoder.capture_returned_index, 1, 1, 0,
              some (Event.select 4 300000 (.ready 0 false))) := by
  rfl

/-! ## The per-frame step: auxiliary facts -/

theorem run_submit_frame {env : Env} {e : v4l2_encoder} {t : Trace} {res : RunSubmit}
    (h : v4l2_encoder_run_submit env e t = some res) :
    res.encoder.frame_number = e.frame_number ∧
    res.encoder.capture_returned_index = e.capture_returned_index ∧
    res.encoder.output_buffers_count = e.output_buffers_count ∧
    res.encoder.capture_buffers_count = e.capture_buffers_count ∧
    res.encoder.output_buffers.length = e.output_buffers.length ∧
    res.encoder.capture_buffers.length = e.capture_buffers.length ∧
    res.encoder.output_buffers_index
      = (e.output_buffers_index + 1) % UINT_WIDTH % e.output_buffers_count ∧
    e.output_buffers_count ≠ 0 ∧
    (v4l2_encoder_run_picture_queued env e t = true →
      res.encoder.capture_buffers_index
        = (e.capture_buffers_index + 1) % UINT_WIDTH % e.capture_buffers_count ∧
      e.capture_buffers_count ≠ 0) ∧
    (v4l2_encoder_run_picture_queued env e t = false →
      res.encoder.capture_buffers_index = e.capture_buffers_index) := by
  unfold v4l2_encoder_run_submit at h
  unfold v4l2_encoder_run_picture_queued
  cases hob : e.output_buffers[e.output_buffers_index]? with
  | none => simp [hob] at h
  | some ob =>
    simp only [hob] at h
    by_cases hc : e.output_buffers_count = 0
    · simp [hc] at h
    · simp only [hc, ↓reduceIte] at h
      split at h
      · cases h
        simp_all [RunSubmit.encoder]
      · split at h
        · simp at h
        · split at h
          · simp at h
          · split at h
            · cases h
              simp_all [RunSubmit.encoder]
            · split at h
              · cases h
                simp_all [RunSubmit.encoder]
              · cases h
                simp_all [RunSubmit.encoder]

theorem neg_errno_ne_zero (x : Errno) : neg_errno x ≠ 0 := by
  have := x.property
  unfold neg_errno
  omega

theorem neg_errno_eq_EAGAIN (x : Errno) : neg_errno x = -EAGAIN ↔ x = errno_EAGAIN := by
  unfold neg_errno EAGAIN errno_EAGAIN
  constructor
  · intro h
    apply Subtype.ext
    simp only
    omega
  · intro h
    subst h
    rfl

theorem run_dequeue_ok {env : Env} {fd : Int} {buffer b : v4l2_buffer} {t : Trace} (n : Nat)
    (h : env.dqbuf t fd buffer = .ok b) :
    v4l2_encoder_run_dequeue env fd (n + 1) buffer t
      = some (0, b, Event.dqbuf fd buffer (.ok b) :: t) := by
  simp [v4l2_encoder_run_dequeue, v4l2_buffer_dequeue, h, EAGAIN]

theorem run_dequeue_again {env : Env} {fd : Int} {buffer : v4l2_buffer} {t : Trace} (n : Nat)
    (h : env.dqbuf t fd buffer = .err errno_EAGAIN) :
    v4l2_encoder_run_dequeue env fd (n + 1) buffer t
      = v4l2_encoder_run_dequeue env fd n buffer
          (Event.dqbuf fd buffer (.err errno_EAGAIN) :: t) := by
  have h1 : neg_errno errno_EAGAIN = -EAGAIN := (neg_errno_eq_EAGAIN _).2 rfl
  simp [v4l2_encoder_run_dequeue, v4l2_buffer_dequeue, h, h1]

theorem run_dequeue_err {env : Env} {fd : Int} {buffer : v4l2_buffer} {t : Trace} (n : Nat)
    {x : Errno} (h : env.dqbuf t fd buffer = .err x) (hx : x ≠ errno_EAGAIN) :
    v4l2_encoder_run_dequeue env fd (n + 1) buffer t
      = some (neg_errno x, buffer, Event.dqbuf fd buffer (.err x) :: t) := by
  have h1 : neg_errno x ≠ -EAGAIN := fun hh => hx ((neg_errno_eq_EAGAIN x).1 hh)
  have h2 := neg_errno_ne_zero x
  simp [v4l2_encoder_run_dequeue, v4l2_buffer_dequeue, h, h1, h2]

theorem run_dequeue_ret {env : Env} {fd : Int} {fuel : Nat} {buffer b : v4l2_buffer}
    {t t' : Trace} {r : Int}
    (h : v4l2_encoder_run_dequeue env fd fuel buffer t = some (r, b, t')) :
    r ≠ -EAGAIN ∧
    (r = 0 → ∃ arg rest, t' = Event.dqbuf fd arg (.ok b) :: rest) := by
  induction fuel generalizing buffer t with
  | zero => simp [v4l2_encoder_run_dequeue] at h
  | succ n ih =>
    cases hq : env.dqbuf t fd buffer with
    | ok b0 =>
      rw [run_dequeue_ok n hq] at h
      cases h
      exact ⟨by decide, fun _ => ⟨_, _, rfl⟩⟩
    | err x =>
      by_cases hx : x = errno_EAGAIN
      · subst hx
        rw [run_dequeue_again n hq] at h
        exact ih h
      · rw [run_dequeue_err n hq hx] at h
        cases h
        exact ⟨fun hh => hx ((neg_errno_eq_EAGAIN x).1 hh),
               fun h0 => absurd h0 (neg_errno_ne_zero x)⟩

theorem run_dequeue_retry {env : Env} {fd : Int} {buffer : v4l2_buffer} (res : Sys v4l2_buffer)
    (k : Nat) : ∀ (fuel : Nat) (t : Trace), k < fuel →
    (∀ j, j < k →
      env.dqbuf (List.replicate j (Event.dqbuf fd buffer (.err errno_EAGAIN)) ++ t) fd buffer
        = .err errno_EAGAIN) →
    env.dqbuf (List.replicate k (Event.dqbuf fd buffer (.err errno_EAGAIN)) ++ t) fd buffer
        = res →
    res ≠ .err errno_EAGAIN →
    v4l2_encoder_run_dequeue env fd fuel buffer t
      = some (res.ret, res.arg buffer,
              Event.dqbuf fd buffer res ::
                (List.replicate k (Event.dqbuf fd buffer (.err errno_EAGAIN)) ++ t)) := by
  induction k with
  | zero =>
    intro fuel t hf _ hres hne
    obtain ⟨n, rfl⟩ : ∃ n, fuel = n + 1 := ⟨fuel - 1, by omega⟩
    simp only [List.replicate_zero, List.nil_append] at hres ⊢
    cases res with
    | ok b =>
      rw [run_dequeue_ok n hres]
      rfl
    | err x =>
      rw [run_dequeue_err n hres (fun hx => hne (by rw [hx]))]
      rfl
  | succ k ih =>
    intro fuel t hf hagain hres hne
    obtain ⟨n, rfl⟩ : ∃ n, fuel = n + 1 := ⟨fuel - 1, by omega⟩
    have h0 := hagain 0 (by omega)
    simp only [List.replicate_zero, List.nil_append] at h0
    rw [run_dequeue_again n h0]
    have key : ∀ j, List.replicate (j + 1) (Event.dqbuf fd buffer (.err errno_EAGAIN)) ++ t
        = List.replicate j (Event.dqbuf fd buffer (.err errno_EAGAIN)) ++
            (Event.dqbuf fd buffer (.err errno_EAGAIN) :: t) := by
      intro j
      rw [List.replicate_succ', List.append_assoc]
      rfl
    rw [key k] at hres ⊢
    refine ih n _ (by omega) ?_ hres hne
    intro j hj
    rw [← key j]
    exact hagain (j + 1) (by omega)


theorem run_frame {env : Env} {fuel : Nat} {e e' : v4l2_encoder} {t t' : Trace} {r : Int}
    (h : v4l2_encoder_run env fuel e t = some (r, e', t')) :
    e'.frame_number = e.frame_number ∧
    e'.output_buffers_count = e.output_buffers_count ∧
    e'.capture_buffers_count = e.capture_buffers_count ∧
    e'.output_buffers.length = e.output_buffers.length ∧
    e'.capture_buffers.length = e.capture_buffers.length ∧
    e'.output_buffers_index
      = (e.output_buffers_index + 1) % UINT_WIDTH % e.output_buffers_count ∧
    e.output_buffers_count ≠ 0 ∧
    (v4l2_encoder_run_picture_queued env e t = true →
      e'.capture_buffers_index
        = (e.capture_buffers_index + 1) % UINT_WIDTH % e.capture_buffers_count ∧
      e.capture_buffers_count ≠ 0) ∧
    (v4l2_encoder_run_picture_queued env e t = false →
      e'.capture_buffers_index = e.capture_buffers_index) ∧
    (r ≠ 0 → e'.capture_returned_index = e.capture_returned_index) := by
  unfold v4l2_encoder_run at h
  cases hs : v4l2_encoder_run_submit env e t with
  | none => simp [hs] at h
  | some res =>
    have hf := run_submit_frame hs
    cases res with
    | ret r0 e0 t0 =>
      simp only [hs] at h
      cases h
      simp only [RunSubmit.encoder] at hf
      obtain ⟨h1, h2, h3, h4, h5, h6, h7, h8, h9, h10⟩ := hf
      exact ⟨h1, h3, h4, h5, h6, h7, h8, h9, h10, fun _ => h2⟩
    | wait oi ci e0 t0 =>
      simp only [hs] at h
      simp only [RunSubmit.encoder] at hf
      obtain ⟨h1, h2, h3, h4, h5, h6, h7, h8, h9, h10⟩ := hf
      split at h
      · split at h
        · cases h
        · split at h
          · cases h
            exact ⟨h1, h3, h4, h5, h6, h7, h8, h9, h10, fun _ => h2⟩
          · split at h
            · cases h
              exact ⟨h1, h3, h4, h5, h6, h7, h8, h9, h10, fun _ => h2⟩
            · split at h
              · cases h
              · split at h
                · cases h
                  exact ⟨h1, h3, h4, h5, h6, h7, h8, h9, h10, fun _ => h2⟩
                · split at h
                  · cases h
                    exact ⟨h1, h3, h4, h5, h6, h7, h8, h9, h10, fun _ => h2⟩
                  · split at h
                    · cases h
                    · cases h
                      refine ⟨h1, h3, h4, h5, ?_, h7, h8, h9, h10, fun hr => absurd rfl hr⟩
                      simp [h6]
      · cases h


/-! ## Index mismatch -/

/-- C2: in a call of `v4l2_encoder_run` that got past the wait, if the buffer
dequeued from the raw-input queue has an index other than that of the input
slot submitted in this call, or the raw-input index matches and the buffer
dequeued from the coded queue has an index other than that of the coded slot
submitted in this call, then the call returns -1; the mismatching dequeue is
the last call made to the transport (no retry), and `frame_number` and
`capture_returned_index` are what they were before the call. -/
theorem run_protocol_desync (env : Env) (fuel : Nat) (e e1 : v4l2_encoder)
    (t t1 t2 tEnd : Trace) (oi ci : Nat) (ob cb : v4l2_encoder_buffer) (b : v4l2_buffer)
    (hsubmit : v4l2_encoder_run_submit env e t = some (.wait oi ci e1 t1))
    (hob : e1.output_buffers[oi]? = some ob)
    (hcb : e1.capture_buffers[ci]? = some cb)
    (hdq : v4l2_encoder_run_dequeue env e1.video_fd fuel
             (v4l2_buffer_setup_base e1.output_type e1.memory) t1 = some (0, b, t2))
    (hdesync : (b.index ≠ ob.buffer.index ∧ tEnd = t2) ∨
      (b.index = ob.buffer.index ∧
        ∃ b2, v4l2_encoder_run_dequeue env e1.video_fd fuel
                (v4l2_buffer_setup_base e1.capture_type e1.memory) t2 = some (0, b2, tEnd) ∧
              b2.index ≠ cb.buffer.index)) :
    v4l2_encoder_run env fuel e t = some (-1, e1, tEnd) ∧
      (-1 : Int) ≠ 0 ∧
      e1.frame_number = e.frame_number ∧
      e1.capture_returned_index = e.capture_returned_index ∧
      ∃ arg bad rest, tEnd = Event.dqbuf e1.video_fd arg (.ok bad) :: rest ∧
        (bad.index ≠ ob.buffer.index ∨ bad.index ≠ cb.buffer.index) := by
  have hf := run_submit_frame hsubmit
  simp only [RunSubmit.encoder] at hf
  refine ⟨?_, by decide, hf.1, hf.2.1, ?_⟩
  · unfold v4l2_encoder_run
    simp only [hsubmit, hob, hcb, hdq]
    rcases hdesync with ⟨hne, rfl⟩ | ⟨heq, b2, hdq2, hne⟩
    · simp [hne]
    · simp [heq, hdq2, hne]
  · rcases hdesync with ⟨hne, rfl⟩ | ⟨heq, b2, hdq2, hne⟩
    · obtain ⟨arg, rest, hrest⟩ := (run_dequeue_ret hdq).2 rfl
      exact ⟨arg, b, rest, hrest, Or.inl hne⟩
    · obtain ⟨arg, rest, hrest⟩ := (run_dequeue_ret hdq2).2 rfl
      exact ⟨arg, b2, rest, hrest, Or.inr hne⟩

theorem run_protocol_desync_witness :
    desync_dequeue.2.1.index
        ≠ (desync_submit.encoder.output_buffers.getD 0 v4l2_encoder_buffer.zero).buffer.index ∧
      v4l2_encoder_run desync_env 1 configured_encoder configured_trace
        = some (-1, desync_submit.encoder, desync_dequeue.2.2) :=
  ⟨by decide,
   (run_protocol_desync desync_env 1 configured_encoder desync_submit.encoder
      configured_trace desync_submit.trace desync_dequeue.2.2 desync_dequeue.2.2 0 0
      (desync_submit.encoder.output_buffers.getD 0 v4l2_encoder_buffer.zero)
      (desync_submit.encoder.capture_buffers.getD 0 v4l2_encoder_buffer.zero)
      desync_dequeue.2.1
      (by rfl) (by rfl) (by rfl) (by rfl) (Or.inl ⟨by decide, rfl⟩)).1⟩

/-! ## Transient retry -/

theorem dequeue_attempts_retry (fd : Int) (buffer : v4l2_buffer) (res : Sys v4l2_buffer)
    (k : Nat) (t : Trace) :
    dequeue_attempts (Event.dqbuf fd buffer res ::
        (List.replicate k (Event.dqbuf fd buffer (.err errno_EAGAIN)) ++ t))
      = dequeue_attempts t + (k + 1) := by
  unfold dequeue_attempts
  rw [List.countP_cons, List.countP_append]
  have : List.countP Event.is_dqbuf
      (List.replicate k (Event.dqbuf fd buffer (.err errno_EAGAIN))) = k := by
    rw [List.countP_eq_length.2]
    · simp
    · intro a ha
      rw [List.eq_of_mem_replicate ha]
      rfl
  rw [this]
  simp only [Event.is_dqbuf, if_true]
  omega

/-- C4: if a dequeue loop of `v4l2_encoder_run` is answered `EAGAIN` `k` times
and then with anything else (a buffer, or another error), then, given more than
`k` attempts of fuel, the loop ends after exactly `k + 1` dequeue attempts with
that answer (0 and the buffer, or the other error at once, without retry) and
never with `-EAGAIN`; a call of `v4l2_encoder_run` that got past the wait never
returns `-EAGAIN`, and it returns a non-zero result of its first loop as it
is, with no further call to the transport. -/
theorem run_transient_retry (env : Env) (video_fd : Int) (buffer : v4l2_buffer) (t : Trace)
    (k fuel : Nat) (res : Sys v4l2_buffer)
    (encoder encoder1 e' : v4l2_encoder) (t0 t1 t' : Trace) (oi ci fuel' : Nat) (r : Int)
    (hfuel : k < fuel)
    (hagain : ∀ j, j < k →
      env.dqbuf (List.replicate j (Event.dqbuf video_fd buffer (.err errno_EAGAIN)) ++ t)
        video_fd buffer = .err errno_EAGAIN)
    (hthen : env.dqbuf (List.replicate k (Event.dqbuf video_fd buffer (.err errno_EAGAIN)) ++ t)
        video_fd buffer = res)
    (hres : res ≠ .err errno_EAGAIN)
    (hsubmit : v4l2_encoder_run_submit env encoder t0 = some (.wait oi ci encoder1 t1))
    (hrun : v4l2_encoder_run env fuel' encoder t0 = some (r, e', t')) :
    v4l2_encoder_run_dequeue env video_fd fuel buffer t
        = some (res.ret, res.arg buffer,
                Event.dqbuf video_fd buffer res ::
                  (List.replicate k (Event.dqbuf video_fd buffer (.err errno_EAGAIN)) ++ t)) ∧
      dequeue_attempts (Event.dqbuf video_fd buffer res ::
          (List.replicate k (Event.dqbuf video_fd buffer (.err errno_EAGAIN)) ++ t))
        = dequeue_attempts t + (k + 1) ∧
      res.ret ≠ -EAGAIN ∧
      r ≠ -EAGAIN ∧
      (∀ ret b T,
        v4l2_encoder_run_dequeue env encoder1.video_fd fuel'
            (v4l2_buffer_setup_base encoder1.output_type encoder1.memory) t1
          = some (ret, b, T) →
        ret ≠ 0 → r = ret ∧ e' = encoder1 ∧ t' = T) := by
  have hloop := run_dequeue_retry res k fuel t hfuel hagain hthen hres
  refine ⟨hloop, dequeue_attempts_retry video_fd buffer res k t, (run_dequeue_ret hloop).1,
    ?_, ?_⟩
  · unfold v4l2_encoder_run at hrun
    simp only [hsubmit] at hrun
    split at hrun
    · split at hrun
      · cases hrun
      · rename_i hd1
        split at hrun
        · cases hrun
          exact (run_dequeue_ret hd1).1
        · split at hrun
          · cases hrun
            decide
          · split at hrun
            · cases hrun
            · rename_i hd2
              split at hrun
              · cases hrun
                exact (run_dequeue_ret hd2).1
              · split at hrun
                · cases hrun
                  decide
                · split at hrun
                  · cases hrun
                  · cases hrun
                    decide
    · cases hrun
  · intro ret b T hd hne
    unfold v4l2_encoder_run at hrun
    simp only [hsubmit] at hrun
    split at hrun
    · simp only [hd, hne, ne_eq, not_false_eq_true, ↓reduceIte, Option.some.injEq,
        Prod.mk.injEq] at hrun
      exact ⟨hrun.1.symm, hrun.2.1.symm, hrun.2.2.symm⟩
    · cases hrun


theorem run_transient_retry_witness :
    v4l2_encoder_run_dequeue retry_env 4 3
        (v4l2_buffer_setup_base V4L2_BUF_TYPE_VIDEO_OUTPUT V4L2_MEMORY_MMAP) retry_submit.trace
        = some ((retry_env.dqbuf
                  (List.replicate 2
                      (Event.dqbuf 4
                        (v4l2_buffer_setup_base V4L2_BUF_TYPE_VIDEO_OUTPUT V4L2_MEMORY_MMAP)
                        (.err errno_EAGAIN)) ++ retry_submit.trace)
                  4 (v4l2_buffer_setup_base V4L2_BUF_TYPE_VIDEO_OUTPUT V4L2_MEMORY_MMAP)).ret,
                (retry_env.dqbuf
                  (List.replicate 2
                      (Event.dqbuf 4
                        (v4l2_buffer_setup_base V4L2_BUF_TYPE_VIDEO_OUTPUT V4L2_MEMORY_MMAP)
                        (.err errno_EAGAIN)) ++ retry_submit.trace)
                  4 (v4l2_buffer_setup_base V4L2_BUF_TYPE_VIDEO_OUTPUT V4L2_MEMORY_MMAP)).arg
                  (v4l2_buffer_setup_base V4L2_BUF_TYPE_VIDEO_OUTPUT V4L2_MEMORY_MMAP),
                Event.dqbuf 4
                    (v4l2_buffer_setup_base V4L2_BUF_TYPE_VIDEO_OUTPUT V4L2_MEMORY_MMAP)
                    (retry_env.dqbuf
                      (List.replicate 2
                          (Event.dqbuf 4
                            (v4l2_buffer_setup_base V4L2_BUF_TYPE_VIDEO_OUTPUT V4L2_MEMORY_MMAP)
                            (.err errno_EAGAIN)) ++ retry_submit.trace)
                      4 (v4l2_buffer_setup_base V4L2_BUF_TYPE_VIDEO_OUTPUT V4L2_MEMORY_MMAP)) ::
                  (List.replicate 2
                      (Event.dqbuf 4
                        (v4l2_buffer_setup_base V4L2_BUF_TYPE_VIDEO_OUTPUT V4L2_MEMORY_MMAP)
                        (.err errno_EAGAIN)) ++ retry_submit.trace)) ∧
      ((v4l2_encoder_run retry_env 3 configured_encoder configured_trace).getD
          (0, configured_encoder, [])).1 ≠ -EAGAIN :=
  have h := run_transient_retry retry_env 4
    (v4l2_buffer_setup_base V4L2_BUF_TYPE_VIDEO_OUTPUT V4L2_MEMORY_MMAP) retry_submit.trace 2 3
    (retry_env.dqbuf
      (List.replicate 2
          (Event.dqbuf 4 (v4l2_buffer_setup_base V4L2_BUF_TYPE_VIDEO_OUTPUT V4L2_MEMORY_MMAP)
            (.err errno_EAGAIN)) ++ retry_submit.trace)
      4 (v4l2_buffer_setup_base V4L2_BUF_TYPE_VIDEO_OUTPUT V4L2_MEMORY_MMAP))
    configured_encoder retry_submit.encoder
    ((v4l2_encoder_run retry_env 3 configured_encoder configured_trace).getD
      (0, configured_encoder, [])).2.1
    configured_trace retry_submit.trace
    ((v4l2_encoder_run retry_env 3 configured_encoder configured_trace).getD
      (0, configured_encoder, [])).2.2
    0 0 3
    ((v4l2_encoder_run retry_env 3 configured_encoder configured_trace).getD
      (0, configured_encoder, [])).1
    (by decide)
    (by intro j hj; interval_cases j <;> rfl)
    (by rfl)
    (by decide)
    (by rfl)
    (by rfl)
  ⟨h.1, h.2.2.2.1⟩

/-! ## Frame counter -/

theorem complete_frame {env : Env} {e e' : v4l2_encoder} {t t' : Trace} {r : Int}
    (h : v4l2_encoder_complete env e t = some (r, e', t')) :
    r = 0 ∧ e'.frame_number = (e.frame_number + 1) % UINT_WIDTH := by
  unfold v4l2_encoder_complete at h
  split at h
  · cases h
  · cases h
    exact ⟨rfl, rfl⟩

theorem encode_frame_number {env : Env} {fuel : Nat} (n : Nat) :
    ∀ {e e' : v4l2_encoder} {t t' : Trace},
      v4l2_encoder_encode env fuel n e t = some (e', t') →
      e'.frame_number = (e.frame_number % UINT_WIDTH + n) % UINT_WIDTH ∨
        (n = 0 ∧ e'.frame_number = e.frame_number) := by
  induction n with
  | zero =>
    intro e e' t t' h
    simp only [v4l2_encoder_encode, Option.some.injEq, Prod.mk.injEq] at h
    exact Or.inr ⟨rfl, by rw [h.1]⟩
  | succ n ih =>
    intro e e' t t' h
    left
    unfold v4l2_encoder_encode at h
    cases hn : v4l2_encoder_encode env fuel n e t with
    | none => simp [hn] at h
    | some p =>
      obtain ⟨en, tn⟩ := p
      simp only [hn] at h
      split at h
      · rename_i e1 t2 hrun
        split at h
        · rename_i e2 t3 hc
          cases h
          have h1 := (run_frame hrun).1
          have h2 := (complete_frame hc).2
          rw [h2, h1]
          rcases ih hn with h3 | ⟨h3, h4⟩
          · rw [h3]
            unfold UINT_WIDTH
            omega
          · rw [h4, h3]
            unfold UINT_WIDTH
            omega
        · cases h
      · cases h

/-- C6, amended: `v4l2_encoder_run` leaves `frame_number` unchanged; every call
of `v4l2_encoder_complete` returns 0 and sets `frame_number` to
`(frame_number + 1) mod 2^32`; hence after `n` iterations of run and complete
that each return 0, starting from `frame_number` 0, `frame_number` is
`n mod 2^32`. -/
theorem frame_counter (env : Env) (fuel n : Nat) (a a1 a2 e e' : v4l2_encoder)
    (s s1 s2 t t' : Trace) (r1 r2 : Int)
    (hrun : v4l2_encoder_run env fuel a s = some (r1, a1, s1))
    (hcomplete : v4l2_encoder_complete env a1 s1 = some (r2, a2, s2))
    (hzero : e.frame_number = 0)
    (hloop : v4l2_encoder_encode env fuel n e t = some (e', t')) :
    a1.frame_number = a.frame_number ∧
      r2 = 0 ∧
      a2.frame_number = (a1.frame_number + 1) % UINT_WIDTH ∧
      e'.frame_number = n % UINT_WIDTH := by
  refine ⟨(run_frame hrun).1, (complete_frame hcomplete).1, (complete_frame hcomplete).2, ?_⟩
  rcases encode_frame_number n hloop with h | ⟨h1, h2⟩
  · rw [h, hzero]
    simp
  · rw [h2, hzero, h1]
    rfl

/-- C6, as stated, fails: a call of `v4l2_encoder_complete` with `frame_number`
at `2^32 - 1` leaves it at 0, not one higher. -/
theorem frame_counter_counterexample :
    last_frame_encoder.frame_number = 4294967295 ∧
      (v4l2_encoder_complete ready_env last_frame_encoder []).map
        (fun r => (r.1, r.2.1.frame_number)) = some (0, 0) := by
  decide

theorem frame_counter_witness :
    configured_encoder.frame_number = 0 ∧
      ((v4l2_encoder_encode ready_env 1 10 configured_encoder configured_trace).getD
          (opened_encoder, [])).1.frame_number = 10 % UINT_WIDTH :=
  ⟨by decide,
   (frame_counter ready_env 1 10 configured_encoder
      ((v4l2_encoder_run ready_env 1 configured_encoder configured_trace).getD
        (0, opened_encoder, [])).2.1
      ((v4l2_encoder_complete ready_env
          ((v4l2_encoder_run ready_env 1 configured_encoder configured_trace).getD
            (0, opened_encoder, [])).2.1
          ((v4l2_encoder_run ready_env 1 configured_encoder configured_trace).getD
            (0, opened_encoder, [])).2.2).getD (1, opened_encoder, [])).2.1
      configured_encoder
      ((v4l2_encoder_encode ready_env 1 10 configured_encoder configured_trace).getD
        (opened_encoder, [])).1
      configured_trace
      ((v4l2_encoder_run ready_env 1 configured_encoder configured_trace).getD
        (0, opened_encoder, [])).2.2
      ((v4l2_encoder_complete ready_env
          ((v4l2_encoder_run ready_env 1 configured_encoder configured_trace).getD
            (0, opened_encoder, [])).2.1
          ((v4l2_encoder_run ready_env 1 configured_encoder configured_trace).getD
            (0, opened_encoder, [])).2.2).getD (1, opened_encoder, [])).2.2
      configured_trace
      ((v4l2_encoder_encode ready_env 1 10 configured_encoder configured_trace).getD
        (opened_encoder, [])).2
      ((v4l2_encoder_run ready_env 1 configured_encoder configured_trace).getD
        (0, opened_encoder, [])).1
      ((v4l2_encoder_complete ready_env
          ((v4l2_encoder_run ready_env 1 configured_encoder configured_trace).getD
            (0, opened_encoder, [])).2.1
          ((v4l2_encoder_run ready_env 1 configured_encoder configured_trace).getD
            (0, opened_encoder, [])).2.2).getD (1, opened_encoder, [])).1
      (by rfl) (by rfl) (by decide) (by rfl)).2.2.2⟩

/-! ## Round-robin slot selection -/

theorem cleanup_munmap_congr (env : Env) (n : Nat) :
    ∀ (i : Nat) (b b2 : v4l2_encoder_buffer) (s : Trace),
      b2.mmap_data = b.mmap_data → b2.buffer = b.buffer →
      v4l2_encoder_buffer_cleanup_munmap env n i b2 s
        = v4l2_encoder_buffer_cleanup_munmap env n i b s := by
  induction n with
  | zero => intro i b b2 s _ _; rfl
  | succ n ih =>
    intro i b b2 s h1 h2
    unfold v4l2_encoder_buffer_cleanup_munmap
    rw [h1, h2]
    split
    · split
      · rfl
      · exact ih _ _ _ _ h1 h2
      · exact ih _ _ _ _ h1 h2
      · split
        · exact ih _ _ _ _ h1 h2
        · exact ih _ _ _ _ h1 h2
    · rfl

theorem cleanup_munmap_spec (env : Env) (n : Nat) :
    ∀ (i : Nat) (b : v4l2_encoder_buffer) (s : Trace),
      i + n ≤ PLANES_ARRAY_SIZE → b.mmap_data.length = PLANES_ARRAY_SIZE →
      ∃ s' X, v4l2_encoder_buffer_cleanup_munmap env n i b s = some s' ∧
        unmapped_regions s' = X ++ unmapped_regions s ∧
        mapped_regions s' = mapped_regions s ∧
        opened_requests s' = opened_requests s ∧
        closed_fds s' = closed_fds s ∧
        (planes_unmapped b i (i + n) → X = []) := by
  induction n with
  | zero =>
    intro i b s _ _
    exact ⟨s, [], rfl, rfl, rfl, rfl, rfl, fun _ => rfl⟩
  | succ n ih =>
    intro i b s hi hl
    have hi4 : i < PLANES_ARRAY_SIZE := by omega
    have hlt : i < b.mmap_data.length := by omega
    unfold v4l2_encoder_buffer_cleanup_munmap
    simp only [hi4, ↓reduceIte]
    have hget : b.mmap_data[i]? = some b.mmap_data[i] := List.getElem?_eq_getElem hlt
    have hsub : planes_unmapped b i (i + (n + 1)) → planes_unmapped b (i + 1) (i + 1 + n) :=
      fun h j h1 h2 => h j (by omega) (by omega)
    cases hp : b.mmap_data[i] with
    | null =>
      rw [hget, hp]
      obtain ⟨s', X, h1, h2, h3, h4, h5, h6⟩ := ih (i + 1) b s (by omega) hl
      exact ⟨s', X, h1, h2, h3, h4, h5, fun hf => h6 (hsub hf)⟩
    | map_failed =>
      rw [hget, hp]
      obtain ⟨s', X, h1, h2, h3, h4, h5, h6⟩ := ih (i + 1) b s (by omega) hl
      exact ⟨s', X, h1, h2, h3, h4, h5, fun hf => h6 (hsub hf)⟩
    | addr a =>
      rw [hget, hp]
      have hnot : ¬ planes_unmapped b i (i + (n + 1)) := by
        intro hf
        have := hf i (by omega) (le_refl _)
        rw [hget, hp] at this
        rcases this with h | h <;> cases h
      cases hlen : v4l2_buffer_plane_length b.buffer i with
      | ok length =>
        simp only
        obtain ⟨s', X, h1, h2, h3, h4, h5, _⟩ :=
          ih (i + 1) b (Event.munmap a length :: s) (by omega) hl
        refine ⟨s', X ++ [(a, length)], h1, ?_, ?_, ?_, ?_, fun hf => absurd hf hnot⟩
        · rw [h2]; simp [unmapped_regions, Event.unmapped]
        · rw [h3]; simp [mapped_regions, Event.mapped]
        · rw [h4]; simp [opened_requests, Event.opened]
        · rw [h5]; simp [closed_fds, Event.closed]
      | error r =>
        simp only
        obtain ⟨s', X, h1, h2, h3, h4, h5, _⟩ :=
          ih (i + 1) b (Event.munmap a (env.uninit s) :: s) (by omega) hl
        refine ⟨s', X ++ [(a, env.uninit s)], h1, ?_, ?_, ?_, ?_, fun hf => absurd hf hnot⟩
        · rw [h2]; simp [unmapped_regions, Event.unmapped]
        · rw [h3]; simp [mapped_regions, Event.mapped]
        · rw [h4]; simp [opened_requests, Event.opened]
        · rw [h5]; simp [closed_fds, Event.closed]


theorem setup_mmap_spec (env : Env) (encoder : v4l2_encoder) (n : Nat) :
    ∀ (i : Nat) (b : v4l2_encoder_buffer) (t : Trace),
      i + n ≤ PLANES_ARRAY_SIZE → b.mmap_data.length = PLANES_ARRAY_SIZE →
      ∃ ret b' t' M, v4l2_encoder_buffer_setup_mmap env encoder n i b t = some (ret, b', t') ∧
        mapped_regions t' = M ++ mapped_regions t ∧
        unmapped_regions t' = unmapped_regions t ∧
        opened_requests t' = opened_requests t ∧
        closed_fds t' = closed_fds t ∧
        b'.buffer = b.buffer ∧ b'.planes_count = b.planes_count ∧
        b'.request_fd = b.request_fd ∧ b'.encoder = b.encoder ∧
        b'.mmap_data.length = PLANES_ARRAY_SIZE ∧
        (∀ j, j < i → b'.mmap_data[j]? = b.mmap_data[j]?) ∧
        ∀ s, ∃ s' X, v4l2_encoder_buffer_cleanup_munmap env n i b' s = some s' ∧
          unmapped_regions s' = X ++ M ++ unmapped_regions s ∧
          mapped_regions s' = mapped_regions s ∧
          opened_requests s' = opened_requests s ∧
          closed_fds s' = closed_fds s ∧
          (planes_unmapped b i (i + n) → X = []) := by
  induction n with
  | zero =>
    intro i b t _ hl
    exact ⟨0, b, t, [], rfl, rfl, rfl, rfl, rfl, rfl, rfl, rfl, rfl, hl, fun _ _ => rfl,
      fun s => ⟨s, [], rfl, rfl, rfl, rfl, rfl, fun _ => rfl⟩⟩
  | succ n ih =>
    intro i b t hi hl
    have hi4 : i < PLANES_ARRAY_SIZE := by omega
    have hlt : i < b.mmap_data.length := by omega
    have fallback : ∀ s, ∃ s' X,
        v4l2_encoder_buffer_cleanup_munmap env (n + 1) i b s = some s' ∧
          unmapped_regions s' = X ++ [] ++ unmapped_regions s ∧
          mapped_regions s' = mapped_regions s ∧
          opened_requests s' = opened_requests s ∧
          closed_fds s' = closed_fds s ∧
          (planes_unmapped b i (i + (n + 1)) → X = []) := by
      intro s
      obtain ⟨s', X, h1, h2, h3, h4, h5, h6⟩ := cleanup_munmap_spec env (n + 1) i b s hi hl
      exact ⟨s', X, h1, by simpa using h2, h3, h4, h5, h6⟩
    unfold v4l2_encoder_buffer_setup_mmap
    cases hoff : v4l2_buffer_plane_offset b.buffer i with
    | error r =>
      exact ⟨r, b, t, [], rfl, rfl, rfl, rfl, rfl, rfl, rfl, rfl, rfl, hl, fun _ _ => rfl,
        fallback⟩
    | ok offset =>
      cases hlen : v4l2_buffer_plane_length b.buffer i with
      | error r =>
        exact ⟨r, b, t, [], rfl, rfl, rfl, rfl, rfl, rfl, rfl, rfl, rfl, hl, fun _ _ => rfl,
          fallback⟩
      | ok length =>
        simp only [hi4, ↓reduceIte]
        cases hm : env.mmap t length encoder.video_fd offset with
        | err x =>
          simp only
          refine ⟨neg_errno x, _, _, [], rfl, ?_, ?_, ?_, ?_, rfl, rfl, rfl, rfl, ?_, ?_, ?_⟩
          · simp [mapped_regions, Event.mapped]
          · simp [unmapped_regions, Event.unmapped]
          · simp [opened_requests, Event.opened]
          · simp [closed_fds, Event.closed]
          · simp [hl]
          · intro j hj
            simp only
            rw [List.getElem?_set_ne (by omega)]
          · intro s
            unfold v4l2_encoder_buffer_cleanup_munmap
            simp only [hi4, ↓reduceIte]
            rw [List.getElem?_set_self hlt]
            simp only
            obtain ⟨s', X, h1, h2, h3, h4, h5, h6⟩ :=
              cleanup_munmap_spec env n (i + 1)
                { b with mmap_data := b.mmap_data.set i Ptr.map_failed } s (by omega)
                (by simp [hl])
            refine ⟨s', X, h1, by simpa using h2, h3, h4, h5, fun hf => h6 ?_⟩
            intro j h1 h2
            have := hf j (by omega) (by omega)
            simp only
            rw [List.getElem?_set_ne (by omega)]
            exact this
        | ok a =>
          simp only
          obtain ⟨ret, b', t', M, g1, g2, g3, g4, g5, g6, g7, g8, g9, g10, g11, g12⟩ :=
            ih (i + 1) { b with mmap_data := b.mmap_data.set i (Ptr.addr a) }
              (Event.mmap length encoder.video_fd offset (.ok a) :: t) (by omega)
              (by simp [hl])
          refine ⟨ret, b', t', M ++ [(a, length)], g1, ?_, ?_, ?_, ?_, g6, g7, g8, g9, g10,
            ?_, ?_⟩
          · rw [g2]; simp [mapped_regions, Event.mapped]
          · rw [g3]; simp [unmapped_regions, Event.unmapped]
          · rw [g4]; simp [opened_requests, Event.opened]
          · rw [g5]; simp [closed_fds, Event.closed]
          · intro j hj
            rw [g11 j (by omega)]
            simp only
            rw [List.getElem?_set_ne (by omega)]
          · intro s
            unfold v4l2_encoder_buffer_cleanup_munmap
            simp only [hi4, ↓reduceIte]
            have hread : b'.mmap_data[i]? = some (Ptr.addr a) := by
              rw [g11 i (by omega)]
              simp only
              rw [List.getElem?_set_self hlt]
            have hlen' : v4l2_buffer_plane_length b'.buffer i = .ok length := by
              rw [g6]; exact hlen
            rw [hread]
            simp only [hlen']
            obtain ⟨s', X, h1, h2, h3, h4, h5, h6⟩ := g12 (Event.munmap a length :: s)
            refine ⟨s', X, h1, ?_, ?_, ?_, ?_, fun hf => h6 ?_⟩
            · rw [h2]; simp [unmapped_regions, Event.unmapped]
            · rw [h3]; simp [mapped_regions, Event.mapped]
            · rw [h4]; simp [opened_requests, Event.opened]
            · rw [h5]; simp [closed_fds, Event.closed]
            · intro j h1 h2
              have := hf j (by omega) (by omega)
              simp only
              rw [List.getElem?_set_ne (by omega)]
              exact this


theorem setup_maps_spec (env : Env) (encoder : v4l2_encoder) (b : v4l2_encoder_buffer)
    (t : Trace) (hplanes : b.planes_count ≤ PLANES_ARRAY_SIZE)
    (hdata : b.mmap_data.length = PLANES_ARRAY_SIZE) :
    ∃ ret b' t' M,
      (if encoder.memory = V4L2_MEMORY_MMAP then
         v4l2_encoder_buffer_setup_mmap env encoder b.planes_count 0 b t
       else some (0, b, t)) = some (ret, b', t') ∧
      mapped_regions t' = M ++ mapped_regions t ∧
      unmapped_regions t' = unmapped_regions t ∧
      opened_requests t' = opened_requests t ∧
      closed_fds t' = closed_fds t ∧
      b'.planes_count = b.planes_count ∧
      b'.request_fd = b.request_fd ∧ b'.encoder = b.encoder ∧
      ∀ (b2 : v4l2_encoder_buffer) (s : Trace),
        b2.mmap_data = b'.mmap_data → b2.buffer = b'.buffer →
        ∃ s' X,
          (if encoder.memory = V4L2_MEMORY_MMAP then
             v4l2_encoder_buffer_cleanup_munmap env b.planes_count 0 b2 s
           else some s) = some s' ∧
          unmapped_regions s' = X ++ M ++ unmapped_regions s ∧
          mapped_regions s' = mapped_regions s ∧
          opened_requests s' = opened_requests s ∧
          closed_fds s' = closed_fds s ∧
          (planes_unmapped b 0 b.planes_count → X = []) := by
  by_cases hm : encoder.memory = V4L2_MEMORY_MMAP
  · simp only [hm, ↓reduceIte]
    obtain ⟨ret, b', t', M, g1, g2, g3, g4, g5, _, g7, g8, g9, _, _, g12⟩ :=
      setup_mmap_spec env encoder b.planes_count 0 b t (by omega) hdata
    refine ⟨ret, b', t', M, g1, g2, g3, g4, g5, g7, g8, g9, ?_⟩
    intro b2 s e1 e2
    rw [cleanup_munmap_congr env b.planes_count 0 b' b2 s e1 e2]
    obtain ⟨s', X, h1, h2, h3, h4, h5, h6⟩ := g12 s
    exact ⟨s', X, h1, h2, h3, h4, h5, fun hf => h6 (by simpa using hf)⟩
  · simp only [hm, ↓reduceIte]
    exact ⟨0, b, t, [], rfl, rfl, rfl, rfl, rfl, rfl, rfl, rfl,
      fun _ s _ _ => ⟨s, [], rfl, rfl, rfl, rfl, rfl, fun _ => rfl⟩⟩

theorem trace_close (fd : Int) (s : Trace) :
    mapped_regions (if 0 ≤ fd then Event.close fd :: s else s) = mapped_regions s ∧
    unmapped_regions (if 0 ≤ fd then Event.close fd :: s else s) = unmapped_regions s ∧
    opened_requests (if 0 ≤ fd then Event.close fd :: s else s) = opened_requests s ∧
    closed_fds (if 0 ≤ fd then Event.close fd :: s else s)
      = (if 0 ≤ fd then [fd] else []) ++ closed_fds s := by
  by_cases h : 0 ≤ fd
  · simp [h, mapped_regions, unmapped_regions, opened_requests, closed_fds, Event.mapped,
      Event.unmapped, Event.opened, Event.closed]
  · simp [h]

theorem trace_request_alloc (media_fd fd : Int) (s : Trace) :
    mapped_regions (Event.media_request_alloc media_fd fd :: s) = mapped_regions s ∧
    unmapped_regions (Event.media_request_alloc media_fd fd :: s) = unmapped_regions s ∧
    opened_requests (Event.media_request_alloc media_fd fd :: s)
      = (if 0 ≤ fd then [fd] else []) ++ opened_requests s ∧
    closed_fds (Event.media_request_alloc media_fd fd :: s) = closed_fds s := by
  by_cases h : 0 ≤ fd
  · simp [h, mapped_regions, unmapped_regions, opened_requests, closed_fds, Event.mapped,
      Event.unmapped, Event.opened, Event.closed]
  · simp [h, mapped_regions, unmapped_regions, opened_requests, closed_fds, Event.mapped,
      Event.unmapped, Event.opened, Event.closed]

theorem trace_querybuf (fd : Int) (arg : v4l2_buffer) (res : Sys v4l2_buffer) (s : Trace) :
    mapped_regions (Event.querybuf fd arg res :: s) = mapped_regions s ∧
    unmapped_regions (Event.querybuf fd arg res :: s) = unmapped_regions s ∧
    opened_requests (Event.querybuf fd arg res :: s) = opened_requests s ∧
    closed_fds (Event.querybuf fd arg res :: s) = closed_fds s := by
  simp [mapped_regions, unmapped_regions, opened_requests, closed_fds, Event.mapped,
    Event.unmapped, Event.opened, Event.closed]

theorem buffer_cleanup_of_munmap (env : Env) (encoder : v4l2_encoder)
    (b1 : v4l2_encoder_buffer) (s s' : Trace) (he : b1.encoder = true)
    (h : (if encoder.memory = V4L2_MEMORY_MMAP then
            v4l2_encoder_buffer_cleanup_munmap env b1.planes_count 0 b1 s
          else some s) = some s') :
    v4l2_encoder_buffer_cleanup env encoder b1 s
      = some (0, { v4l2_encoder_buffer.zero with request_fd := -1 },
              if 0 ≤ b1.request_fd then Event.close b1.request_fd :: s' else s') := by
  unfold v4l2_encoder_buffer_cleanup
  simp only [he, Bool.not_true, Bool.false_eq_true, ↓reduceIte, h]

/-- The part of `v4l2_encoder_buffer_setup` after a successful query, followed
by the cleanup of the record it leaves. -/
theorem buffer_setup_tail (env : Env) (encoder : v4l2_encoder) (b : v4l2_encoder_buffer)
    (type : Nat) (t : Trace) (he : b.encoder = true)
    (hplanes : b.planes_count ≤ PLANES_ARRAY_SIZE)
    (hdata : b.mmap_data.length = PLANES_ARRAY_SIZE) :
    ∃ ret b1 t1 ret2 b2 t2 M X R C,
      (match (if encoder.memory = V4L2_MEMORY_MMAP then
               v4l2_encoder_buffer_setup_mmap env encoder b.planes_count 0 b t
             else some (0, b, t)) with
      | none => none
      | some (ret, buffer1, t1) =>
        if ret ≠ 0 then some (ret, buffer1, t1)
        else if type = encoder.output_type then
          let fd := env.media_request_alloc t1 encoder.media_fd
          if fd < 0 then
            some (-EINVAL, { buffer1 with request_fd := fd },
                  Event.media_request_alloc encoder.media_fd fd :: t1)
          else
            some (0, { buffer1 with request_fd := fd },
                  Event.media_request_alloc encoder.media_fd fd :: t1)
        else some (0, { buffer1 with request_fd := -1 }, t1)) = some (ret, b1, t1) ∧
      v4l2_encoder_buffer_cleanup env encoder b1 t1 = some (ret2, b2, t2) ∧
      mapped_regions t1 = M ++ mapped_regions t ∧
      unmapped_regions t1 = unmapped_regions t ∧
      opened_requests t1 = R ++ opened_requests t ∧
      closed_fds t1 = closed_fds t ∧
      mapped_regions t2 = mapped_regions t1 ∧
      opened_requests t2 = opened_requests t1 ∧
      unmapped_regions t2 = X ++ M ++ unmapped_regions t1 ∧
      closed_fds t2 = C ++ closed_fds t1 ∧
      (planes_unmapped b 0 b.planes_count → X = []) ∧
      R ⊆ C ∧
      (b.request_fd < 0 → C = R) := by
  obtain ⟨ret, b', t', M, g1, g2, g3, g4, g5, g7, g8, g9, g12⟩ :=
    setup_maps_spec env encoder b t hplanes hdata
  rw [g1]
  simp only
  by_cases hret : ret = 0
  swap
  · -- a plane failed: the record goes to cleanup as the loop left it
    simp only [hret, ne_eq, not_false_eq_true, ↓reduceIte]
    obtain ⟨s', X, h1, h2, h3, h4, h5, h6⟩ := g12 b' t' rfl rfl
    rw [← g7] at h1
    have hc := buffer_cleanup_of_munmap env encoder b' t' s' (by rw [g9, he]) h1
    obtain ⟨c1, c2, c3, c4⟩ := trace_close b'.request_fd s'
    refine ⟨ret, b', t', 0, _, _, M, X, [], (if 0 ≤ b'.request_fd then [b'.request_fd] else []),
      rfl, hc, g2, g3, by simpa using g4, g5, ?_, ?_, ?_, ?_, h6, by simp, ?_⟩
    · rw [c1, h3]
    · rw [c3, h4]
    · rw [c2, h2]
    · rw [c4, h5]
    · intro hneg
      rw [g8]
      simp [not_le.2 hneg]
  · subst hret
    simp only [ne_eq, not_true_eq_false, ↓reduceIte]
    by_cases hty : type = encoder.output_type
    · simp only [hty, ↓reduceIte]
      obtain ⟨a1, a2, a3, a4⟩ :=
        trace_request_alloc encoder.media_fd (env.media_request_alloc t' encoder.media_fd) t'
      obtain ⟨s', X, h1, h2, h3, h4, h5, h6⟩ :=
        g12 { b' with request_fd := env.media_request_alloc t' encoder.media_fd }
          (Event.media_request_alloc encoder.media_fd
            (env.media_request_alloc t' encoder.media_fd) :: t') rfl rfl
      rw [← g7] at h1
      have hc := buffer_cleanup_of_munmap env encoder
        { b' with request_fd := env.media_request_alloc t' encoder.media_fd }
        (Event.media_request_alloc encoder.media_fd
          (env.media_request_alloc t' encoder.media_fd) :: t') s' (by simp [g9, he]) h1
      obtain ⟨c1, c2, c3, c4⟩ := trace_close (env.media_request_alloc t' encoder.media_fd) s'
      by_cases hfd : env.media_request_alloc t' encoder.media_fd < 0
      · simp only [hfd, ↓reduceIte]
        refine ⟨_, _, _, 0, _, _, M, X, [], [], rfl, hc, ?_, ?_, ?_, ?_, ?_, ?_, ?_, ?_, h6,
          by simp, fun _ => rfl⟩
        · rw [a1, g2]
        · rw [a2, g3]
        · rw [a3, g4]; simp [not_le.2 hfd]
        · rw [a4, g5]
        · simp only; rw [c1, h3]
        · simp only; rw [c3, h4]
        · simp only; rw [c2, h2]
        · simp only; rw [c4, h5]; simp [not_le.2 hfd]
      · simp only [hfd, ↓reduceIte]
        have hfd' : 0 ≤ env.media_request_alloc t' encoder.media_fd := not_lt.1 hfd
        refine ⟨_, _, _, 0, _, _, M, X, [env.media_request_alloc t' encoder.media_fd],
          [env.media_request_alloc t' encoder.media_fd], rfl, hc, ?_, ?_, ?_, ?_, ?_, ?_, ?_, ?_,
          h6, by simp, fun _ => rfl⟩
        · rw [a1, g2]
        · rw [a2, g3]
        · rw [a3, g4]; simp [hfd']
        · rw [a4, g5]
        · simp only; rw [c1, h3]
        · simp only; rw [c3, h4]
        · simp only; rw [c2, h2]
        · simp only; rw [c4, h5]; simp [hfd']
    · simp only [hty, ↓reduceIte]
      obtain ⟨s', X, h1, h2, h3, h4, h5, h6⟩ := g12 { b' with request_fd := -1 } t' rfl rfl
      rw [← g7] at h1
      have hc := buffer_cleanup_of_munmap env encoder { b' with request_fd := -1 } t' s'
        (by simp [g9, he]) h1
      obtain ⟨c1, c2, c3, c4⟩ := trace_close (-1) s'
      refine ⟨_, _, _, 0, _, _, M, X, [], [], rfl, hc, g2, g3, by simpa using g4, g5, ?_, ?_,
        ?_, ?_, h6, by simp, fun _ => rfl⟩
      · simp only; rw [c1, h3]
      · simp only; rw [c3, h4]
      · simp only; rw [c2, h2]
      · simp only; rw [c4, h5]; simp


/-- C10, as stated, fails: on a multi-plane queue whose buffers the device
reports with five planes, a record with a plane count of 4 is set up with four
planes mapped and cleaned up with four planes unmapped, but with a plane count
of 5 `v4l2_encoder_buffer_setup` maps planes 0 to 3 and then stores the fifth
mapping in `mmap_data[4]`, outside the four-entry array, and
`v4l2_encoder_buffer_cleanup` reads `mmap_data[4]`: neither call has a result,
and nothing is known to be unmapped. -/
theorem buffer_setup_then_cleanup_counterexample :
    PLANES_ARRAY_SIZE = 4 ∧ (planes_buffer 5).planes_count = 5 ∧
    ((v4l2_encoder_buffer_setup wide_env mplane_encoder (planes_buffer 4)
        V4L2_BUF_TYPE_VIDEO_CAPTURE_MPLANE 0 []).bind
        (fun r => v4l2_encoder_buffer_cleanup wide_env mplane_encoder r.2.1 r.2.2)).map
        (fun r => (r.1, (mapped_regions r.2.2).length, (unmapped_regions r.2.2).length)) =
      some (0, 4, 4) ∧
    (v4l2_encoder_buffer_setup_mmap wide_env mplane_encoder 4 0
        { planes_buffer 5 with
          buffer :=
            (v4l2_buffer_query wide_env mplane_encoder.video_fd
              (v4l2_buffer_setup_planes
                (v4l2_buffer_setup_index
                  (v4l2_buffer_setup_base V4L2_BUF_TYPE_VIDEO_CAPTURE_MPLANE
                    mplane_encoder.memory) 0)
                V4L2_BUF_TYPE_VIDEO_CAPTURE_MPLANE (planes_buffer 5).planes 5) []).2.1 }
        []).map (fun r => (r.1, (mapped_regions r.2.2).length)) = some (0, 4) ∧
    v4l2_encoder_buffer_setup wide_env mplane_encoder (planes_buffer 5)
        V4L2_BUF_TYPE_VIDEO_CAPTURE_MPLANE 0 [] = none ∧
    v4l2_encoder_buffer_cleanup wide_env mplane_encoder (planes_buffer 5) [] = none := by
  refine ⟨rfl, rfl, ?_, ?_, ?_, ?_⟩ <;> rfl

/-- C10, amended: for every buffer record whose plane count is at most 4, the
size of its `planes` and `mmap_data` arrays, every transport and hence every
failure point of `v4l2_encoder_buffer_setup`, the setup and a following
`v4l2_encoder_buffer_cleanup` both return, and the cleanup unmaps exactly the
regions `M` the setup mapped, each with the length it was mapped with, after at
most some regions `X` that the record held before the setup (none when its
planes were null or `MAP_FAILED`), and closes every request handle `R` the
setup opened (`C = R` when the record held no descriptor before).  The setup
itself unmaps and closes nothing, the cleanup maps and opens nothing. -/
theorem buffer_setup_then_cleanup (env : Env) (encoder : v4l2_encoder)
    (buffer : v4l2_encoder_buffer) (type index : Nat) (t : Trace)
    (hplanes : buffer.planes_count ≤ PLANES_ARRAY_SIZE)
    (hdata : buffer.mmap_data.length = PLANES_ARRAY_SIZE) :
    ∃ ret b1 t1 ret2 b2 t2 M X R C,
      v4l2_encoder_buffer_setup env encoder buffer type index t = some (ret, b1, t1) ∧
      v4l2_encoder_buffer_cleanup env encoder b1 t1 = some (ret2, b2, t2) ∧
      mapped_regions t1 = M ++ mapped_regions t ∧
      unmapped_regions t1 = unmapped_regions t ∧
      opened_requests t1 = R ++ opened_requests t ∧
      closed_fds t1 = closed_fds t ∧
      mapped_regions t2 = mapped_regions t1 ∧
      opened_requests t2 = opened_requests t1 ∧
      unmapped_regions t2 = X ++ M ++ unmapped_regions t1 ∧
      closed_fds t2 = C ++ closed_fds t1 ∧
      (planes_unmapped buffer 0 buffer.planes_count → X = []) ∧
      R ⊆ C ∧
      (buffer.request_fd < 0 → C = R) := by
  by_cases he : buffer.encoder = true
  swap
  · refine ⟨-EINVAL, buffer, t, -EINVAL, buffer, t, [], [], [], [], ?_, ?_, rfl, rfl, rfl, rfl,
      rfl, rfl, rfl, rfl, fun _ => rfl, by simp, fun _ => rfl⟩
    · simp [v4l2_encoder_buffer_setup, he]
    · simp [v4l2_encoder_buffer_cleanup, he]
  · unfold v4l2_encoder_buffer_setup
    have hg : (!buffer.encoder) = false := by simp [he]
    simp only [hg, Bool.false_eq_true, ↓reduceIte]
    generalize v4l2_buffer_setup_planes
        (v4l2_buffer_setup_index (v4l2_buffer_setup_base type encoder.memory) index)
        type buffer.planes buffer.planes_count = b0
    cases hq : env.querybuf t encoder.video_fd b0 with
    | err x =>
      have hqv : v4l2_buffer_query env encoder.video_fd b0 t
          = (neg_errno x, b0, Event.querybuf encoder.video_fd b0 (.err x) :: t) := by
        simp [v4l2_buffer_query, hq]
      simp only [hqv, neg_errno_ne_zero x, ne_eq, not_false_eq_true, ↓reduceIte]
      obtain ⟨q1, q2, q3, q4⟩ := trace_querybuf encoder.video_fd b0 (.err x) t
      obtain ⟨s', X, h1, h2, h3, h4, h5, h6⟩ :=
        cleanup_munmap_spec env buffer.planes_count 0 { buffer with buffer := b0 }
          (Event.querybuf encoder.video_fd b0 (.err x) :: t) (by omega) hdata
      have h1' : (if encoder.memory = V4L2_MEMORY_MMAP then
            v4l2_encoder_buffer_cleanup_munmap env buffer.planes_count 0
              { buffer with buffer := b0 } (Event.querybuf encoder.video_fd b0 (.err x) :: t)
          else some (Event.querybuf encoder.video_fd b0 (.err x) :: t))
          = some (if encoder.memory = V4L2_MEMORY_MMAP then s'
                  else Event.querybuf encoder.video_fd b0 (.err x) :: t) := by
        by_cases hm : encoder.memory = V4L2_MEMORY_MMAP
        · simp only [hm, ↓reduceIte, h1]
        · simp only [hm, ↓reduceIte]
      have hc := buffer_cleanup_of_munmap env encoder { buffer with buffer := b0 }
        (Event.querybuf encoder.video_fd b0 (.err x) :: t) _ he h1'
      obtain ⟨c1, c2, c3, c4⟩ := trace_close buffer.request_fd
        (if encoder.memory = V4L2_MEMORY_MMAP then s'
         else Event.querybuf encoder.video_fd b0 (.err x) :: t)
      refine ⟨_, _, _, 0, _, _, [], (if encoder.memory = V4L2_MEMORY_MMAP then X else []), [],
        (if 0 ≤ buffer.request_fd then [buffer.request_fd] else []), rfl, hc, q1, q2, q3, q4,
        ?_, ?_, ?_, ?_, ?_, by simp, ?_⟩
      · simp only; rw [c1]; by_cases hm : encoder.memory = V4L2_MEMORY_MMAP <;> simp [hm, h3]
      · simp only; rw [c3]; by_cases hm : encoder.memory = V4L2_MEMORY_MMAP <;> simp [hm, h4]
      · simp only; rw [c2]; by_cases hm : encoder.memory = V4L2_MEMORY_MMAP <;> simp [hm, h2]
      · simp only; rw [c4]; by_cases hm : encoder.memory = V4L2_MEMORY_MMAP <;> simp [hm, h5]
      · intro hf
        by_cases hm : encoder.memory = V4L2_MEMORY_MMAP
        · simp only [hm, ↓reduceIte]
          exact h6 (by simpa using hf)
        · simp only [hm, ↓reduceIte]
      · intro hneg
        simp [not_le.2 hneg]
    | ok bq =>
      have hqv : v4l2_buffer_query env encoder.video_fd b0 t
          = (0, bq, Event.querybuf encoder.video_fd b0 (.ok bq) :: t) := by
        simp [v4l2_buffer_query, hq]
      simp only [hqv, ne_eq, not_true_eq_false, ↓reduceIte]
      obtain ⟨q1, q2, q3, q4⟩ := trace_querybuf encoder.video_fd b0 (.ok bq) t
      obtain ⟨ret, b1, t1, ret2, b2, t2, M, X, R, C, k1, k2, k3, k4, k5, k6, k7, k8, k9, k10,
          k11, k12, k13⟩ :=
        buffer_setup_tail env encoder { buffer with buffer := bq } type
          (Event.querybuf encoder.video_fd b0 (.ok bq) :: t) he hplanes hdata
      refine ⟨ret, b1, t1, ret2, b2, t2, M, X, R, C, k1, k2, ?_, ?_, ?_, ?_, k7, k8, k9, k10,
        ?_, k12, k13⟩
      · rw [k3, q1]
      · rw [k4, q2]
      · rw [k5, q3]
      · rw [k6, q4]
      · intro hf
        exact k11 (by simpa [planes_unmapped] using hf)

theorem buffer_setup_then_cleanup_witness :
    fresh_buffer.planes_count ≤ PLANES_ARRAY_SIZE ∧
      fresh_buffer.mmap_data.length = PLANES_ARRAY_SIZE ∧
      ∃ ret b1 t1 ret2 b2 t2 M X R C,
        v4l2_encoder_buffer_setup ready_env opened_encoder fresh_buffer
            V4L2_BUF_TYPE_VIDEO_OUTPUT 0 [] = some (ret, b1, t1) ∧
        v4l2_encoder_buffer_cleanup ready_env opened_encoder b1 t1 = some (ret2, b2, t2) ∧
        mapped_regions t1 = M ++ mapped_regions [] ∧
        unmapped_regions t1 = unmapped_regions [] ∧
        opened_requests t1 = R ++ opened_requests [] ∧
        closed_fds t1 = closed_fds [] ∧
        mapped_regions t2 = mapped_regions t1 ∧
        opened_requests t2 = opened_requests t1 ∧
        unmapped_regions t2 = X ++ M ++ unmapped_regions t1 ∧
        closed_fds t2 = C ++ closed_fds t1 ∧
        (planes_unmapped fresh_buffer 0 fresh_buffer.planes_count → X = []) ∧
        R ⊆ C ∧
        (fresh_buffer.request_fd < 0 → C = R) :=
  ⟨by decide, by decide,
   buffer_setup_then_cleanup ready_env opened_encoder fresh_buffer V4L2_BUF_TYPE_VIDEO_OUTPUT 0 []
     (by decide) (by decide)⟩

/-! ## Rollback of a failed configuration -/

/-- C9 fails on the code: when the buffer request on the raw-input queue is
refused, after the coded pool has been requested and its three buffers mapped,
`v4l2_encoder_setup` jumps to `complete` instead of `error`: it returns the
error with the three coded planes still mapped, nothing unmapped and no release
of either queue requested. -/
theorem setup_output_request_failure :
    (v4l2_encoder_setup output_request_env opened_encoder []).map
        (fun r => (r.1, (mapped_regions r.2.2).length, unmapped_regions r.2.2,
                   released_queues r.2.2, r.2.1.up))
      = some (-12, 3, [], [], false) := by
  decide

/-- The sibling paths roll back: when the first control is refused, with both
pools mapped, everything mapped is unmapped, every request handle opened is
closed and the release of both queues is requested. -/
theorem setup_control_failure :
    (v4l2_encoder_setup control_env opened_encoder []).map
        (fun r => (r.1, (mapped_regions r.2.2).length, (unmapped_regions r.2.2).length,
                   decide (mapped_regions r.2.2 ⊆ unmapped_regions r.2.2),
                   decide (opened_requests r.2.2 ⊆ closed_fds r.2.2),
                   (opened_requests r.2.2).length,
                   released_queues r.2.2))
      = some (-12, 6, 6, true, true, 3,
              [V4L2_BUF_TYPE_VIDEO_CAPTURE, V4L2_BUF_TYPE_VIDEO_OUTPUT]) := by
  rfl

/-! ## Release twice -/

/-- C11: whatever `v4l2_encoder_buffer_cleanup` returns on a record is left as
it is, with the same trace (no unmap, no close), by a second call; on a set-up
record (back pointer set) the first call leaves every `mmap_data` entry null
and `request_fd` at -1.  Likewise a second `v4l2_encoder_cleanup` leaves the
encoder and the trace (no release) as the first one left them. -/
theorem cleanup_twice (env : Env) (encoder e1 e2 : v4l2_encoder)
    (buffer b1 : v4l2_encoder_buffer) (t t1 s s1 : Trace) (r r1 : Int)
    (hset : buffer.encoder = true)
    (hfirst : v4l2_encoder_buffer_cleanup env encoder buffer t = some (r, b1, t1))
    (hsession : v4l2_encoder_cleanup env e1 s = some (r1, e2, s1)) :
    (∀ p, p ∈ b1.mmap_data → p = Ptr.null) ∧ b1.mmap_data.length = PLANES_ARRAY_SIZE ∧
      b1.request_fd = -1 ∧
      v4l2_encoder_buffer_cleanup env encoder b1 t1 = some (-EINVAL, b1, t1) ∧
      v4l2_encoder_cleanup env e2 s1 = some (-EINVAL, e2, s1) := by
  have hb : b1 = { v4l2_encoder_buffer.zero with request_fd := -1 } := by
    unfold v4l2_encoder_buffer_cleanup at hfirst
    have hg : (!buffer.encoder) = false := by simp [hset]
    simp only [hg, Bool.false_eq_true, ↓reduceIte] at hfirst
    split at hfirst
    · cases hfirst
    · cases hfirst
      rfl
  have hup : e2.up = false := by
    unfold v4l2_encoder_cleanup at hsession
    by_cases h : e1.up = true
    · have hg : (!e1.up) = false := by simp [h]
      simp only [hg, Bool.false_eq_true, ↓reduceIte] at hsession
      split at hsession
      · cases hsession
      · cases hsession
        rfl
    · have hg : (!e1.up) = true := by simpa using h
      simp only [hg, ↓reduceIte, Option.some.injEq, Prod.mk.injEq] at hsession
      rw [← hsession.2.1]
      simpa using h
  subst hb
  refine ⟨?_, rfl, rfl, ?_, ?_⟩
  · intro p hp
    simp only [v4l2_encoder_buffer.zero] at hp
    exact List.eq_of_mem_replicate hp
  · simp [v4l2_encoder_buffer_cleanup, v4l2_encoder_buffer.zero]
  · simp [v4l2_encoder_cleanup, hup]

theorem cleanup_twice_witness :
    (configured_encoder.capture_buffers.getD 0 v4l2_encoder_buffer.zero).encoder = true ∧
      v4l2_encoder_buffer_cleanup ready_env configured_encoder
          ((v4l2_encoder_buffer_cleanup ready_env configured_encoder
              (configured_encoder.capture_buffers.getD 0 v4l2_encoder_buffer.zero)
              configured_trace).getD (1, fresh_buffer, [])).2.1
          ((v4l2_encoder_buffer_cleanup ready_env configured_encoder
              (configured_encoder.capture_buffers.getD 0 v4l2_encoder_buffer.zero)
              configured_trace).getD (1, fresh_buffer, [])).2.2
        = some (-EINVAL,
                ((v4l2_encoder_buffer_cleanup ready_env configured_encoder
                    (configured_encoder.capture_buffers.getD 0 v4l2_encoder_buffer.zero)
                    configured_trace).getD (1, fresh_buffer, [])).2.1,
                ((v4l2_encoder_buffer_cleanup ready_env configured_encoder
                    (configured_encoder.capture_buffers.getD 0 v4l2_encoder_buffer.zero)
                    configured_trace).getD (1, fresh_buffer, [])).2.2) ∧
      v4l2_encoder_cleanup ready_env
          ((v4l2_encoder_cleanup ready_env configured_encoder configured_trace).getD
            (1, configured_encoder, [])).2.1
          ((v4l2_encoder_cleanup ready_env configured_encoder configured_trace).getD
            (1, configured_encoder, [])).2.2
        = some (-EINVAL,
                ((v4l2_encoder_cleanup ready_env configured_encoder configured_trace).getD
                  (1, configured_encoder, [])).2.1,
                ((v4l2_encoder_cleanup ready_env configured_encoder configured_trace).getD
                  (1, configured_encoder, [])).2.2) :=
  have h := cleanup_twice ready_env configured_encoder configured_encoder
    ((v4l2_encoder_cleanup ready_env configured_encoder configured_trace).getD
      (1, configured_encoder, [])).2.1
    (configured_encoder.capture_buffers.getD 0 v4l2_encoder_buffer.zero)
    ((v4l2_encoder_buffer_cleanup ready_env configured_encoder
        (configured_encoder.capture_buffers.getD 0 v4l2_encoder_buffer.zero)
        configured_trace).getD (1, fresh_buffer, [])).2.1
    configured_trace
    ((v4l2_encoder_buffer_cleanup ready_env configured_encoder
        (configured_encoder.capture_buffers.getD 0 v4l2_encoder_buffer.zero)
        configured_trace).getD (1, fresh_buffer, [])).2.2
    configured_trace
    ((v4l2_encoder_cleanup ready_env configured_encoder configured_trace).getD
      (1, configured_encoder, [])).2.2
    ((v4l2_encoder_buffer_cleanup ready_env configured_encoder
        (configured_encoder.capture_buffers.getD 0 v4l2_encoder_buffer.zero)
        configured_trace).getD (1, fresh_buffer, [])).1
    ((v4l2_encoder_cleanup ready_env configured_encoder configured_trace).getD
      (1, configured_encoder, [])).1
    (by decide) (by rfl) (by rfl)
  ⟨by decide, h.2.2.2.1, h.2.2.2.2⟩

/-! ## Streaming switch -/

theorem stream_on_trace (env : Env) (fd : Int) (type : Nat) (t : Trace) :
    ∃ res, (v4l2_stream_on env fd type t).2 = Event.streamon fd type res :: t ∧
      (v4l2_stream_on env fd type t).1 = res.ret ∧ env.streamon t fd type = res := by
  unfold v4l2_stream_on
  cases h : env.streamon t fd type with
  | ok u => exact ⟨.ok u, rfl, rfl, rfl⟩
  | err x => exact ⟨.err x, rfl, rfl, rfl⟩

theorem start_result (env : Env) (e : v4l2_encoder) (t : Trace) :
    ((v4l2_encoder_start env e t).1 = 0 ∧
        (v4l2_encoder_start env e t).2.1 = { e with started := true }) ∨
      ((v4l2_encoder_start env e t).1 ≠ 0 ∧ (v4l2_encoder_start env e t).2.1 = e) := by
  unfold v4l2_encoder_start
  by_cases hs : e.started = true
  · right
    simp [hs, EINVAL]
  · simp only [hs, Bool.false_eq_true, ↓reduceIte]
    split
    · right
      rename_i h
      exact ⟨h, rfl⟩
    · split
      · right
        rename_i h
        exact ⟨h, rfl⟩
      · left
        exact ⟨rfl, rfl⟩

theorem stop_result (env : Env) (e : v4l2_encoder) (t : Trace) :
    ((v4l2_encoder_stop env e t).1 = 0 ∧
        (v4l2_encoder_stop env e t).2.1 = { e with started := false }) ∨
      ((v4l2_encoder_stop env e t).1 ≠ 0 ∧ (v4l2_encoder_stop env e t).2.1 = e) := by
  unfold v4l2_encoder_stop
  by_cases hs : e.started = true
  · simp only [hs, Bool.not_true, Bool.false_eq_true, ↓reduceIte]
    split
    · right
      rename_i h
      exact ⟨h, rfl⟩
    · split
      · right
        rename_i h
        exact ⟨h, rfl⟩
      · left
        exact ⟨rfl, rfl⟩
  · right
    have : (!e.started) = true := by simpa using hs
    simp [this, EINVAL]

theorem stream_calls_started (env : Env) (initial : Bool) (calls : List StreamCall) :
    ∀ (e : v4l2_encoder) (t : Trace) (last : Option StreamCall),
      e.started = StreamCall.started last initial →
      (v4l2_encoder_stream_calls env calls e t last).1.started
        = StreamCall.started (v4l2_encoder_stream_calls env calls e t last).2.2 initial := by
  induction calls with
  | nil => intro e t last h; exact h
  | cons c calls ih =>
    intro e t last h
    cases c with
    | start =>
      unfold v4l2_encoder_stream_calls
      apply ih
      rcases start_result env e t with ⟨h0, h1⟩ | ⟨h0, h1⟩
      · rw [h1]
        simp [h0, StreamCall.started]
      · rw [h1]
        simp [h0, h]
    | stop =>
      unfold v4l2_encoder_stream_calls
      apply ih
      rcases stop_result env e t with ⟨h0, h1⟩ | ⟨h0, h1⟩
      · rw [h1]
        simp [h0, StreamCall.started]
      · rw [h1]
        simp [h0, h]

theorem start_accepted (env : Env) (b : v4l2_encoder) (t : Trace)
    (hb : b.started = false) :
    ((v4l2_encoder_start env b t).1 = 0 ↔
      env.streamon t b.video_fd b.output_type = .ok () ∧
      env.streamon (Event.streamon b.video_fd b.output_type (.ok ()) :: t)
        b.video_fd b.capture_type = .ok ()) ∧
    (env.streamon t b.video_fd b.output_type = .ok () →
      env.streamon (Event.streamon b.video_fd b.output_type (.ok ()) :: t)
        b.video_fd b.capture_type = .ok () →
      v4l2_encoder_start env b t =
        (0, { b with started := true },
         Event.streamon b.video_fd b.capture_type (.ok ()) ::
           Event.streamon b.video_fd b.output_type (.ok ()) :: t)) := by
  unfold v4l2_encoder_start v4l2_stream_on
  simp only [hb, Bool.false_eq_true, ↓reduceIte]
  cases h1 : env.streamon t b.video_fd b.output_type with
  | err x =>
    have hne := neg_errno_ne_zero x
    simp [hne]
  | ok u =>
    cases u
    simp only [ne_eq, not_true_eq_false, ↓reduceIte]
    cases h2 : env.streamon (Event.streamon b.video_fd b.output_type (.ok ()) :: t)
        b.video_fd b.capture_type with
    | err x =>
      have hne := neg_errno_ne_zero x
      simp [hne]
    | ok v =>
      cases v
      simp

theorem stop_accepted (env : Env) (a : v4l2_encoder) (t : Trace)
    (ha : a.started = true) :
    ((v4l2_encoder_stop env a t).1 = 0 ↔
      env.streamoff t a.video_fd a.output_type = .ok () ∧
      env.streamoff (Event.streamoff a.video_fd a.output_type (.ok ()) :: t)
        a.video_fd a.capture_type = .ok ()) ∧
    (env.streamoff t a.video_fd a.output_type = .ok () →
      env.streamoff (Event.streamoff a.video_fd a.output_type (.ok ()) :: t)
        a.video_fd a.capture_type = .ok () →
      v4l2_encoder_stop env a t =
        (0, { a with started := false },
         Event.streamoff a.video_fd a.capture_type (.ok ()) ::
           Event.streamoff a.video_fd a.output_type (.ok ()) :: t)) := by
  unfold v4l2_encoder_stop v4l2_stream_off
  simp only [ha, Bool.not_true, Bool.false_eq_true, ↓reduceIte]
  cases h1 : env.streamoff t a.video_fd a.output_type with
  | err x =>
    have hne := neg_errno_ne_zero x
    simp [hne]
  | ok u =>
    cases u
    simp only [ne_eq, not_true_eq_false, ↓reduceIte]
    cases h2 : env.streamoff (Event.streamoff a.video_fd a.output_type (.ok ()) :: t)
        a.video_fd a.capture_type with
    | err x =>
      have hne := neg_errno_ne_zero x
      simp [hne]
    | ok v =>
      cases v
      simp

/-- C15: `v4l2_encoder_start` on an encoder with `started == true` and
`v4l2_encoder_stop` on one with `started == false` return `-EINVAL` with the
trace (no stream-on or stream-off call) and the encoder unchanged; a start that
returns 0 leaves `started` true, a stop that returns 0 leaves it false; so
after any sequence of start and stop calls `started` is true exactly when the
last call that returned 0 was a start (and is as at the beginning when none
returned 0).  A start on an encoder that is not started returns 0 exactly when
the device accepts the stream-on of the raw-input queue and then that of the
coded queue, and it then leaves these two calls and `started` true; a stop on
a started encoder returns 0 exactly when the device accepts the two stream-off
calls, and it then leaves these two calls and `started` false; a call that
does not return 0 leaves the encoder as it was. -/
theorem start_stop_guard (env : Env) (a b e : v4l2_encoder) (t s : Trace)
    (calls : List StreamCall)
    (ha : a.started = true) (hb : b.started = false) :
    v4l2_encoder_start env a t = (-EINVAL, a, t) ∧
      v4l2_encoder_stop env b t = (-EINVAL, b, t) ∧
      ((v4l2_encoder_start env b t).1 = 0 → (v4l2_encoder_start env b t).2.1.started = true) ∧
      ((v4l2_encoder_stop env a t).1 = 0 → (v4l2_encoder_stop env a t).2.1.started = false) ∧
      (v4l2_encoder_stream_calls env calls e s none).1.started
        = StreamCall.started (v4l2_encoder_stream_calls env calls e s none).2.2 e.started ∧
      ((v4l2_encoder_start env b t).1 = 0 ↔
        env.streamon t b.video_fd b.output_type = .ok () ∧
        env.streamon (Event.streamon b.video_fd b.output_type (.ok ()) :: t)
          b.video_fd b.capture_type = .ok ()) ∧
      (env.streamon t b.video_fd b.output_type = .ok () →
        env.streamon (Event.streamon b.video_fd b.output_type (.ok ()) :: t)
          b.video_fd b.capture_type = .ok () →
        v4l2_encoder_start env b t =
          (0, { b with started := true },
           Event.streamon b.video_fd b.capture_type (.ok ()) ::
             Event.streamon b.video_fd b.output_type (.ok ()) :: t)) ∧
      ((v4l2_encoder_start env b t).1 ≠ 0 → (v4l2_encoder_start env b t).2.1 = b) ∧
      ((v4l2_encoder_stop env a t).1 = 0 ↔
        env.streamoff t a.video_fd a.output_type = .ok () ∧
        env.streamoff (Event.streamoff a.video_fd a.output_type (.ok ()) :: t)
          a.video_fd a.capture_type = .ok ()) ∧
      (env.streamoff t a.video_fd a.output_type = .ok () →
        env.streamoff (Event.streamoff a.video_fd a.output_type (.ok ()) :: t)
          a.video_fd a.capture_type = .ok () →
        v4l2_encoder_stop env a t =
          (0, { a with started := false },
           Event.streamoff a.video_fd a.capture_type (.ok ()) ::
             Event.streamoff a.video_fd a.output_type (.ok ()) :: t)) ∧
      ((v4l2_encoder_stop env a t).1 ≠ 0 → (v4l2_encoder_stop env a t).2.1 = a) := by
  refine ⟨?_, ?_, ?_, ?_, ?_, (start_accepted env b t hb).1, (start_accepted env b t hb).2, ?_,
    (stop_accepted env a t ha).1, (stop_accepted env a t ha).2, ?_⟩
  · simp [v4l2_encoder_start, ha]
  · simp [v4l2_encoder_stop, hb]
  · intro h0
    rcases start_result env b t with ⟨_, h1⟩ | ⟨h2, _⟩
    · rw [h1]
    · exact absurd h0 h2
  · intro h0
    rcases stop_result env a t with ⟨_, h1⟩ | ⟨h2, _⟩
    · rw [h1]
    · exact absurd h0 h2
  · exact stream_calls_started env e.started calls e s none rfl
  · intro h0
    rcases start_result env b t with ⟨h1, _⟩ | ⟨_, h2⟩
    · exact absurd h1 h0
    · exact h2
  · intro h0
    rcases stop_result env a t with ⟨h1, _⟩ | ⟨_, h2⟩
    · exact absurd h1 h0
    · exact h2

theorem start_stop_guard_witness :
    v4l2_encoder_start ready_env started_encoder configured_trace
        = (-EINVAL, started_encoder, configured_trace) ∧
      v4l2_encoder_stop ready_env configured_encoder configured_trace
        = (-EINVAL, configured_encoder, configured_trace) ∧
      v4l2_encoder_stop ready_env started_encoder configured_trace
        = (0, { started_encoder with started := false },
           Event.streamoff started_encoder.video_fd started_encoder.capture_type (.ok ()) ::
             Event.streamoff started_encoder.video_fd started_encoder.output_type (.ok ()) ::
               configured_trace) ∧
      v4l2_encoder_start ready_env configured_encoder configured_trace
        = (0, { configured_encoder with started := true },
           Event.streamon configured_encoder.video_fd configured_encoder.capture_type
               (.ok ()) ::
             Event.streamon configured_encoder.video_fd configured_encoder.output_type
                 (.ok ()) ::
               configured_trace) ∧
      (v4l2_encoder_stream_calls ready_env [.start, .start, .stop, .start] configured_encoder
          configured_trace none).1.started = true ∧
      (v4l2_encoder_stream_calls ready_env [.start, .stop, .stop] configured_encoder
          configured_trace none).1.started = false ∧
      (v4l2_encoder_stream_calls ready_env [.start, .stop, .stop] configured_encoder
          configured_trace none).2.2 = some .stop ∧
      stream_calls
          (v4l2_encoder_stream_calls ready_env [.start, .stop, .stop] configured_encoder
            configured_trace none).2.1 = stream_calls configured_trace + 4 :=
  have h := start_stop_guard ready_env started_encoder configured_encoder configured_encoder
    configured_trace configured_trace [.start, .start, .stop, .start] (by rfl) (by decide)
  have h2 := start_stop_guard ready_env started_encoder configured_encoder configured_encoder
    configured_trace configured_trace [.start, .stop, .stop] (by rfl) (by decide)
  ⟨h.1, h.2.1, h.2.2.2.2.2.2.2.2.2.1 rfl rfl, h.2.2.2.2.2.2.1 rfl rfl,
   h.2.2.2.2.1.trans (by rfl), h2.2.2.2.2.1.trans (by rfl), by rfl, by rfl⟩

/-- C16, as stated, fails: on the encoder `opened_encoder`, which was never
configured (`up == false`), `v4l2_encoder_start` issues the two stream-on
calls, returns 0 and sets `started`. -/
theorem start_unconfigured_counterexample :
    opened_encoder.up = false ∧
      (v4l2_encoder_start ready_env opened_encoder []).1 = 0 ∧
      (v4l2_encoder_start ready_env opened_encoder []).2.1.started = true ∧
      stream_calls (v4l2_encoder_start ready_env opened_encoder []).2.2 = 2 := by
  decide

/-- C16, amended: `v4l2_encoder_start` does not look at `up`.  On an encoder
with `up == false` that is not streaming it issues the stream-on call for the
raw-input queue; it returns 0 exactly when the transport accepts the stream-on
calls of both queues, and then `started` is true and `up` still false; when the
transport refuses one, it returns that error and leaves the encoder as it
was. -/
theorem start_unconfigured (env : Env) (e : v4l2_encoder) (t : Trace)
    (hup : e.up = false) (hst : e.started = false) :
    (∃ res rest, (v4l2_encoder_start env e t).2.2
        = rest ++ Event.streamon e.video_fd e.output_type res :: t) ∧
      ((v4l2_encoder_start env e t).1 = 0 ↔
        env.streamon t e.video_fd e.output_type = .ok () ∧
        env.streamon (Event.streamon e.video_fd e.output_type (.ok ()) :: t)
          e.video_fd e.capture_type = .ok ()) ∧
      ((v4l2_encoder_start env e t).1 = 0 →
        (v4l2_encoder_start env e t).2.1.started = true ∧
        (v4l2_encoder_start env e t).2.1.up = false) ∧
      ((v4l2_encoder_start env e t).1 ≠ 0 → (v4l2_encoder_start env e t).2.1 = e) := by
  have key : v4l2_encoder_start env e t
      = (match env.streamon t e.video_fd e.output_type with
         | .err x => (neg_errno x, e, Event.streamon e.video_fd e.output_type (.err x) :: t)
         | .ok u =>
           match env.streamon (Event.streamon e.video_fd e.output_type (.ok u) :: t)
                   e.video_fd e.capture_type with
           | .err x =>
             (neg_errno x, e,
               Event.streamon e.video_fd e.capture_type (.err x) ::
                 Event.streamon e.video_fd e.output_type (.ok u) :: t)
           | .ok v =>
             (0, { e with started := true },
               Event.streamon e.video_fd e.capture_type (.ok v) ::
                 Event.streamon e.video_fd e.output_type (.ok u) :: t)) := by
    unfold v4l2_encoder_start v4l2_stream_on
    simp only [hst, Bool.false_eq_true, ↓reduceIte]
    cases h1 : env.streamon t e.video_fd e.output_type with
    | err x => simp [neg_errno_ne_zero x]
    | ok u =>
      simp only [ne_eq, not_true_eq_false, ↓reduceIte]
      cases h2 : env.streamon (Event.streamon e.video_fd e.output_type (.ok u) :: t)
          e.video_fd e.capture_type with
      | err x => simp [neg_errno_ne_zero x]
      | ok v => simp
  rw [key]
  cases h1 : env.streamon t e.video_fd e.output_type with
  | err x =>
    refine ⟨⟨.err x, [], rfl⟩, ?_, ?_, fun _ => rfl⟩
    · simp [neg_errno_ne_zero x]
    · intro h
      exact absurd h (neg_errno_ne_zero x)
  | ok u =>
    cases u
    simp only
    cases h2 : env.streamon (Event.streamon e.video_fd e.output_type (.ok ()) :: t)
        e.video_fd e.capture_type with
    | err x =>
      refine ⟨⟨.ok (), [_], rfl⟩, ?_, ?_, fun _ => rfl⟩
      · simp [neg_errno_ne_zero x]
      · intro h
        exact absurd h (neg_errno_ne_zero x)
    | ok v =>
      refine ⟨⟨.ok (), [_], rfl⟩, ?_, fun _ => ⟨rfl, hup⟩, fun h => absurd rfl h⟩
      simp

theorem start_unconfigured_witness :
    opened_encoder.up = false ∧ opened_encoder.started = false ∧
      ((v4l2_encoder_start ready_env opened_encoder []).1 = 0 ↔
        ready_env.streamon [] opened_encoder.video_fd opened_encoder.output_type = .ok () ∧
        ready_env.streamon
            (Event.streamon opened_encoder.video_fd opened_encoder.output_type (.ok ()) :: [])
            opened_encoder.video_fd opened_encoder.capture_type = .ok ()) :=
  ⟨by decide, by decide,
   (start_unconfigured ready_env opened_encoder [] (by decide) (by decide)).2.1⟩

/-! ## Running without streaming -/

theorem run_submit_started (env : Env) (e : v4l2_encoder) (t : Trace) (b : Bool) :
    v4l2_encoder_run_submit env { e with started := b } t
      = (v4l2_encoder_run_submit env e t).map (RunSubmit.with_started b) := by
  unfold v4l2_encoder_run_submit v4l2_encoder_run_picture
  simp only
  cases hob : e.output_buffers[e.output_buffers_index]? with
  | none => simp
  | some ob =>
    simp only
    by_cases hc : e.output_buffers_count = 0
    · simp [hc]
    · simp only [hc, ↓reduceIte]
      split
      · simp [RunSubmit.with_started]
      · split
        · simp
        · split
          · simp
          · split
            · simp [RunSubmit.with_started]
            · split
              · simp [RunSubmit.with_started]
              · simp [RunSubmit.with_started]

theorem run_started (env : Env) (fuel : Nat) (e : v4l2_encoder) (t : Trace) (b : Bool) :
    v4l2_encoder_run env fuel { e with started := b } t
      = (v4l2_encoder_run env fuel e t).map
          (fun r => (r.1, { r.2.1 with started := b }, r.2.2)) := by
  unfold v4l2_encoder_run
  rw [run_submit_started]
  cases hs : v4l2_encoder_run_submit env e t with
  | none => simp
  | some res =>
    cases res with
    | ret r e0 t0 => simp [RunSubmit.with_started]
    | wait oi ci e0 t0 =>
      simp only [Option.map_some', RunSubmit.with_started]
      cases hob : e0.output_buffers[oi]? with
      | none => rfl
      | some ob =>
        cases hcb : e0.capture_buffers[ci]? with
        | none => rfl
        | some cb =>
          simp only
          cases hd : v4l2_encoder_run_dequeue env e0.video_fd fuel
              (v4l2_buffer_setup_base e0.output_type e0.memory) t0 with
          | none => rfl
          | some d =>
            obtain ⟨ret, buffer, t2⟩ := d
            simp only
            by_cases hr : ret = 0
            swap
            · simp [hr]
            · simp only [hr, ne_eq, not_true_eq_false, ↓reduceIte]
              by_cases hi : buffer.index = ob.buffer.index
              swap
              · simp [hi]
              · simp only [hi, not_true_eq_false, ↓reduceIte]
                cases hd2 : v4l2_encoder_run_dequeue env e0.video_fd fuel
                    (v4l2_buffer_setup_base e0.capture_type e0.memory) t2 with
                | none => rfl
                | some d2 =>
                  obtain ⟨ret2, buffer2, t3⟩ := d2
                  simp only
                  by_cases hr2 : ret2 = 0
                  swap
                  · simp [hr2]
                  · simp only [hr2, ne_eq, not_true_eq_false, ↓reduceIte]
                    by_cases hi2 : buffer2.index = cb.buffer.index
                    swap
                    · simp [hi2]
                    · simp only [hi2, not_true_eq_false, ↓reduceIte]
                      cases hl : e0.capture_buffers[cb.buffer.index]? with
                      | none => rfl
                      | some returned => rfl

theorem buffer_queue_trace (env : Env) (fd : Int) (b : v4l2_buffer) (t : Trace) :
    ∃ res, (v4l2_buffer_queue env fd b t).2.2 = Event.qbuf fd b res :: t := by
  unfold v4l2_buffer_queue
  cases env.qbuf t fd b with
  | ok x => exact ⟨_, rfl⟩
  | err x => exact ⟨_, rfl⟩

theorem poll_trace (env : Env) (fd : Int) (usec : Nat) (t : Trace) :
    ∃ res, (v4l2_poll env fd usec t).2 = Event.select fd usec res :: t := by
  unfold v4l2_poll
  cases env.select t fd with
  | err x => exact ⟨_, rfl⟩
  | ready n b =>
    cases b with
    | true => exact ⟨_, rfl⟩
    | false => exact ⟨_, rfl⟩

theorem run_submit_trace {env : Env} {e : v4l2_encoder} {t : Trace} {res : RunSubmit}
    (h : v4l2_encoder_run_submit env e t = some res) :
    ∃ ob r rest, e.output_buffers[e.output_buffers_index]? = some ob ∧
      res.trace = rest ++ Event.qbuf e.video_fd (v4l2_encoder_run_picture e ob) r :: t := by
  unfold v4l2_encoder_run_submit at h
  cases hob : e.output_buffers[e.output_buffers_index]? with
  | none => simp [hob] at h
  | some ob =>
    simp only [hob] at h
    obtain ⟨r, hq⟩ := buffer_queue_trace env e.video_fd (v4l2_encoder_run_picture e ob) t
    by_cases hc : e.output_buffers_count = 0
    · simp [hc] at h
    · simp only [hc, ↓reduceIte] at h
      split at h
      · cases h
        exact ⟨ob, r, [], rfl, by simp [RunSubmit.trace, hq]⟩
      · split at h
        · simp at h
        · rename_i cb hcb
          obtain ⟨r2, hq2⟩ := buffer_queue_trace env e.video_fd cb.buffer
            (v4l2_buffer_queue env e.video_fd (v4l2_encoder_run_picture e ob) t).2.2
          split at h
          · simp at h
          · split at h
            · cases h
              refine ⟨ob, r, [Event.qbuf e.video_fd cb.buffer r2], rfl, ?_⟩
              simp only [RunSubmit.trace]
              rw [hq2, hq]
              rfl
            · obtain ⟨r3, hq3⟩ := poll_trace env e.video_fd 300000
                (v4l2_buffer_queue env e.video_fd cb.buffer
                  (v4l2_buffer_queue env e.video_fd (v4l2_encoder_run_picture e ob) t).2.2).2.2
              split at h
              · cases h
                refine ⟨ob, r, [Event.select e.video_fd 300000 r3,
                  Event.qbuf e.video_fd cb.buffer r2], rfl, ?_⟩
                simp only [RunSubmit.trace]
                rw [hq3, hq2, hq]
                rfl
              · cases h
                refine ⟨ob, r, [Event.select e.video_fd 300000 r3,
                  Event.qbuf e.video_fd cb.buffer r2], rfl, ?_⟩
                simp only [RunSubmit.trace]
                rw [hq3, hq2, hq]
                rfl

theorem run_dequeue_extends {env : Env} {fd : Int} {fuel : Nat} {buffer b : v4l2_buffer}
    {t t' : Trace} {r : Int}
    (h : v4l2_encoder_run_dequeue env fd fuel buffer t = some (r, b, t')) :
    ∃ rest, t' = rest ++ t := by
  induction fuel generalizing buffer t with
  | zero => simp [v4l2_encoder_run_dequeue] at h
  | succ n ih =>
    cases hq : env.dqbuf t fd buffer with
    | ok b0 =>
      rw [run_dequeue_ok n hq] at h
      cases h
      exact ⟨[_], rfl⟩
    | err x =>
      by_cases hx : x = errno_EAGAIN
      · subst hx
        rw [run_dequeue_again n hq] at h
        obtain ⟨rest, hrest⟩ := ih h
        exact ⟨rest ++ [Event.dqbuf fd buffer (.err errno_EAGAIN)], by rw [hrest]; simp⟩
      · rw [run_dequeue_err n hq hx] at h
        cases h
        exact ⟨[_], rfl⟩

theorem run_trace {env : Env} {fuel : Nat} {e e' : v4l2_encoder} {t t' : Trace} {r : Int}
    (h : v4l2_encoder_run env fuel e t = some (r, e', t')) :
    ∃ ob res rest, e.output_buffers[e.output_buffers_index]? = some ob ∧
      t' = rest ++ Event.qbuf e.video_fd (v4l2_encoder_run_picture e ob) res :: t := by
  unfold v4l2_encoder_run at h
  cases hs : v4l2_encoder_run_submit env e t with
  | none => simp [hs] at h
  | some sub =>
    obtain ⟨ob, res, rest, hob, htr⟩ := run_submit_trace hs
    cases sub with
    | ret r0 e0 t0 =>
      simp only [hs] at h
      cases h
      exact ⟨ob, res, rest, hob, htr⟩
    | wait oi ci e0 t0 =>
      simp only [hs] at h
      simp only [RunSubmit.trace] at htr
      have ext1 : ∀ {s : Trace}, (∃ more, s = more ++ t0) →
          ∃ ob res rest, e.output_buffers[e.output_buffers_index]? = some ob ∧
            s = rest ++ Event.qbuf e.video_fd (v4l2_encoder_run_picture e ob) res :: t := by
        intro s hs'
        obtain ⟨more, hmore⟩ := hs'
        exact ⟨ob, res, more ++ rest, hob, by rw [hmore, htr]; simp⟩
      split at h
      · split at h
        · cases h
        · rename_i hd1
          obtain ⟨m1, hm1⟩ := run_dequeue_extends hd1
          split at h
          · cases h
            exact ext1 ⟨m1, hm1⟩
          · split at h
            · cases h
              exact ext1 ⟨m1, hm1⟩
            · split at h
              · cases h
              · rename_i hd2
                obtain ⟨m2, hm2⟩ := run_dequeue_extends hd2
                have hboth := hm2
                rw [hm1, ← List.append_assoc] at hboth
                split at h
                · cases h
                  exact ext1 ⟨_, hboth⟩
                · split at h
                  · cases h
                    exact ext1 ⟨_, hboth⟩
                  · split at h
                    · cases h
                    · cases h
                      exact ext1 ⟨_, hboth⟩
      · cases h

/-- C17, as stated, fails: on `configured_encoder`, which is not streaming, a
call of `v4l2_encoder_run` returns 0, makes two enqueue attempts and advances
both indices from 0 to 1. -/
theorem run_not_streaming_counterexample :
    configured_encoder.started = false ∧
      configured_encoder.output_buffers_index = 0 ∧
      configured_encoder.capture_buffers_index = 0 ∧
      enqueue_attempts configured_trace = 0 ∧
      (v4l2_encoder_run ready_env 1 configured_encoder configured_trace).map
          (fun r => (r.1, r.2.1.output_buffers_index, r.2.1.capture_buffers_index,
                     enqueue_attempts r.2.2))
        = some (0, 1, 1, 2) := by
  decide

/-- C17, amended: `v4l2_encoder_run` does not look at `started`.  A call on an
encoder that is not streaming returns what the same call returns on that
encoder with `started` set, `started` apart; when it returns, it has handed the
input slot to the raw-input queue as its first call to the transport and
advanced the input index, and `started` is still false. -/
theorem run_not_streaming (env : Env) (fuel : Nat) (e e' : v4l2_encoder) (t t' : Trace)
    (r : Int) (hst : e.started = false)
    (hrun : v4l2_encoder_run env fuel e t = some (r, e', t')) :
    v4l2_encoder_run env fuel { e with started := true } t
        = some (r, { e' with started := true }, t') ∧
      e'.started = false ∧
      e'.output_buffers_index
        = (e.output_buffers_index + 1) % UINT_WIDTH % e.output_buffers_count ∧
      ∃ ob res rest, e.output_buffers[e.output_buffers_index]? = some ob ∧
        t' = rest ++ Event.qbuf e.video_fd (v4l2_encoder_run_picture e ob) res :: t := by
  refine ⟨?_, ?_, (run_frame hrun).2.2.2.2.2.1, run_trace hrun⟩
  · rw [run_started, hrun]
    rfl
  · have h := run_started env fuel e t false
    have he : ({ e with started := false } : v4l2_encoder) = e := by
      cases e
      simp only at hst
      subst hst
      rfl
    rw [he, hrun] at h
    simp only [Option.map_some', Option.some.injEq, Prod.mk.injEq, true_and, and_true] at h
    rw [h]

theorem run_not_streaming_witness :
    configured_encoder.started = false ∧
      v4l2_encoder_run ready_env 1 { configured_encoder with started := true } configured_trace
        = some (((v4l2_encoder_run ready_env 1 configured_encoder configured_trace).getD
                  (1, opened_encoder, [])).1,
                { ((v4l2_encoder_run ready_env 1 configured_encoder configured_trace).getD
                    (1, opened_encoder, [])).2.1 with started := true },
                ((v4l2_encoder_run ready_env 1 configured_encoder configured_trace).getD
                  (1, opened_encoder, [])).2.2) :=
  ⟨by decide,
   (run_not_streaming ready_env 1 configured_encoder
      ((v4l2_encoder_run ready_env 1 configured_encoder configured_trace).getD
        (1, opened_encoder, [])).2.1
      configured_trace
      ((v4l2_encoder_run ready_env 1 configured_encoder configured_trace).getD
        (1, opened_encoder, [])).2.2
      ((v4l2_encoder_run ready_env 1 configured_encoder configured_trace).getD
        (1, opened_encoder, [])).1
      (by decide) (by rfl)).1⟩

/-! ## Closing the session -/

theorem close_fd_trace (fd : Int) (t : Trace) :
    mapped_regions (v4l2_encoder_close_fd fd t).2 = mapped_regions t ∧
    unmapped_regions (v4l2_encoder_close_fd fd t).2 = unmapped_regions t ∧
    opened_requests (v4l2_encoder_close_fd fd t).2 = opened_requests t ∧
    released_queues (v4l2_encoder_close_fd fd t).2 = released_queues t ∧
    closed_fds (v4l2_encoder_close_fd fd t).2
      = (if 0 < fd then [fd] else []) ++ closed_fds t ∧
    (0 < fd → (v4l2_encoder_close_fd fd t).1 = -1) := by
  unfold v4l2_encoder_close_fd
  by_cases h : 0 < fd
  · simp [h, mapped_regions, unmapped_regions, opened_requests, released_queues, closed_fds,
      Event.mapped, Event.unmapped, Event.opened, Event.released, Event.closed]
  · simp [h]

/-- C18, as stated, fails: `v4l2_encoder_close` on the configured session, with
six planes mapped and three request handles open, closes the three descriptors
of the session and nothing else: no plane is unmapped, no request handle
closed, no queue released. -/
theorem close_counterexample :
    (mapped_regions configured_trace).length = 6 ∧
      opened_requests configured_trace = [29, 26, 23] ∧
      unmapped_regions (v4l2_encoder_close configured_encoder configured_trace).2 = [] ∧
      closed_fds (v4l2_encoder_close configured_encoder configured_trace).2 = [4, 3, 5] ∧
      released_queues (v4l2_encoder_close configured_encoder configured_trace).2 = [] := by
  decide

/-- C18, amended: for every encoder state whose control handle and streaming
handle are descriptors above 0, `v4l2_encoder_close` closes both and records
them as -1 (the bitstream handle too when it is above 0).  It does not release
the pools: it unmaps nothing, closes no other descriptor, requests no release
of a queue and leaves the buffer records and `up` as they were. -/
theorem close_handles (encoder : v4l2_encoder) (t : Trace)
    (hm : 0 < encoder.media_fd) (hv : 0 < encoder.video_fd) :
    (v4l2_encoder_close encoder t).1.media_fd = -1 ∧
      (v4l2_encoder_close encoder t).1.video_fd = -1 ∧
      closed_fds (v4l2_encoder_close encoder t).2
        = [encoder.video_fd, encoder.media_fd] ++
            (if 0 < encoder.bitstream_fd then [encoder.bitstream_fd] else []) ++
            closed_fds t ∧
      mapped_regions (v4l2_encoder_close encoder t).2 = mapped_regions t ∧
      unmapped_regions (v4l2_encoder_close encoder t).2 = unmapped_regions t ∧
      opened_requests (v4l2_encoder_close encoder t).2 = opened_requests t ∧
      released_queues (v4l2_encoder_close encoder t).2 = released_queues t ∧
      (v4l2_encoder_close encoder t).1.output_buffers = encoder.output_buffers ∧
      (v4l2_encoder_close encoder t).1.capture_buffers = encoder.capture_buffers ∧
      (v4l2_encoder_close encoder t).1.up = encoder.up := by
  unfold v4l2_encoder_close
  simp only
  obtain ⟨a1, a2, a3, a4, a5, _⟩ := close_fd_trace encoder.bitstream_fd t
  obtain ⟨b1, b2, b3, b4, b5, b6⟩ :=
    close_fd_trace encoder.media_fd (v4l2_encoder_close_fd encoder.bitstream_fd t).2
  obtain ⟨c1, c2, c3, c4, c5, c6⟩ :=
    close_fd_trace encoder.video_fd
      (v4l2_encoder_close_fd encoder.media_fd
        (v4l2_encoder_close_fd encoder.bitstream_fd t).2).2
  refine ⟨b6 hm, c6 hv, ?_, ?_, ?_, ?_, ?_, trivial, trivial, trivial⟩
  · rw [c5, b5, a5]
    simp [hm, hv]
  · rw [c1, b1, a1]
  · rw [c2, b2, a2]
  · rw [c3, b3, a3]
  · rw [c4, b4, a4]

theorem close_handles_witness :
    0 < configured_encoder.media_fd ∧ 0 < configured_encoder.video_fd ∧
      (v4l2_encoder_close configured_encoder configured_trace).1.media_fd = -1 ∧
      (v4l2_encoder_close configured_encoder configured_trace).1.video_fd = -1 :=
  ⟨by decide, by decide,
   (close_handles configured_encoder configured_trace (by decide) (by decide)).1,
   (close_handles configured_encoder configured_trace (by decide) (by decide)).2.1⟩

/-! ## The trace of a configuration: auxiliary facts -/

theorem trace_extends_refl (p : Event → Bool) (t : Trace) : trace_extends p t t :=
  ⟨[], rfl, fun _ h => absurd h (List.not_mem_nil _)⟩

theorem trace_extends_trans {p : Event → Bool} {t t1 t2 : Trace}
    (h1 : trace_extends p t t1) (h2 : trace_extends p t1 t2) : trace_extends p t t2 := by
  obtain ⟨s1, e1, p1⟩ := h1
  obtain ⟨s2, e2, p2⟩ := h2
  refine ⟨s2 ++ s1, by rw [e2, e1, List.append_assoc], ?_⟩
  intro ev hev
  rcases List.mem_append.1 hev with h | h
  · exact p2 ev h
  · exact p1 ev h

theorem trace_extends_cons {p : Event → Bool} {t t1 : Trace} (ev : Event)
    (h : trace_extends p t t1) (hp : p ev = true) : trace_extends p t (ev :: t1) := by
  obtain ⟨s1, e1, p1⟩ := h
  refine ⟨ev :: s1, by rw [e1]; rfl, ?_⟩
  intro x hx
  rcases List.mem_cons.1 hx with h | h
  · rw [h]; exact hp
  · exact p1 x h

theorem trace_extends_sets {t t' : Trace} (h : trace_extends Event.is_pool t t') :
    control_sets t' = control_sets t ∧ selection_sets t' = selection_sets t := by
  obtain ⟨seg, rfl, hp⟩ := h
  have hc : seg.filterMap Event.control = [] := by
    rw [List.filterMap_eq_nil_iff]
    intro ev hev
    have := hp ev hev
    cases ev <;> simp_all [Event.is_pool, Event.control]
  have hs : seg.filterMap Event.selection = [] := by
    rw [List.filterMap_eq_nil_iff]
    intro ev hev
    have := hp ev hev
    cases ev <;> simp_all [Event.is_pool, Event.selection]
  simp [control_sets, selection_sets, List.filterMap_append, hc, hs]

theorem setup_mmap_extends (env : Env) (encoder : v4l2_encoder) (n : Nat) :
    ∀ (i : Nat) (b b' : v4l2_encoder_buffer) (t t' : Trace) (r : Int),
      v4l2_encoder_buffer_setup_mmap env encoder n i b t = some (r, b', t') →
      trace_extends Event.is_pool t t' := by
  induction n with
  | zero =>
    intro i b b' t t' r h
    simp only [v4l2_encoder_buffer_setup_mmap, Option.some.injEq, Prod.mk.injEq] at h
    rw [← h.2.2]
    exact trace_extends_refl _ _
  | succ n ih =>
    intro i b b' t t' r h
    unfold v4l2_encoder_buffer_setup_mmap at h
    split at h
    · cases h
      exact trace_extends_refl _ _
    · split at h
      · cases h
        exact trace_extends_refl _ _
      · split at h
        · split at h
          · refine trace_extends_trans
              (trace_extends_cons _ (trace_extends_refl _ t) ?_) (ih _ _ _ _ _ _ h)
            rfl
          · cases h
            exact trace_extends_cons _ (trace_extends_refl _ t) rfl
        · cases h

theorem buffer_setup_extends {env : Env} {encoder : v4l2_encoder}
    {b b' : v4l2_encoder_buffer} {type index : Nat} {t t' : Trace} {r : Int}
    (h : v4l2_encoder_buffer_setup env encoder b type index t = some (r, b', t')) :
    trace_extends Event.is_pool t t' := by
  unfold v4l2_encoder_buffer_setup at h
  split at h
  · cases h
    exact trace_extends_refl _ _
  · have hq : trace_extends Event.is_pool t
        (v4l2_buffer_query env encoder.video_fd
          (v4l2_buffer_setup_planes
            (v4l2_buffer_setup_index (v4l2_buffer_setup_base type encoder.memory) index)
            type b.planes b.planes_count) t).2.2 := by
      unfold v4l2_buffer_query
      split
      · exact trace_extends_cons _ (trace_extends_refl _ t) rfl
      · exact trace_extends_cons _ (trace_extends_refl _ t) rfl
    simp only at h
    split at h
    · cases h
      exact hq
    · split at h
      · cases h
      · rename_i ret b1 t1 hm
        have hm' : trace_extends Event.is_pool t t1 := by
          split at hm
          · exact trace_extends_trans hq (setup_mmap_extends _ _ _ _ _ _ _ _ _ hm)
          · cases hm
            exact hq
        split at h
        · cases h
          exact hm'
        · split at h
          · split at h
            · cases h
              exact trace_extends_cons _ hm' rfl
            · cases h
              exact trace_extends_cons _ hm' rfl
          · cases h
            exact hm'

theorem cleanup_munmap_extends (env : Env) (n : Nat) :
    ∀ (i : Nat) (b : v4l2_encoder_buffer) (t t' : Trace),
      v4l2_encoder_buffer_cleanup_munmap env n i b t = some t' →
      trace_extends Event.is_pool t t' := by
  induction n with
  | zero =>
    intro i b t t' h
    simp only [v4l2_encoder_buffer_cleanup_munmap, Option.some.injEq] at h
    rw [← h]
    exact trace_extends_refl _ _
  | succ n ih =>
    intro i b t t' h
    unfold v4l2_encoder_buffer_cleanup_munmap at h
    split at h
    · split at h
      · cases h
      · exact ih _ _ _ _ h
      · exact ih _ _ _ _ h
      · split at h
        · refine trace_extends_trans
            (trace_extends_cons _ (trace_extends_refl _ t) ?_) (ih _ _ _ _ h)
          rfl
        · refine trace_extends_trans
            (trace_extends_cons _ (trace_extends_refl _ t) ?_) (ih _ _ _ _ h)
          rfl
    · cases h

theorem buffer_cleanup_extends {env : Env} {encoder : v4l2_encoder}
    {b b' : v4l2_encoder_buffer} {t t' : Trace} {r : Int}
    (h : v4l2_encoder_buffer_cleanup env encoder b t = some (r, b', t')) :
    trace_extends Event.is_pool t t' := by
  unfold v4l2_encoder_buffer_cleanup at h
  split at h
  · cases h
    exact trace_extends_refl _ _
  · split at h
    · cases h
    · rename_i t1 hm
      have hm' : trace_extends Event.is_pool t t1 := by
        split at hm
        · exact cleanup_munmap_extends _ _ _ _ _ _ hm
        · cases hm
          exact trace_extends_refl _ _
      cases h
      split
      · exact trace_extends_cons _ hm' rfl
      · exact hm'

theorem setup_buffers_extends (env : Env) (encoder : v4l2_encoder) (planes_count type : Nat)
    (bs : List v4l2_encoder_buffer) :
    ∀ (i : Nat) (bs' : List v4l2_encoder_buffer) (t t' : Trace) (r : Int),
      v4l2_encoder_setup_buffers env encoder planes_count type i bs t = some (r, bs', t') →
      trace_extends Event.is_pool t t' := by
  induction bs with
  | nil =>
    intro i bs' t t' r h
    simp only [v4l2_encoder_setup_buffers, Option.some.injEq, Prod.mk.injEq] at h
    rw [← h.2.2]
    exact trace_extends_refl _ _
  | cons b rest ih =>
    intro i bs' t t' r h
    unfold v4l2_encoder_setup_buffers at h
    split at h
    · cases h
    · rename_i ret b1 t1 hb
      have h1 := buffer_setup_extends hb
      split at h
      · cases h
        exact h1
      · split at h
        · cases h
        · rename_i ret2 rest1 t2 hr
          cases h
          exact trace_extends_trans h1 (ih _ _ _ _ _ hr)

theorem buffers_cleanup_extends (env : Env) (encoder : v4l2_encoder)
    (bs : List v4l2_encoder_buffer) :
    ∀ (bs' : List v4l2_encoder_buffer) (t t' : Trace),
      v4l2_encoder_buffers_cleanup env encoder bs t = some (bs', t') →
      trace_extends Event.is_pool t t' := by
  induction bs with
  | nil =>
    intro bs' t t' h
    simp only [v4l2_encoder_buffers_cleanup, Option.some.injEq, Prod.mk.injEq] at h
    rw [← h.2]
    exact trace_extends_refl _ _
  | cons b rest ih =>
    intro bs' t t' h
    unfold v4l2_encoder_buffers_cleanup at h
    split at h
    · cases h
    · rename_i r b1 t1 hb
      split at h
      · cases h
      · rename_i rest1 t2 hr
        cases h
        exact trace_extends_trans (buffer_cleanup_extends hb) (ih _ _ _ hr)

theorem buffers_destroy_extends (env : Env) (fd : Int) (type memory : Nat) (t : Trace) :
    trace_extends Event.is_pool t (v4l2_buffers_destroy env fd type memory t).2 := by
  unfold v4l2_buffers_destroy
  split
  · exact trace_extends_cons _ (trace_extends_refl _ t) rfl
  · exact trace_extends_cons _ (trace_extends_refl _ t) rfl

theorem buffers_request_extends (env : Env) (fd : Int) (type memory count : Nat) (t : Trace) :
    trace_extends Event.is_pool t (v4l2_buffers_request env fd type memory count t).2 := by
  unfold v4l2_buffers_request
  split
  · exact trace_extends_cons _ (trace_extends_refl _ t) rfl
  · exact trace_extends_cons _ (trace_extends_refl _ t) rfl

theorem setup_error_extends {env : Env} {e e' : v4l2_encoder} {t t' : Trace}
    (h : v4l2_encoder_setup_error env e t = some (e', t')) :
    trace_extends Event.is_pool t t' := by
  unfold v4l2_encoder_setup_error at h
  split at h
  · cases h
  · rename_i obs t1 h1
    split at h
    · cases h
    · rename_i cbs t2 h2
      cases h
      exact trace_extends_trans
        (trace_extends_trans
          (trace_extends_trans (buffers_cleanup_extends _ _ _ _ _ _ h1)
            (buffers_destroy_extends _ _ _ _ _))
          (buffers_cleanup_extends _ _ _ _ _ _ h2))
        (buffers_destroy_extends _ _ _ _ _)

theorem control_sets_cons (ev : Event) (t : Trace) :
    control_sets (ev :: t) = control_sets t ++ (Event.control ev).toList := by
  unfold control_sets
  cases h : Event.control ev <;> simp [List.filterMap_cons, h]

theorem selection_sets_cons (ev : Event) (t : Trace) :
    selection_sets (ev :: t) = selection_sets t ++ (Event.selection ev).toList := by
  unfold selection_sets
  cases h : Event.selection ev <;> simp [List.filterMap_cons, h]

theorem control_set_trace (env : Env) (encoder : v4l2_encoder) (id : Nat) (value : Int)
    (t : Trace) :
    (v4l2_encoder_control_set env encoder id value t).2 =
      Event.s_ctrl encoder.video_fd id value (env.s_ctrl t encoder.video_fd id value) :: t := by
  unfold v4l2_encoder_control_set v4l2_control_set
  cases h : env.s_ctrl t encoder.video_fd id value <;> rfl

theorem control_set_sets (env : Env) (encoder : v4l2_encoder) (id : Nat) (value : Int)
    (t : Trace) :
    control_sets (v4l2_encoder_control_set env encoder id value t).2 =
        control_sets t ++ [(id, value)] ∧
      selection_sets (v4l2_encoder_control_set env encoder id value t).2 =
        selection_sets t := by
  rw [control_set_trace, control_sets_cons, selection_sets_cons]
  simp [Event.control, Event.selection]

theorem parm_set_sets (env : Env) (fd : Int) (p : v4l2_streamparm) (t : Trace) :
    control_sets (v4l2_parm_set env fd p t).2.2 = control_sets t ∧
      selection_sets (v4l2_parm_set env fd p t).2.2 = selection_sets t := by
  unfold v4l2_parm_set
  cases h : env.s_parm t fd p <;>
    simp [control_sets_cons, selection_sets_cons, Event.control, Event.selection]

theorem format_set_sets (env : Env) (fd : Int) (f : v4l2_format) (t : Trace) :
    control_sets (v4l2_format_set env fd f t).2.2 = control_sets t ∧
      selection_sets (v4l2_format_set env fd f t).2.2 = selection_sets t := by
  unfold v4l2_format_set
  cases h : env.s_fmt t fd f <;>
    simp [control_sets_cons, selection_sets_cons, Event.control, Event.selection]

theorem format_get_sets (env : Env) (fd : Int) (f : v4l2_format) (t : Trace) :
    control_sets (v4l2_format_get env fd f t).2.2 = control_sets t ∧
      selection_sets (v4l2_format_get env fd f t).2.2 = selection_sets t := by
  unfold v4l2_format_get
  cases h : env.g_fmt t fd f <;>
    simp [control_sets_cons, selection_sets_cons, Event.control, Event.selection]

theorem selection_set_sets (env : Env) (fd : Int) (s : v4l2_selection) (t : Trace) :
    control_sets (v4l2_selection_set env fd s t).2.2 = control_sets t ∧
      selection_sets (v4l2_selection_set env fd s t).2.2 = selection_sets t ++ [s] := by
  unfold v4l2_selection_set
  cases h : env.s_selection t fd s <;>
    simp [control_sets_cons, selection_sets_cons, Event.control, Event.selection]

theorem draw_buffer_create_sets (env : Env) (width height : Nat) (t : Trace) :
    control_sets (draw_buffer_create env width height t).2 = control_sets t ∧
      selection_sets (draw_buffer_create env width height t).2 = selection_sets t := by
  unfold draw_buffer_create
  split
  · exact ⟨rfl, rfl⟩
  · split
    · simp [control_sets_cons, selection_sets_cons, Event.control, Event.selection]
    · simp only []
      split <;>
        simp [control_sets_cons, selection_sets_cons, Event.control, Event.selection]

theorem control_set_choice_sets (env : Env) (e : v4l2_encoder) (c : Prop) [Decidable c]
    (id1 id2 : Nat) (value : Int) (t : Trace) :
    control_sets (if c then v4l2_encoder_control_set env e id1 value t
                  else v4l2_encoder_control_set env e id2 value t).2 =
        control_sets t ++ [(if c then id1 else id2, value)] ∧
      selection_sets (if c then v4l2_encoder_control_set env e id1 value t
                      else v4l2_encoder_control_set env e id2 value t).2 =
        selection_sets t := by
  by_cases hc : c
  · rw [if_pos hc, if_pos hc]
    exact control_set_sets _ _ _ _ _
  · rw [if_neg hc, if_neg hc]
    exact control_set_sets _ _ _ _ _

theorem setup_controls_sets (env : Env) (e : v4l2_encoder) (t : Trace) :
    selection_sets (v4l2_encoder_setup_controls env e t).2.2.2 = selection_sets t ∧
      ((v4l2_encoder_setup_controls env e t).2.1 = 0 →
        control_sets (v4l2_encoder_setup_controls env e t).2.2.2 =
          control_sets t ++ spec_encoder_controls e.setup) := by
  unfold v4l2_encoder_setup_controls
  lift_lets
  intro c1 c2 c3 c4 c5 c6 pb pm d
  have s1 : selection_sets c1.2 = selection_sets t := (control_set_sets _ _ _ _ _).2
  have s2 : selection_sets c2.2 = selection_sets t := by
    rw [← s1]; exact (control_set_sets _ _ _ _ _).2
  have s3 : selection_sets c3.2 = selection_sets t := by
    rw [← s2]; exact (control_set_sets _ _ _ _ _).2
  have s4 : selection_sets c4.2 = selection_sets t := by
    rw [← s3]; exact (control_set_sets _ _ _ _ _).2
  have s5 : selection_sets c5.2 = selection_sets t := by
    rw [← s4]; exact (control_set_sets _ _ _ _ _).2
  have s6 : selection_sets c6.2 = selection_sets t := by
    rw [← s5]; exact (control_set_choice_sets _ _ _ _ _ _ _).2
  have s7 : selection_sets pm.2.2 = selection_sets t := by
    rw [← s6]; exact (parm_set_sets _ _ _ _).2
  have s8 : selection_sets d.2 = selection_sets t := by
    rw [← s7]; exact (draw_buffer_create_sets _ _ _ _).2
  have k1 : control_sets c1.2 = control_sets t ++
      [(V4L2_CID_MPEG_VIDEO_PREPEND_SPSPPS_TO_IDR, 1)] := (control_set_sets _ _ _ _ _).1
  have k2 : control_sets c2.2 = control_sets c1.2 ++
      [(V4L2_CID_MPEG_VIDEO_H264_I_FRAME_QP, int_of_uint e.setup.qp_i)] :=
    (control_set_sets _ _ _ _ _).1
  have k3 : control_sets c3.2 = control_sets c2.2 ++
      [(V4L2_CID_MPEG_VIDEO_H264_P_FRAME_QP, int_of_uint e.setup.qp_p)] :=
    (control_set_sets _ _ _ _ _).1
  have k4 : control_sets c4.2 = control_sets c3.2 ++
      [(V4L2_CID_MPEG_VIDEO_H264_ENTROPY_MODE, V4L2_MPEG_VIDEO_H264_ENTROPY_MODE_CABAC)] :=
    (control_set_sets _ _ _ _ _).1
  have k5 : control_sets c5.2 = control_sets c4.2 ++
      [(V4L2_CID_MPEG_VIDEO_GOP_CLOSURE, int_of_uint e.setup.gop_closure)] :=
    (control_set_sets _ _ _ _ _).1
  have k6 : control_sets c6.2 = control_sets c5.2 ++
      [(if e.setup.gop_closure ≠ 0 then V4L2_CID_MPEG_VIDEO_GOP_SIZE
        else V4L2_CID_MPEG_VIDEO_H264_I_PERIOD, int_of_uint e.setup.gop_size)] :=
    (control_set_choice_sets _ _ _ _ _ _ _).1
  have k7 : control_sets pm.2.2 = control_sets c6.2 := (parm_set_sets _ _ _ _).1
  have k8 : control_sets d.2 = control_sets pm.2.2 := (draw_buffer_create_sets _ _ _ _).1
  have kall : control_sets d.2 = control_sets t ++ spec_encoder_controls e.setup := by
    rw [k8, k7, k6, k5, k4, k3, k2, k1]
    simp [spec_encoder_controls]
  by_cases h1 : c1.1 ≠ 0
  · rw [if_pos h1]
    exact ⟨s1, fun h => absurd h h1⟩
  rw [if_neg h1]
  by_cases h2 : c2.1 ≠ 0
  · rw [if_pos h2]
    exact ⟨s2, fun h => absurd h h2⟩
  rw [if_neg h2]
  by_cases h3 : c3.1 ≠ 0
  · rw [if_pos h3]
    exact ⟨s3, fun h => absurd h h3⟩
  rw [if_neg h3]
  by_cases h4 : c4.1 ≠ 0
  · rw [if_pos h4]
    exact ⟨s4, fun h => absurd h h4⟩
  rw [if_neg h4]
  by_cases h5 : c5.1 ≠ 0
  · rw [if_pos h5]
    exact ⟨s5, fun h => absurd h h5⟩
  rw [if_neg h5]
  by_cases h6 : c6.1 ≠ 0
  · rw [if_pos h6]
    exact ⟨s6, fun h => absurd h h6⟩
  rw [if_neg h6]
  by_cases h7 : pm.1 ≠ 0
  · rw [if_pos h7]
    exact ⟨s7, fun h => absurd h h7⟩
  rw [if_neg h7]
  cases hd : d.1 with
  | none => exact ⟨s8, fun _ => kall⟩
  | some b => exact ⟨s8, fun _ => kall⟩

theorem format_reads_cons (ev : Event) (t : Trace) :
    format_reads (ev :: t) = format_reads t ++ (Event.read_format ev).toList := by
  unfold format_reads
  cases h : Event.read_format ev <;> simp [List.filterMap_cons, h]

theorem trace_extends_reads {t t' : Trace} (h : trace_extends Event.is_pool t t') :
    format_reads t' = format_reads t := by
  obtain ⟨seg, rfl, hp⟩ := h
  have hc : seg.filterMap Event.read_format = [] := by
    rw [List.filterMap_eq_nil_iff]
    intro ev hev
    have := hp ev hev
    cases ev <;> simp_all [Event.is_pool, Event.read_format]
  simp [format_reads, List.filterMap_append, hc]

theorem control_set_reads (env : Env) (encoder : v4l2_encoder) (id : Nat) (value : Int)
    (t : Trace) :
    format_reads (v4l2_encoder_control_set env encoder id value t).2 = format_reads t := by
  rw [control_set_trace, format_reads_cons]
  simp [Event.read_format]

theorem parm_set_reads (env : Env) (fd : Int) (p : v4l2_streamparm) (t : Trace) :
    format_reads (v4l2_parm_set env fd p t).2.2 = format_reads t := by
  unfold v4l2_parm_set
  cases h : env.s_parm t fd p <;> simp [format_reads_cons, Event.read_format]

theorem format_set_reads (env : Env) (fd : Int) (f : v4l2_format) (t : Trace) :
    format_reads (v4l2_format_set env fd f t).2.2 = format_reads t := by
  unfold v4l2_format_set
  cases h : env.s_fmt t fd f <;> simp [format_reads_cons, Event.read_format]

theorem selection_set_reads (env : Env) (fd : Int) (s : v4l2_selection) (t : Trace) :
    format_reads (v4l2_selection_set env fd s t).2.2 = format_reads t := by
  unfold v4l2_selection_set
  cases h : env.s_selection t fd s <;> simp [format_reads_cons, Event.read_format]

theorem format_get_reads (env : Env) (fd : Int) (f : v4l2_format) (t : Trace) :
    format_reads (v4l2_format_get env fd f t).2.2 =
      format_reads t ++
        (if (v4l2_format_get env fd f t).1 = 0 then [(v4l2_format_get env fd f t).2.1]
         else []) := by
  unfold v4l2_format_get
  cases h : env.g_fmt t fd f with
  | ok g => simp [format_reads_cons, Event.read_format]
  | err e => simp [format_reads_cons, Event.read_format, neg_errno_ne_zero]

theorem draw_buffer_create_reads (env : Env) (width height : Nat) (t : Trace) :
    format_reads (draw_buffer_create env width height t).2 = format_reads t := by
  unfold draw_buffer_create
  split
  · rfl
  · split
    · simp [format_reads_cons, Event.read_format]
    · simp only []
      split <;> simp [format_reads_cons, Event.read_format]

theorem setup_controls_reads (env : Env) (e : v4l2_encoder) (t : Trace) :
    format_reads (v4l2_encoder_setup_controls env e t).2.2.2 = format_reads t := by
  unfold v4l2_encoder_setup_controls
  lift_lets
  intro c1 c2 c3 c4 c5 c6 pb pm d
  have s1 : format_reads c1.2 = format_reads t := control_set_reads _ _ _ _ _
  have s2 : format_reads c2.2 = format_reads t := by
    rw [← s1]; exact control_set_reads _ _ _ _ _
  have s3 : format_reads c3.2 = format_reads t := by
    rw [← s2]; exact control_set_reads _ _ _ _ _
  have s4 : format_reads c4.2 = format_reads t := by
    rw [← s3]; exact control_set_reads _ _ _ _ _
  have s5 : format_reads c5.2 = format_reads t := by
    rw [← s4]; exact control_set_reads _ _ _ _ _
  have s6 : format_reads c6.2 = format_reads t := by
    rw [← s5]
    by_cases hg : e.setup.gop_closure ≠ 0
    · have hc : c6 = v4l2_encoder_control_set env e V4L2_CID_MPEG_VIDEO_GOP_SIZE
          (int_of_uint e.setup.gop_size) c5.2 := if_pos hg
      rw [hc]; exact control_set_reads _ _ _ _ _
    · have hc : c6 = v4l2_encoder_control_set env e V4L2_CID_MPEG_VIDEO_H264_I_PERIOD
          (int_of_uint e.setup.gop_size) c5.2 := if_neg hg
      rw [hc]; exact control_set_reads _ _ _ _ _
  have s7 : format_reads pm.2.2 = format_reads t := by
    rw [← s6]; exact parm_set_reads _ _ _ _
  have s8 : format_reads d.2 = format_reads t := by
    rw [← s7]; exact draw_buffer_create_reads _ _ _ _
  by_cases h1 : c1.1 ≠ 0
  · rw [if_pos h1]; exact s1
  rw [if_neg h1]
  by_cases h2 : c2.1 ≠ 0
  · rw [if_pos h2]; exact s2
  rw [if_neg h2]
  by_cases h3 : c3.1 ≠ 0
  · rw [if_pos h3]; exact s3
  rw [if_neg h3]
  by_cases h4 : c4.1 ≠ 0
  · rw [if_pos h4]; exact s4
  rw [if_neg h4]
  by_cases h5 : c5.1 ≠ 0
  · rw [if_pos h5]; exact s5
  rw [if_neg h5]
  by_cases h6 : c6.1 ≠ 0
  · rw [if_pos h6]; exact s6
  rw [if_neg h6]
  by_cases h7 : pm.1 ≠ 0
  · rw [if_pos h7]; exact s7
  rw [if_neg h7]
  cases hd : d.1 with
  | none => exact s8
  | some b => exact s8

theorem setup_controls_sets_of {env : Env} {e e' : v4l2_encoder} {t t' : Trace}
    {x : SetupExit} {r : Int}
    (h : v4l2_encoder_setup_controls env e t = (x, r, e', t')) :
    selection_sets t' = selection_sets t ∧ format_reads t' = format_reads t ∧
      (r = 0 → control_sets t' = control_sets t ++ spec_encoder_controls e.setup) := by
  have h1 := setup_controls_sets env e t
  have h2 := setup_controls_reads env e t
  rw [h] at h1 h2
  exact ⟨h1.1, h2, h1.2⟩

theorem setup_allocate_sets {env : Env} {e e' : v4l2_encoder} {t t' : Trace}
    {x : SetupExit} {r : Int}
    (h : v4l2_encoder_setup_allocate env e t = some (x, r, e', t')) :
    selection_sets t' = selection_sets t ∧ format_reads t' = format_reads t ∧
      (r = 0 → control_sets t' = control_sets t ++ spec_encoder_controls e.setup) := by
  unfold v4l2_encoder_setup_allocate at h
  have hrc := buffers_request_extends env e.video_fd e.capture_type e.memory
    BUFFERS_ARRAY_SIZE t
  simp only [] at h
  split at h
  · rename_i h0
    cases h
    exact ⟨(trace_extends_sets hrc).2, trace_extends_reads hrc, fun hr => absurd hr h0⟩
  · split at h
    · cases h
    · rename_i ret cbs t1 hc
      have h1 := trace_extends_trans hrc (setup_buffers_extends _ _ _ _ _ _ _ _ _ _ hc)
      split at h
      · rename_i hne
        cases h
        exact ⟨(trace_extends_sets h1).2, trace_extends_reads h1, fun hr => absurd hr hne⟩
      · have hro := trace_extends_trans h1
          (buffers_request_extends env e.video_fd e.output_type e.memory BUFFERS_ARRAY_SIZE t1)
        split at h
        · rename_i hne
          cases h
          exact ⟨(trace_extends_sets hro).2, trace_extends_reads hro,
            fun hr => absurd hr hne⟩
        · split at h
          · cases h
          · rename_i ret2 obs t2 ho
            have h2 := trace_extends_trans hro
              (setup_buffers_extends _ _ _ _ _ _ _ _ _ _ ho)
            split at h
            · rename_i hne
              cases h
              exact ⟨(trace_extends_sets h2).2, trace_extends_reads h2,
                fun hr => absurd hr hne⟩
            · simp only [Option.some.injEq] at h
              have hc := setup_controls_sets_of h
              refine ⟨?_, ?_, fun hr => ?_⟩
              · rw [hc.1, (trace_extends_sets h2).2]
              · rw [hc.2.1, trace_extends_reads h2]
              · rw [hc.2.2 hr, (trace_extends_sets h2).1]

/-- The selection `v4l2_encoder_setup` asks for after a size adjustment. -/
theorem setup_formats_sets {env : Env} {e e' : v4l2_encoder} {t t' : Trace}
    {x : SetupExit} {r : Int}
    (h : v4l2_encoder_setup_formats env e t = some (x, r, e', t')) :
    (r = 0 → control_sets t' = control_sets t ++ spec_encoder_controls e.setup) ∧
      ∃ reads, format_reads t' = format_reads t ++ reads ∧ reads.length ≤ 1 ∧
        selection_sets t' = selection_sets t ++
          (reads.filter (fun f => decide ((v4l2_format_pixel f).1 ≠ e.setup.width ∨
                                          (v4l2_format_pixel f).2 ≠ e.setup.height))).map
            (fun _ => v4l2_selection_setup_rect
              (v4l2_selection_setup_base e.output_type V4L2_SEL_TGT_CROP) 0 0
              e.setup.width e.setup.height) := by
  unfold v4l2_encoder_setup_formats at h
  simp only [] at h
  split at h
  · rename_i h0
    cases h
    refine ⟨fun hr => absurd hr h0, [], ?_, by simp, ?_⟩
    · rw [format_set_reads, List.append_nil]
    · rw [(format_set_sets _ _ _ _).2]; simp
  · split at h
    · rename_i h0
      cases h
      refine ⟨fun hr => absurd hr h0, [], ?_, by simp, ?_⟩
      · rw [format_set_reads, format_set_reads, List.append_nil]
      · rw [(format_set_sets _ _ _ _).2, (format_set_sets _ _ _ _).2]; simp
    · split at h
      · rename_i h0
        cases h
        refine ⟨fun hr => absurd hr h0, [], ?_, by simp, ?_⟩
        · rw [format_get_reads, if_neg h0, format_set_reads, format_set_reads]
        · rw [(format_get_sets _ _ _ _).2, (format_set_sets _ _ _ _).2,
            (format_set_sets _ _ _ _).2]; simp
      · rename_i hs hos hog
        have hog0 := not_not.1 hog
        split at h
        · rename_i hdiff
          split at h
          · rename_i h0
            cases h
            refine ⟨fun hr => absurd hr h0, ?_⟩
            apply Exists.intro
            refine ⟨?_, ?_, ?_⟩
            · rw [selection_set_reads, format_get_reads, if_pos hog0, format_set_reads,
                format_set_reads]
            · simp
            · rw [(selection_set_sets _ _ _ _).2, (format_get_sets _ _ _ _).2,
                (format_set_sets _ _ _ _).2, (format_set_sets _ _ _ _).2]
              simp only [List.filter_cons, List.filter_nil]
              rw [if_pos (by simpa using hdiff)]
              rfl
          · have ha := setup_allocate_sets h
            refine ⟨fun hr => ?_, ?_⟩
            · rw [ha.2.2 hr, (selection_set_sets _ _ _ _).1, (format_get_sets _ _ _ _).1,
                (format_set_sets _ _ _ _).1, (format_set_sets _ _ _ _).1]
            apply Exists.intro
            refine ⟨?_, ?_, ?_⟩
            · rw [ha.2.1, selection_set_reads, format_get_reads, if_pos hog0,
                format_set_reads, format_set_reads]
            · simp
            · rw [ha.1, (selection_set_sets _ _ _ _).2, (format_get_sets _ _ _ _).2,
                (format_set_sets _ _ _ _).2, (format_set_sets _ _ _ _).2]
              simp only [List.filter_cons, List.filter_nil]
              rw [if_pos (by simpa using hdiff)]
              rfl
        · rename_i hdiff
          have ha := setup_allocate_sets h
          refine ⟨fun hr => ?_, ?_⟩
          · rw [ha.2.2 hr, (format_get_sets _ _ _ _).1,
              (format_set_sets _ _ _ _).1, (format_set_sets _ _ _ _).1]
          apply Exists.intro
          refine ⟨?_, ?_, ?_⟩
          · rw [ha.2.1, format_get_reads, if_pos hog0, format_set_reads, format_set_reads]
          · simp
          · rw [ha.1, (format_get_sets _ _ _ _).2,
              (format_set_sets _ _ _ _).2, (format_set_sets _ _ _ _).2]
            simp only [List.filter_cons, List.filter_nil]
            rw [if_neg (by simpa using hdiff)]
            simp

theorem setup_sets {env : Env} {e e' : v4l2_encoder} {t t' : Trace} {r : Int}
    (h : v4l2_encoder_setup env e t = some (r, e', t')) :
    (r = 0 → control_sets t' = control_sets t ++ spec_encoder_controls e.setup) ∧
      ∃ reads, format_reads t' = format_reads t ++ reads ∧ reads.length ≤ 1 ∧
        selection_sets t' = selection_sets t ++
          (reads.filter (fun f => decide ((v4l2_format_pixel f).1 ≠ e.setup.width ∨
                                          (v4l2_format_pixel f).2 ≠ e.setup.height))).map
            (fun _ => v4l2_selection_setup_rect
              (v4l2_selection_setup_base e.output_type V4L2_SEL_TGT_CROP) 0 0
              e.setup.width e.setup.height) := by
  unfold v4l2_encoder_setup at h
  split at h
  · cases h
    refine ⟨fun hr => ?_, [], by simp, by simp, by simp⟩
    simp [EINVAL] at hr
  · split at h
    · cases h
    · rename_i ret e1 t1 hf
      cases h
      exact setup_formats_sets hf
    · rename_i ret e1 t1 hf
      split at h
      · cases h
      · rename_i e2 t2 he
        cases h
        have hx := setup_error_extends he
        obtain ⟨hk, reads, hr1, hr2, hr3⟩ := setup_formats_sets hf
        refine ⟨fun hr => ?_, reads, ?_, hr2, ?_⟩
        · rw [(trace_extends_sets hx).1, hk hr]
        · rw [trace_extends_reads hx, hr1]
        · rw [(trace_extends_sets hx).2, hr3]

/-! ## Encoder controls -/

/-- C19: when `v4l2_encoder_setup` returns 0, the control-set calls it made
are, in order: prepend-SPS/PPS-to-IDR = 1, I-frame QP = `setup.qp_i`, P-frame
QP = `setup.qp_p`, entropy mode = CABAC, GOP closure = `setup.gop_closure`,
then GOP size if `gop_closure` is non-zero and I-frame period otherwise, set
to `setup.gop_size`; and no other.  The values are the `int` the call
receives, which is the field itself below 2^31. -/
theorem setup_control_sequence (env : Env) (encoder e1 : v4l2_encoder) (t t1 : Trace)
    (h : v4l2_encoder_setup env encoder t = some (0, e1, t1)) :
    control_sets t1 = control_sets t ++
        [(V4L2_CID_MPEG_VIDEO_PREPEND_SPSPPS_TO_IDR, 1),
         (V4L2_CID_MPEG_VIDEO_H264_I_FRAME_QP, int_of_uint encoder.setup.qp_i),
         (V4L2_CID_MPEG_VIDEO_H264_P_FRAME_QP, int_of_uint encoder.setup.qp_p),
         (V4L2_CID_MPEG_VIDEO_H264_ENTROPY_MODE, V4L2_MPEG_VIDEO_H264_ENTROPY_MODE_CABAC),
         (V4L2_CID_MPEG_VIDEO_GOP_CLOSURE, int_of_uint encoder.setup.gop_closure),
         (if encoder.setup.gop_closure ≠ 0 then V4L2_CID_MPEG_VIDEO_GOP_SIZE
          else V4L2_CID_MPEG_VIDEO_H264_I_PERIOD, int_of_uint encoder.setup.gop_size)] ∧
      ∀ n : Nat, n < 2 ^ 31 → int_of_uint n = (n : Int) := by
  refine ⟨(setup_sets h).1 rfl, fun n hn => ?_⟩
  have hm : n % UINT_WIDTH = n := Nat.mod_eq_of_lt (by unfold UINT_WIDTH; omega)
  unfold int_of_uint
  rw [hm, if_pos hn]

theorem setup_control_sequence_witness :
    v4l2_encoder_setup ready_env opened_encoder [] =
        some (0, configured_encoder, configured_trace) ∧
      control_sets configured_trace = control_sets [] ++
        [(V4L2_CID_MPEG_VIDEO_PREPEND_SPSPPS_TO_IDR, 1),
         (V4L2_CID_MPEG_VIDEO_H264_I_FRAME_QP, int_of_uint opened_encoder.setup.qp_i),
         (V4L2_CID_MPEG_VIDEO_H264_P_FRAME_QP, int_of_uint opened_encoder.setup.qp_p),
         (V4L2_CID_MPEG_VIDEO_H264_ENTROPY_MODE, V4L2_MPEG_VIDEO_H264_ENTROPY_MODE_CABAC),
         (V4L2_CID_MPEG_VIDEO_GOP_CLOSURE, int_of_uint opened_encoder.setup.gop_closure),
         (if opened_encoder.setup.gop_closure ≠ 0 then V4L2_CID_MPEG_VIDEO_GOP_SIZE
          else V4L2_CID_MPEG_VIDEO_H264_I_PERIOD, int_of_uint opened_encoder.setup.gop_size)] :=
  ⟨rfl, (setup_control_sequence ready_env opened_encoder configured_encoder []
    configured_trace rfl).1⟩

/-! ## Crop on size adjustment -/

/-- On a device that rounds sizes up, the configuration of 1280x720 reads
1280x736 back and sets one selection; on `ready_env` it sets none. -/
theorem setup_selection_samples :
    (v4l2_encoder_setup aligning_env opened_encoder []).map
        (fun r => (r.1, (format_reads r.2.2).map v4l2_format_pixel, selection_sets r.2.2)) =
      some (0, [(1280, 736)],
            [{ type := V4L2_BUF_TYPE_VIDEO_OUTPUT, target := V4L2_SEL_TGT_CROP,
               r := { left := 0, top := 0, width := 1280, height := 720 } }]) ∧
    (v4l2_encoder_setup ready_env opened_encoder []).map
        (fun r => (r.1, (format_reads r.2.2).map v4l2_format_pixel, selection_sets r.2.2)) =
      some (0, [(1280, 720)], []) :=
  ⟨rfl, rfl⟩

/-- C20: along a returning `v4l2_encoder_setup` at most one format is read
back from the device, and a selection-set call is made exactly for a format
read back whose width or height is not the requested one; that selection has
the crop target, the type `v4l2_type_base` of the raw-input queue type, left
and top 0, and the requested width and height. -/
theorem setup_crop_selection (env : Env) (encoder e1 : v4l2_encoder) (t t1 : Trace) (r : Int)
    (h : v4l2_encoder_setup env encoder t = some (r, e1, t1)) :
    ∃ reads, format_reads t1 = format_reads t ++ reads ∧ reads.length ≤ 1 ∧
      selection_sets t1 = selection_sets t ++
        (reads.filter (fun f => decide ((v4l2_format_pixel f).1 ≠ encoder.setup.width ∨
                                        (v4l2_format_pixel f).2 ≠ encoder.setup.height))).map
          (fun _ => { type := v4l2_type_base encoder.output_type, target := V4L2_SEL_TGT_CROP,
                      r := { left := 0, top := 0, width := encoder.setup.width,
                             height := encoder.setup.height } }) :=
  (setup_sets h).2

theorem setup_crop_selection_witness :
    v4l2_encoder_setup aligning_env opened_encoder [] =
        some ((v4l2_encoder_setup aligning_env opened_encoder []).getD (0, opened_encoder, [])) ∧
      ∃ reads,
        format_reads ((v4l2_encoder_setup aligning_env opened_encoder []).getD
            (0, opened_encoder, [])).2.2 = format_reads [] ++ reads ∧
        reads.length ≤ 1 ∧
        selection_sets ((v4l2_encoder_setup aligning_env opened_encoder []).getD
            (0, opened_encoder, [])).2.2 = selection_sets [] ++
          (reads.filter (fun f =>
              decide ((v4l2_format_pixel f).1 ≠ opened_encoder.setup.width ∨
                      (v4l2_format_pixel f).2 ≠ opened_encoder.setup.height))).map
            (fun _ => { type := v4l2_type_base opened_encoder.output_type,
                        target := V4L2_SEL_TGT_CROP,
                        r := { left := 0, top := 0, width := opened_encoder.setup.width,
                               height := opened_encoder.setup.height } }) :=
  ⟨rfl, setup_crop_selection aligning_env opened_encoder _ [] _ _ rfl⟩

/-! ## Opening and probing: auxiliary facts -/

theorem trace_since_append (seg t : ProbeTrace) : trace_since t (seg ++ t) = seg := by
  unfold trace_since
  simp

theorem trace_since_self (t : ProbeTrace) : trace_since t t = [] := by
  have h := trace_since_append [] t
  simpa using h

theorem pixel_format_check_trace (env : ProbeEnv) (fd : Int) (type pf : Nat) :
    ∀ (fuel index : Nat) (t t1 : ProbeTrace) (b : Bool),
      v4l2_pixel_format_check env fd type pf fuel index t = some (b, t1) →
      ∃ seg, t1 = seg ++ t ∧
        (∀ ev, ev ∈ seg → ∃ i r, ev = ProbeEvent.enum_fmt fd type i r) ∧
        (b = true ↔ ∃ i, ProbeEvent.enum_fmt fd type i (.ok pf) ∈ seg) := by
  intro fuel
  induction fuel with
  | zero =>
    intro index t t1 b h
    simp [v4l2_pixel_format_check] at h
  | succ n ih =>
    intro index t t1 b h
    unfold v4l2_pixel_format_check v4l2_pixel_format_enum at h
    cases ho : env.enum_fmt t fd type index with
    | err e =>
      rw [ho] at h
      simp only [Option.some.injEq, Prod.mk.injEq] at h
      refine ⟨[ProbeEvent.enum_fmt fd type index (.err e)], by rw [← h.2]; rfl, ?_, ?_⟩
      · intro ev hev
        simp only [List.mem_singleton] at hev
        exact ⟨index, _, hev⟩
      · rw [← h.1]
        simp
    | ok p =>
      rw [ho] at h
      simp only at h
      by_cases hp : p = pf
      · rw [if_pos hp] at h
        simp only [Option.some.injEq, Prod.mk.injEq] at h
        refine ⟨[ProbeEvent.enum_fmt fd type index (.ok p)], by rw [← h.2]; rfl, ?_, ?_⟩
        · intro ev hev
          simp only [List.mem_singleton] at hev
          exact ⟨index, _, hev⟩
        · rw [← h.1, hp]
          simp
      · rw [if_neg hp] at h
        obtain ⟨seg, hs, hall, hb⟩ := ih _ _ _ _ h
        refine ⟨seg ++ [ProbeEvent.enum_fmt fd type index (.ok p)], by rw [hs]; simp, ?_, ?_⟩
        · intro ev hev
          rcases List.mem_append.1 hev with h1 | h1
          · exact hall ev h1
          · simp only [List.mem_singleton] at h1
            exact ⟨index, _, h1⟩
        · rw [hb]
          constructor
          · rintro ⟨i, hi⟩
            exact ⟨i, List.mem_append_left _ hi⟩
          · rintro ⟨i, hi⟩
            rcases List.mem_append.1 hi with h1 | h1
            · exact ⟨i, h1⟩
            · simp only [List.mem_singleton, ProbeEvent.enum_fmt.injEq, Sys.ok.injEq] at h1
              exact absurd h1.2.2.2.symm hp

/-- The enumeration ends when the device refuses every index from `n` on:
`n + 1` calls are enough. -/
theorem pixel_format_check_returns (env : ProbeEnv) (fd : Int) (type pf n : Nat)
    (hend : ∀ t i, n ≤ i → ∃ e, env.enum_fmt t fd type i = .err e) :
    ∀ (fuel index : Nat) (t : ProbeTrace), 0 < fuel → index + fuel < UINT_WIDTH →
      n < index + fuel →
      (v4l2_pixel_format_check env fd type pf fuel index t).isSome = true := by
  intro fuel
  induction fuel with
  | zero =>
    intro index t h0
    exact absurd h0 (by omega)
  | succ k ih =>
    intro index t _ hw h
    unfold v4l2_pixel_format_check v4l2_pixel_format_enum
    cases ho : env.enum_fmt t fd type index with
    | err e => rfl
    | ok p =>
      simp only
      by_cases hp : p = pf
      · rw [if_pos hp]; rfl
      · rw [if_neg hp]
        have hm : (index + 1) % UINT_WIDTH = index + 1 := Nat.mod_eq_of_lt (by omega)
        rw [hm]
        by_cases hk : n ≤ index
        · obtain ⟨e, he⟩ := hend t index hk
          rw [he] at ho
          cases ho
        · exact ih _ _ (by omega) (by omega) (by omega)

theorem capabilities_probe_cases (env : ProbeEnv) (fd : Int) (caps : Nat) (t : ProbeTrace) :
    (∃ e, env.querycap t fd = .err e ∧
        v4l2_capabilities_probe env fd caps t =
          (neg_errno e, caps, ProbeEvent.querycap fd (.err e) :: t)) ∨
      (∃ cap, env.querycap t fd = .ok cap ∧
        v4l2_capabilities_probe env fd caps t =
          (0, if cap.capabilities &&& V4L2_CAP_DEVICE_CAPS ≠ 0 then cap.device_caps
              else cap.capabilities,
           ProbeEvent.querycap fd (.ok cap) :: t)) := by
  unfold v4l2_capabilities_probe
  cases h : env.querycap t fd with
  | err e => exact Or.inl ⟨e, rfl, rfl⟩
  | ok cap => exact Or.inr ⟨cap, rfl, rfl⟩

theorem buffers_capabilities_probe_cases (env : ProbeEnv) (fd : Int) (type memory caps : Nat)
    (t : ProbeTrace) :
    (∃ e, v4l2_buffers_capabilities_probe env fd type memory caps t =
          (neg_errno e, caps, ProbeEvent.create_bufs fd type memory 0 (.err e) :: t)) ∨
      (∃ c, v4l2_buffers_capabilities_probe env fd type memory caps t =
          (0, if c ≠ 0 then c else V4L2_BUF_CAP_SUPPORTS_MMAP,
           ProbeEvent.create_bufs fd type memory 0 (.ok c) :: t)) := by
  unfold v4l2_buffers_capabilities_probe
  cases h : env.create_bufs t fd type memory 0 with
  | err e => exact Or.inl ⟨e, rfl⟩
  | ok c => exact Or.inr ⟨c, rfl⟩

theorem probe_types_ne (b : Bool) :
    (if b = true then V4L2_BUF_TYPE_VIDEO_OUTPUT_MPLANE else V4L2_BUF_TYPE_VIDEO_OUTPUT) ≠
      (if b = true then V4L2_BUF_TYPE_VIDEO_CAPTURE_MPLANE else V4L2_BUF_TYPE_VIDEO_CAPTURE) := by
  cases b <;> decide

theorem probe_outcome {env : ProbeEnv} {fuel : Nat} {encoder e1 : v4l2_encoder}
    {t t1 : ProbeTrace} {r : Int}
    (h : v4l2_encoder_probe env fuel encoder t = some (r, e1, t1)) :
    ∃ seg, t1 = seg ++ t ∧
      ((r ≠ 0 ∧ ∀ ev, ev ∈ seg → ∀ i, ev ≠
          ProbeEvent.enum_fmt encoder.video_fd e1.capture_type i (.ok V4L2_PIX_FMT_H264)) ∨
       (r = 0 ∧
        (∃ cap, ProbeEvent.querycap encoder.video_fd (.ok cap) ∈ seg ∧
          v4l2_capabilities_check
            (if cap.capabilities &&& V4L2_CAP_DEVICE_CAPS ≠ 0 then cap.device_caps
             else cap.capabilities) V4L2_CAP_VIDEO_M2M = true) ∧
        (∃ c, ProbeEvent.create_bufs encoder.video_fd e1.output_type V4L2_MEMORY_MMAP 0
            (.ok c) ∈ seg ∧
          v4l2_capabilities_check (if c ≠ 0 then c else V4L2_BUF_CAP_SUPPORTS_MMAP)
            V4L2_BUF_CAP_SUPPORTS_REQUESTS = true) ∧
        (∃ c, ProbeEvent.create_bufs encoder.video_fd e1.capture_type V4L2_MEMORY_MMAP 0
            (.ok c) ∈ seg) ∧
        (∃ i, ProbeEvent.enum_fmt encoder.video_fd e1.capture_type i
            (.ok V4L2_PIX_FMT_H264) ∈ seg))) := by
  unfold v4l2_encoder_probe at h
  by_cases hfd : encoder.video_fd < 0
  · rw [if_pos hfd] at h
    simp only [Option.some.injEq, Prod.mk.injEq] at h
    refine ⟨[], by rw [← h.2.2]; rfl, Or.inl ⟨by rw [← h.1]; decide, ?_⟩⟩
    intro ev hev
    cases hev
  rw [if_neg hfd] at h
  lift_lets at h
  extract_lets c ea e2 e3 o e4 k e5 at h
  rcases capabilities_probe_cases env encoder.video_fd encoder.capabilities t with
    ⟨e, _, hc⟩ | ⟨cap, _, hc⟩
  · have hc1 : c.1 = neg_errno e := by
      show (v4l2_capabilities_probe env encoder.video_fd encoder.capabilities t).1 = _
      rw [hc]
    have hc2 : c.2.2 = ProbeEvent.querycap encoder.video_fd (.err e) :: t := by
      show (v4l2_capabilities_probe env encoder.video_fd encoder.capabilities t).2.2 = _
      rw [hc]
    have hne : c.1 ≠ 0 := by rw [hc1]; exact neg_errno_ne_zero e
    rw [if_pos hne] at h
    simp only [Option.some.injEq, Prod.mk.injEq] at h
    refine ⟨[ProbeEvent.querycap encoder.video_fd (.err e)], by rw [← h.2.2, hc2]; rfl,
      Or.inl ⟨by rw [← h.1]; exact hne, ?_⟩⟩
    intro ev hev i
    simp only [List.mem_singleton] at hev
    rw [hev]
    simp
  have hc1 : c.1 = 0 := by
    show (v4l2_capabilities_probe env encoder.video_fd encoder.capabilities t).1 = _
    rw [hc]
  have hc2 : c.2.2 = ProbeEvent.querycap encoder.video_fd (.ok cap) :: t := by
    show (v4l2_capabilities_probe env encoder.video_fd encoder.capabilities t).2.2 = _
    rw [hc]
  have hc3 : ea.capabilities =
      (if cap.capabilities &&& V4L2_CAP_DEVICE_CAPS ≠ 0 then cap.device_caps
       else cap.capabilities) := by
    show (v4l2_capabilities_probe env encoder.video_fd encoder.capabilities t).2.1 = _
    rw [hc]
  rw [if_neg (fun hx => hx hc1)] at h
  by_cases hm : v4l2_capabilities_check ea.capabilities V4L2_CAP_VIDEO_M2M = true
  swap
  · rw [if_pos (by simpa using hm)] at h
    simp only [Option.some.injEq, Prod.mk.injEq] at h
    refine ⟨[ProbeEvent.querycap encoder.video_fd (.ok cap)], by rw [← h.2.2, hc2]; rfl,
      Or.inl ⟨by rw [← h.1]; decide, ?_⟩⟩
    intro ev hev i
    simp only [List.mem_singleton] at hev
    rw [hev]
    simp
  rw [if_neg (by simpa using hm)] at h
  have hv3 : e3.video_fd = encoder.video_fd := by
    show e2.video_fd = _
    simp only [e2]
    split <;> rfl
  have hm3 : e3.memory = V4L2_MEMORY_MMAP := rfl
  rcases buffers_capabilities_probe_cases env e3.video_fd e3.output_type e3.memory
      e3.output_capabilities c.2.2 with ⟨e, ho⟩ | ⟨oc, ho⟩
  · have ho1 : o.1 = neg_errno e := by
      show (v4l2_buffers_capabilities_probe env e3.video_fd e3.output_type e3.memory
        e3.output_capabilities c.2.2).1 = _
      rw [ho]
    have ho2 : o.2.2 = ProbeEvent.create_bufs e3.video_fd e3.output_type e3.memory 0
        (.err e) :: c.2.2 := by
      show (v4l2_buffers_capabilities_probe env e3.video_fd e3.output_type e3.memory
        e3.output_capabilities c.2.2).2.2 = _
      rw [ho]
    have hne : o.1 ≠ 0 := by rw [ho1]; exact neg_errno_ne_zero e
    rw [if_pos hne] at h
    simp only [Option.some.injEq, Prod.mk.injEq] at h
    refine ⟨[ProbeEvent.create_bufs e3.video_fd e3.output_type e3.memory 0 (.err e),
        ProbeEvent.querycap encoder.video_fd (.ok cap)], by rw [← h.2.2, ho2, hc2]; rfl,
      Or.inl ⟨by rw [← h.1]; exact hne, ?_⟩⟩
    intro ev hev i
    simp only [List.mem_cons, List.mem_singleton, List.not_mem_nil, or_false] at hev
    rcases hev with hev | hev <;> rw [hev] <;> simp
  have ho1 : o.1 = 0 := by
    show (v4l2_buffers_capabilities_probe env e3.video_fd e3.output_type e3.memory
      e3.output_capabilities c.2.2).1 = _
    rw [ho]
  have ho2 : o.2.2 = ProbeEvent.create_bufs e3.video_fd e3.output_type e3.memory 0
      (.ok oc) :: c.2.2 := by
    show (v4l2_buffers_capabilities_probe env e3.video_fd e3.output_type e3.memory
      e3.output_capabilities c.2.2).2.2 = _
    rw [ho]
  have ho3 : e4.output_capabilities = (if oc ≠ 0 then oc else V4L2_BUF_CAP_SUPPORTS_MMAP) := by
    show (v4l2_buffers_capabilities_probe env e3.video_fd e3.output_type e3.memory
      e3.output_capabilities c.2.2).2.1 = _
    rw [ho]
  rw [if_neg (fun hx => hx ho1)] at h
  by_cases hq : v4l2_capabilities_check e4.output_capabilities V4L2_BUF_CAP_SUPPORTS_REQUESTS
      = true
  swap
  · rw [if_pos (by simpa using hq)] at h
    simp only [Option.some.injEq, Prod.mk.injEq] at h
    refine ⟨[ProbeEvent.create_bufs e3.video_fd e3.output_type e3.memory 0 (.ok oc),
        ProbeEvent.querycap encoder.video_fd (.ok cap)], by rw [← h.2.2, ho2, hc2]; rfl,
      Or.inl ⟨by rw [← h.1]; decide, ?_⟩⟩
    intro ev hev i
    simp only [List.mem_cons, List.mem_singleton, List.not_mem_nil, or_false] at hev
    rcases hev with hev | hev <;> rw [hev] <;> simp
  rw [if_neg (by simpa using hq)] at h
  rcases buffers_capabilities_probe_cases env e4.video_fd e4.capture_type e4.memory
      e4.capture_capabilities o.2.2 with ⟨e, hk⟩ | ⟨kc, hk⟩
  · have hk1 : k.1 = neg_errno e := by
      show (v4l2_buffers_capabilities_probe env e4.video_fd e4.capture_type e4.memory
        e4.capture_capabilities o.2.2).1 = _
      rw [hk]
    have hk2 : k.2.2 = ProbeEvent.create_bufs e4.video_fd e4.capture_type e4.memory 0
        (.err e) :: o.2.2 := by
      show (v4l2_buffers_capabilities_probe env e4.video_fd e4.capture_type e4.memory
        e4.capture_capabilities o.2.2).2.2 = _
      rw [hk]
    have hne : k.1 ≠ 0 := by rw [hk1]; exact neg_errno_ne_zero e
    rw [if_pos hne] at h
    simp only [Option.some.injEq, Prod.mk.injEq] at h
    refine ⟨[ProbeEvent.create_bufs e4.video_fd e4.capture_type e4.memory 0 (.err e),
        ProbeEvent.create_bufs e3.video_fd e3.output_type e3.memory 0 (.ok oc),
        ProbeEvent.querycap encoder.video_fd (.ok cap)],
      by rw [← h.2.2, hk2, ho2, hc2]; rfl,
      Or.inl ⟨by rw [← h.1]; exact hne, ?_⟩⟩
    intro ev hev i
    simp only [List.mem_cons, List.mem_singleton, List.not_mem_nil, or_false] at hev
    rcases hev with hev | hev | hev <;> rw [hev] <;> simp
  have hk1 : k.1 = 0 := by
    show (v4l2_buffers_capabilities_probe env e4.video_fd e4.capture_type e4.memory
      e4.capture_capabilities o.2.2).1 = _
    rw [hk]
  have hk2 : k.2.2 = ProbeEvent.create_bufs e4.video_fd e4.capture_type e4.memory 0
      (.ok kc) :: o.2.2 := by
    show (v4l2_buffers_capabilities_probe env e4.video_fd e4.capture_type e4.memory
      e4.capture_capabilities o.2.2).2.2 = _
    rw [hk]
  rw [if_neg (fun hx => hx hk1)] at h
  cases hp : v4l2_pixel_format_check env e5.video_fd e5.capture_type V4L2_PIX_FMT_H264
      fuel 0 k.2.2 with
  | none =>
    rw [hp] at h
    cases h
  | some res =>
    obtain ⟨b, tp⟩ := res
    rw [hp] at h
    obtain ⟨seg, hs, hall, hb⟩ := pixel_format_check_trace _ _ _ _ _ _ _ _ _ hp
    have hseg : tp = (seg ++ [ProbeEvent.create_bufs e4.video_fd e4.capture_type e4.memory 0
          (.ok kc),
        ProbeEvent.create_bufs e3.video_fd e3.output_type e3.memory 0 (.ok oc),
        ProbeEvent.querycap encoder.video_fd (.ok cap)]) ++ t := by
      rw [hs, hk2, ho2, hc2]
      simp
    have hv5 : e5.video_fd = encoder.video_fd := hv3
    cases b with
    | false =>
      simp only [Bool.not_false, ↓reduceIte, Option.some.injEq, Prod.mk.injEq] at h
      obtain ⟨hr, he, ht⟩ := h
      subst he
      refine ⟨_, by rw [← ht]; exact hseg, Or.inl ⟨by rw [← hr]; decide, ?_⟩⟩
      intro ev hev i hx
      rw [hx] at hev
      rcases List.mem_append.1 hev with hev | hev
      · have hfalse := hb.2 ⟨i, by rw [hv5]; exact hev⟩
        cases hfalse
      · simp at hev
    | true =>
      simp only [Bool.not_true, Bool.false_eq_true, ↓reduceIte, Option.some.injEq,
        Prod.mk.injEq] at h
      obtain ⟨hr, he, ht⟩ := h
      subst he
      obtain ⟨i, hi⟩ := hb.1 rfl
      rw [hv5] at hi
      refine ⟨_, by rw [← ht]; exact hseg, Or.inr ⟨hr.symm, ?_, ?_, ?_, ?_⟩⟩
      · refine ⟨cap, by simp, ?_⟩
        rw [← hc3]
        exact hm
      · refine ⟨oc, ?_, ?_⟩
        · apply List.mem_append_right
          rw [← hv3]
          exact List.mem_cons_of_mem _ (List.mem_cons_self _ _)
        · rw [← ho3]
          exact hq
      · refine ⟨kc, ?_⟩
        apply List.mem_append_right
        rw [← hv3]
        exact List.mem_cons_self _ _
      · exact ⟨i, List.mem_append_left _ hi⟩

theorem ENODEV_ne_zero : -ENODEV ≠ 0 := by decide

theorem ENOMEM_ne_zero : -ENOMEM ≠ 0 := by decide

theorem opened_handles_append (s t : ProbeTrace) :
    opened_handles (s ++ t) = opened_handles t ++ opened_handles s := by
  simp [opened_handles, List.filterMap_append]

theorem closed_handles_append (s t : ProbeTrace) :
    closed_handles (s ++ t) = closed_handles t ++ closed_handles s := by
  simp [closed_handles, List.filterMap_append]

theorem probe_complete_trace (a b c d : Option Nat) (tr : ProbeTrace) :
    ∃ frees, media_device_probe_complete a b c d tr = frees ++ tr ∧
      ∀ ev, ev ∈ frees → ∃ size, ev = ProbeEvent.free size := by
  unfold media_device_probe_complete
  cases a <;> cases b <;> cases c <;> cases d <;> simp only
  · exact ⟨[], rfl, by simp⟩
  · exact ⟨[_], rfl, by simp⟩
  · exact ⟨[_], rfl, by simp⟩
  · exact ⟨[_, _], rfl, by simp⟩
  · exact ⟨[_], rfl, by simp⟩
  · exact ⟨[_, _], rfl, by simp⟩
  · exact ⟨[_, _], rfl, by simp⟩
  · exact ⟨[_, _, _], rfl, by simp⟩
  · exact ⟨[_], rfl, by simp⟩
  · exact ⟨[_, _], rfl, by simp⟩
  · exact ⟨[_, _], rfl, by simp⟩
  · exact ⟨[_, _, _], rfl, by simp⟩
  · exact ⟨[_, _], rfl, by simp⟩
  · exact ⟨[_, _, _], rfl, by simp⟩
  · exact ⟨[_, _, _], rfl, by simp⟩
  · exact ⟨[_, _, _, _], rfl, by simp⟩

theorem frees_handles {frees : ProbeTrace}
    (h : ∀ ev, ev ∈ frees → ∃ size, ev = ProbeEvent.free size) :
    opened_handles frees = [] ∧ closed_handles frees = [] ∧
      ∀ fd arg ret topology, ProbeEvent.media_topology_get fd arg ret topology ∉ frees := by
  refine ⟨?_, ?_, ?_⟩
  · unfold opened_handles
    rw [List.reverse_eq_nil_iff, List.filterMap_eq_nil_iff]
    intro ev hev
    obtain ⟨s, rfl⟩ := h ev hev
    rfl
  · unfold closed_handles
    rw [List.reverse_eq_nil_iff, List.filterMap_eq_nil_iff]
    intro ev hev
    obtain ⟨s, rfl⟩ := h ev hev
    rfl
  · intro fd arg ret topology hmem
    obtain ⟨s, hs⟩ := h _ hmem
    cases hs

/-- What is shown of each way through `media_device_probe`. -/
theorem probe_error_leaf (media : Media) (function : Nat) (fd : Nat)
    (ret : Int) (a b c d : Option Nat) (evs t : ProbeTrace) (path : Option String)
    (hopen : opened_handles evs = []) (hclose : closed_handles evs = [])
    (hfd : ∀ fd1 arg r topology,
      ProbeEvent.media_topology_get fd1 arg r topology ∈ evs → fd1 = (fd : Int))
    (hret : ∀ fd1 arg topology, ProbeEvent.media_topology_get fd1 arg 0 topology ∈ evs →
      media_probe_missing media function arg topology → ret = -ENODEV) :
    ∃ seg, media_device_probe_error (fd : Int) (-1) a b c d
          (evs ++ ProbeEvent.open_file path O_RDWR (.ok fd) :: t) = seg ++ t ∧
      ∀ fd1 arg topology, ProbeEvent.media_topology_get fd1 arg 0 topology ∈ seg →
        media_probe_missing media function arg topology →
        ret = -ENODEV ∧ opened_handles seg = [fd1] ∧ closed_handles seg = [fd1] := by
  obtain ⟨frees, hfr, hfree⟩ := probe_complete_trace a b c d
    (ProbeEvent.close (fd : Int) :: (evs ++ ProbeEvent.open_file path O_RDWR (.ok fd) :: t))
  obtain ⟨fo, fc, fg⟩ := frees_handles hfree
  refine ⟨frees ++ ProbeEvent.close (fd : Int) :: (evs ++ [ProbeEvent.open_file path O_RDWR
    (.ok fd)]), ?_, ?_⟩
  · unfold media_device_probe_error
    have h1 : ((fd : Int) ≥ 0) := Int.ofNat_nonneg fd
    have h2 : ¬ ((-1 : Int) ≥ 0) := by decide
    simp only [h1, h2, ↓reduceIte]
    rw [hfr]
    simp
  · intro fd1 arg topology hmem hmiss
    have hin : ProbeEvent.media_topology_get fd1 arg 0 topology ∈ evs := by
      rcases List.mem_append.1 hmem with h | h
      · exact absurd h (fg _ _ _ _)
      · rcases List.mem_cons.1 h with h | h
        · cases h
        · rcases List.mem_append.1 h with h | h
          · exact h
          · simp at h
    have hfd1 := hfd _ _ _ _ hin
    refine ⟨hret _ _ _ hin hmiss, ?_, ?_⟩
    · rw [opened_handles_append, fo, List.append_nil]
      have : opened_handles (ProbeEvent.close (fd : Int) ::
          (evs ++ [ProbeEvent.open_file path O_RDWR (.ok fd)])) =
          opened_handles ([ProbeEvent.open_file path O_RDWR (.ok fd)]) ++ opened_handles evs := by
        rw [← opened_handles_append]
        simp [opened_handles, ProbeEvent.opened]
      rw [this, hopen, hfd1]
      rfl
    · rw [closed_handles_append, fc, List.append_nil]
      have : closed_handles (ProbeEvent.close (fd : Int) ::
          (evs ++ [ProbeEvent.open_file path O_RDWR (.ok fd)])) =
          closed_handles evs ++ [(fd : Int)] := by
        simp [closed_handles, ProbeEvent.closed, List.filterMap_append]
      rw [this, hclose, hfd1]
      rfl


theorem first_get_not_missing (media : Media) (function : Nat) (topology : media_v2_topology)
    (h : ¬(topology.num_interfaces = 0 ∨ topology.num_entities = 0 ∨ topology.num_pads = 0 ∨
      topology.num_links = 0)) :
    ¬media_probe_missing media function media_v2_topology.zero topology := by
  intro hm
  rcases hm with ⟨_, hz⟩ | ⟨hne, _⟩
  · exact h hz
  · exact hne rfl

theorem second_get_not_missing (media : Media) (function : Nat)
    (arg topology : media_v2_topology) (i : media_v2_interface)
    (harg : arg.ptr_links ≠ none)
    (hlook : media_device_probe_lookup media topology function = some i) :
    ¬media_probe_missing media function arg topology := by
  intro hm
  rcases hm with ⟨hz, _⟩ | ⟨_, hn⟩
  · rw [hz] at harg
    exact harg rfl
  · rw [hn] at hlook
    cases hlook

theorem probe_complete_leaf (media : Media) (function : Nat) (ret : Int)
    (a b c d : Option Nat) (evs t : ProbeTrace)
    (hno : ∀ fd1 arg topology, ProbeEvent.media_topology_get fd1 arg 0 topology ∈ evs →
      ¬media_probe_missing media function arg topology) :
    ∃ seg, media_device_probe_complete a b c d (evs ++ t) = seg ++ t ∧
      ∀ fd1 arg topology, ProbeEvent.media_topology_get fd1 arg 0 topology ∈ seg →
        media_probe_missing media function arg topology →
        ret = -ENODEV ∧ opened_handles seg = [fd1] ∧ closed_handles seg = [fd1] := by
  obtain ⟨frees, hfr, hfree⟩ := probe_complete_trace a b c d (evs ++ t)
  obtain ⟨_, _, fg⟩ := frees_handles hfree
  refine ⟨frees ++ evs, by rw [hfr, List.append_assoc], ?_⟩
  intro fd1 arg topology hmem hmiss
  rcases List.mem_append.1 hmem with h | h
  · exact absurd h (fg _ _ _ _)
  · exact absurd hmiss (hno _ _ _ h)

theorem media_probe_outcome (env : ProbeEnv) (media : Media) (udev : Udev)
    (encoder : v4l2_encoder) (device : udev_device) (function : Nat) (t : ProbeTrace) :
    ∃ seg, (media_device_probe env media udev encoder device function t).2.2 = seg ++ t ∧
      ∀ fd1 arg topology, ProbeEvent.media_topology_get fd1 arg 0 topology ∈ seg →
        media_probe_missing media function arg topology →
        (media_device_probe env media udev encoder device function t).1 = -ENODEV ∧
          opened_handles seg = [fd1] ∧ closed_handles seg = [fd1] := by
  unfold media_device_probe
  lift_lets
  intro path
  split
  · refine ⟨[_], rfl, ?_⟩
    intro fd1 arg topology hmem
    simp at hmem
  · rename_i fd hopen
    lift_lets
    intro media_fd t1 info t2 cmp g t3 si t4 src topology1 se t5 topology2 sp t6 topology3 sl
      t7 topology4 g2 t8 error
    by_cases h1 : info.1 ≠ 0
    · rw [if_pos h1]
      refine probe_error_leaf media function fd info.1 none none none none [_] t path rfl rfl
        ?_ ?_
      · intro fd1 arg r topology hmem
        simp at hmem
      · intro fd1 arg topology hmem
        simp at hmem
    rw [if_neg h1]
    by_cases h2 : cmp ≠ 0
    · rw [if_pos h2]
      refine probe_error_leaf media function fd cmp none none none none [_] t path rfl rfl
        ?_ ?_
      · intro fd1 arg r topology hmem
        simp at hmem
      · intro fd1 arg topology hmem
        simp at hmem
    rw [if_neg h2]
    by_cases h3 : g.1 ≠ 0
    · rw [if_pos h3]
      refine probe_error_leaf media function fd g.1 none none none none [_, _] t path rfl rfl
        ?_ ?_
      · intro fd1 arg r topology hmem
        simp at hmem
        exact hmem.1
      · intro fd1 arg topology hmem
        simp at hmem
        omega
    rw [if_neg h3]
    by_cases h4 : g.2.num_interfaces = 0 ∨ g.2.num_entities = 0 ∨ g.2.num_pads = 0 ∨
        g.2.num_links = 0
    · rw [if_pos h4]
      refine probe_error_leaf media function fd (-ENODEV) none none none none [_, _] t path
        rfl rfl ?_ ?_
      · intro fd1 arg r topology hmem
        simp at hmem
        exact hmem.1
      · intro fd1 arg topology _ _
        rfl
    rw [if_neg h4]
    have hfirst := first_get_not_missing media function g.2 h4
    by_cases h5 : (!env.calloc t3 1 si) = true
    · rw [if_pos h5]
      refine probe_error_leaf media function fd (-ENOMEM) none none none none [_, _, _] t path
        rfl rfl ?_ ?_
      · intro fd1 arg r topology hmem
        simp at hmem
        exact hmem.1
      · intro fd1 arg topology hmem hmiss
        simp at hmem
        obtain ⟨_, ha, _, ht⟩ := hmem
        rw [ha, ht] at hmiss
        exact absurd hmiss hfirst
    rw [if_neg h5]
    by_cases h6 : (!env.calloc t4 1 se) = true
    · rw [if_pos h6]
      refine probe_error_leaf media function fd (-ENOMEM) (some si) none none none
        [_, _, _, _] t path rfl rfl ?_ ?_
      · intro fd1 arg r topology hmem
        simp at hmem
        exact hmem.1
      · intro fd1 arg topology hmem hmiss
        simp at hmem
        obtain ⟨_, ha, _, ht⟩ := hmem
        rw [ha, ht] at hmiss
        exact absurd hmiss hfirst
    rw [if_neg h6]
    by_cases h7 : (!env.calloc t5 1 sp) = true
    · rw [if_pos h7]
      refine probe_error_leaf media function fd (-ENOMEM) (some si) (some se) none none
        [_, _, _, _, _] t path rfl rfl ?_ ?_
      · intro fd1 arg r topology hmem
        simp at hmem
        exact hmem.1
      · intro fd1 arg topology hmem hmiss
        simp at hmem
        obtain ⟨_, ha, _, ht⟩ := hmem
        rw [ha, ht] at hmiss
        exact absurd hmiss hfirst
    rw [if_neg h7]
    by_cases h8 : (!env.calloc t6 1 sl) = true
    · rw [if_pos h8]
      refine probe_error_leaf media function fd (-ENOMEM) (some si) (some se) (some sp) none
        [_, _, _, _, _, _] t path rfl rfl ?_ ?_
      · intro fd1 arg r topology hmem
        simp at hmem
        exact hmem.1
      · intro fd1 arg topology hmem hmiss
        simp at hmem
        obtain ⟨_, ha, _, ht⟩ := hmem
        rw [ha, ht] at hmiss
        exact absurd hmiss hfirst
    rw [if_neg h8]
    have hfd8 : ∀ fd1 arg r topology, ProbeEvent.media_topology_get fd1 arg r topology ∈
        ([ProbeEvent.media_topology_get media_fd topology4 g2.1 g2.2,
          ProbeEvent.calloc 1 sl true, ProbeEvent.calloc 1 sp true, ProbeEvent.calloc 1 se true,
          ProbeEvent.calloc 1 si true,
          ProbeEvent.media_topology_get media_fd media_v2_topology.zero g.1 g.2,
          ProbeEvent.media_device_info media_fd info.1 info.2] : ProbeTrace) →
        fd1 = (fd : Int) := by
      intro fd1 arg r topology hmem
      simp at hmem
      rcases hmem with h | h <;> exact h.1
    have hno8 : ∀ i, media_device_probe_lookup media g2.2 function = some i →
        ∀ fd1 arg topology, ProbeEvent.media_topology_get fd1 arg 0 topology ∈
        ([ProbeEvent.media_topology_get media_fd topology4 g2.1 g2.2,
          ProbeEvent.calloc 1 sl true, ProbeEvent.calloc 1 sp true, ProbeEvent.calloc 1 se true,
          ProbeEvent.calloc 1 si true,
          ProbeEvent.media_topology_get media_fd media_v2_topology.zero g.1 g.2,
          ProbeEvent.media_device_info media_fd info.1 info.2] : ProbeTrace) →
        ¬media_probe_missing media function arg topology := by
      intro i hlook fd1 arg topology hmem
      simp at hmem
      rcases hmem with ⟨_, ha, _, ht⟩ | ⟨_, ha, _, ht⟩
      · rw [ha, ht]
        exact second_get_not_missing media function topology4 g2.2 i (by simp [topology4]) hlook
      · rw [ha, ht]
        exact hfirst
    by_cases h9 : g2.1 ≠ 0
    · rw [if_pos h9]
      refine probe_error_leaf media function fd g2.1 (some si) (some se) (some sp) (some sl)
        [_, _, _, _, _, _, _] t path rfl rfl hfd8 ?_
      intro fd1 arg topology hmem hmiss
      simp at hmem
      rcases hmem with ⟨_, _, h0, _⟩ | ⟨_, ha, _, ht⟩
      · omega
      · rw [ha, ht] at hmiss
        exact absurd hmiss hfirst
    rw [if_neg h9]
    cases hl1 : media.media_topology_entity_find_by_function g2.2 function with
    | none =>
      exact probe_error_leaf media function fd (-ENODEV) (some si) (some se) (some sp) (some sl)
        [_, _, _, _, _, _, _] t path (by rfl) (by rfl) hfd8 (fun _ _ _ _ _ => rfl)
    | some encoder_entity =>
    simp only []
    cases hl2 : media.media_topology_pad_find_by_entity g2.2 encoder_entity.id
        MEDIA_PAD_FL_SINK with
    | none =>
      exact probe_error_leaf media function fd (-ENODEV) (some si) (some se) (some sp) (some sl)
        [_, _, _, _, _, _, _] t path (by rfl) (by rfl) hfd8 (fun _ _ _ _ _ => rfl)
    | some sink_pad =>
    simp only []
    cases hl3 : media.media_topology_link_find_by_pad g2.2 sink_pad.id sink_pad.flags with
    | none =>
      exact probe_error_leaf media function fd (-ENODEV) (some si) (some se) (some sp) (some sl)
        [_, _, _, _, _, _, _] t path (by rfl) (by rfl) hfd8 (fun _ _ _ _ _ => rfl)
    | some sink_link =>
    simp only []
    cases hl4 : media.media_topology_pad_find_by_id g2.2 sink_link.source_id with
    | none =>
      exact probe_error_leaf media function fd (-ENODEV) (some si) (some se) (some sp) (some sl)
        [_, _, _, _, _, _, _] t path (by rfl) (by rfl) hfd8 (fun _ _ _ _ _ => rfl)
    | some source_pad =>
    simp only []
    cases hl5 : media.media_topology_link_find_by_entity g2.2 source_pad.entity_id
        MEDIA_PAD_FL_SINK with
    | none =>
      exact probe_error_leaf media function fd (-ENODEV) (some si) (some se) (some sp) (some sl)
        [_, _, _, _, _, _, _] t path (by rfl) (by rfl) hfd8 (fun _ _ _ _ _ => rfl)
    | some source_link =>
    simp only []
    cases hl6 : media.media_topology_interface_find_by_id g2.2 source_link.source_id with
    | none =>
      exact probe_error_leaf media function fd (-ENODEV) (some si) (some se) (some sp) (some sl)
        [_, _, _, _, _, _, _] t path (by rfl) (by rfl) hfd8 (fun _ _ _ _ _ => rfl)
    | some encoder_interface =>
    simp only []
    have hlook : media_device_probe_lookup media g2.2 function = some encoder_interface := by
      simp [media_device_probe_lookup, hl1, hl2, hl3, hl4, hl5, hl6]
    cases hu : udev.udev_device_new_from_devnum
        (makedev encoder_interface.devnode.major encoder_interface.devnode.minor) with
    | none =>
      exact probe_error_leaf media function fd (-ENODEV) (some si) (some se) (some sp) (some sl)
        [_, _, _, _, _, _, _] t path (by rfl) (by rfl) hfd8 (fun _ _ _ _ _ => rfl)
    | some video_device =>
    simp only []
    cases hv : env.open_file t8 video_device.devnode (O_RDWR ||| O_NONBLOCK) with
    | err e =>
      refine probe_error_leaf media function fd (neg_errno e) (some si) (some se) (some sp)
        (some sl) [_, _, _, _, _, _, _, _] t path (by rfl) (by rfl) ?_ ?_
      · intro fd1 arg r topology hmem
        rcases List.mem_cons.1 hmem with h | h
        · cases h
        · exact hfd8 _ _ _ _ h
      · intro fd1 arg topology hmem hmiss
        rcases List.mem_cons.1 hmem with h | h
        · cases h
        · exact absurd hmiss (hno8 _ hlook _ _ _ h)
    | ok video_fd =>
      refine probe_complete_leaf media function 0 (some si) (some se) (some sp) (some sl)
        [_, _, _, _, _, _, _, _, _] t ?_
      intro fd1 arg topology hmem
      rcases List.mem_cons.1 hmem with h | h
      · cases h
      · rcases List.mem_append.1 (show _ ∈ [_, _, _, _, _, _, _] ++ [_] from h) with h | h
        · exact hno8 _ hlook _ _ _ h
        · simp at h

/-- A probe that fails leaves the encoder as it was; one that returns 0 has
set both handles to descriptors it opened. -/
theorem media_probe_encoder (env : ProbeEnv) (media : Media) (udev : Udev)
    (encoder : v4l2_encoder) (device : udev_device) (function : Nat) (t : ProbeTrace) :
    ((media_device_probe env media udev encoder device function t).1 ≠ 0 ∧
        (media_device_probe env media udev encoder device function t).2.1 = encoder) ∨
      ((media_device_probe env media udev encoder device function t).1 = 0 ∧
        ∃ m v : Nat, (media_device_probe env media udev encoder device function t).2.1 =
          { encoder with media_fd := (m : Int), video_fd := (v : Int) }) := by
  unfold media_device_probe
  lift_lets
  intro path
  split
  · exact Or.inl ⟨neg_errno_ne_zero _, rfl⟩
  · rename_i fd hopen
    lift_lets
    intro media_fd t1 info t2 cmp g t3 si t4 src topology1 se t5 topology2 sp t6 topology3 sl
      t7 topology4 g2 t8 error
    by_cases h1 : info.1 ≠ 0
    · rw [if_pos h1]
      exact Or.inl ⟨h1, rfl⟩
    rw [if_neg h1]
    by_cases h2 : cmp ≠ 0
    · rw [if_pos h2]
      exact Or.inl ⟨h2, rfl⟩
    rw [if_neg h2]
    by_cases h3 : g.1 ≠ 0
    · rw [if_pos h3]
      exact Or.inl ⟨h3, rfl⟩
    rw [if_neg h3]
    by_cases h4 : g.2.num_interfaces = 0 ∨ g.2.num_entities = 0 ∨ g.2.num_pads = 0 ∨
        g.2.num_links = 0
    · rw [if_pos h4]
      exact Or.inl ⟨ENODEV_ne_zero, rfl⟩
    rw [if_neg h4]
    by_cases h5 : (!env.calloc t3 1 si) = true
    · rw [if_pos h5]
      exact Or.inl ⟨ENOMEM_ne_zero, rfl⟩
    rw [if_neg h5]
    by_cases h6 : (!env.calloc t4 1 se) = true
    · rw [if_pos h6]
      exact Or.inl ⟨ENOMEM_ne_zero, rfl⟩
    rw [if_neg h6]
    by_cases h7 : (!env.calloc t5 1 sp) = true
    · rw [if_pos h7]
      exact Or.inl ⟨ENOMEM_ne_zero, rfl⟩
    rw [if_neg h7]
    by_cases h8 : (!env.calloc t6 1 sl) = true
    · rw [if_pos h8]
      exact Or.inl ⟨ENOMEM_ne_zero, rfl⟩
    rw [if_neg h8]
    by_cases h9 : g2.1 ≠ 0
    · rw [if_pos h9]
      exact Or.inl ⟨h9, rfl⟩
    rw [if_neg h9]
    cases hl1 : media.media_topology_entity_find_by_function g2.2 function with
    | none => exact Or.inl ⟨ENODEV_ne_zero, rfl⟩
    | some encoder_entity =>
    simp only []
    cases hl2 : media.media_topology_pad_find_by_entity g2.2 encoder_entity.id
        MEDIA_PAD_FL_SINK with
    | none => exact Or.inl ⟨ENODEV_ne_zero, rfl⟩
    | some sink_pad =>
    simp only []
    cases hl3 : media.media_topology_link_find_by_pad g2.2 sink_pad.id sink_pad.flags with
    | none => exact Or.inl ⟨ENODEV_ne_zero, rfl⟩
    | some sink_link =>
    simp only []
    cases hl4 : media.media_topology_pad_find_by_id g2.2 sink_link.source_id with
    | none => exact Or.inl ⟨ENODEV_ne_zero, rfl⟩
    | some source_pad =>
    simp only []
    cases hl5 : media.media_topology_link_find_by_entity g2.2 source_pad.entity_id
        MEDIA_PAD_FL_SINK with
    | none => exact Or.inl ⟨ENODEV_ne_zero, rfl⟩
    | some source_link =>
    simp only []
    cases hl6 : media.media_topology_interface_find_by_id g2.2 source_link.source_id with
    | none => exact Or.inl ⟨ENODEV_ne_zero, rfl⟩
    | some encoder_interface =>
    simp only []
    cases hu : udev.udev_device_new_from_devnum
        (makedev encoder_interface.devnode.major encoder_interface.devnode.minor) with
    | none => exact Or.inl ⟨ENODEV_ne_zero, rfl⟩
    | some video_device =>
    simp only []
    cases hv : env.open_file t8 video_device.devnode (O_RDWR ||| O_NONBLOCK) with
    | err e => exact Or.inl ⟨neg_errno_ne_zero e, rfl⟩
    | ok video_fd => exact Or.inr ⟨rfl, fd, video_fd, rfl⟩

theorem spec_first_resolved_handles (env : ProbeEnv) (media : Media) (udev : Udev)
    (encoder : v4l2_encoder) (devices : List udev_device) :
    ∀ (t tr : ProbeTrace) (m v : Int),
      spec_first_resolved env media udev encoder devices t = (some (m, v), tr) →
      0 ≤ m ∧ 0 ≤ v := by
  induction devices with
  | nil =>
    intro t tr m v h
    simp [spec_first_resolved] at h
  | cons device rest ih =>
    intro t tr m v h
    unfold spec_first_resolved at h
    simp only at h
    split at h
    · rename_i h0
      rcases media_probe_encoder env media udev encoder device
        MEDIA_ENT_F_PROC_VIDEO_ENCODER t with ⟨hne, _⟩ | ⟨_, m1, v1, he⟩
      · exact absurd h0 hne
      · rw [he] at h
        simp only [Prod.mk.injEq, Option.some.injEq] at h
        rw [← h.1.1, ← h.1.2]
        exact ⟨Int.ofNat_nonneg m1, Int.ofNat_nonneg v1⟩
    · exact ih _ _ _ _ h

theorem open_devices_skip_name (env : ProbeEnv) (media : Media) (udev : Udev)
    (rest : List (Option String)) (encoder : v4l2_encoder) (t : ProbeTrace) :
    v4l2_encoder_open_devices env media udev (none :: rest) encoder t =
      v4l2_encoder_open_devices env media udev rest encoder t := by
  rw [v4l2_encoder_open_devices]

theorem open_devices_skip_device (env : ProbeEnv) (media : Media) (udev : Udev)
    (path : String) (rest : List (Option String)) (encoder : v4l2_encoder) (t : ProbeTrace)
    (h : udev.udev_device_new_from_syspath path = none) :
    v4l2_encoder_open_devices env media udev (some path :: rest) encoder t =
      v4l2_encoder_open_devices env media udev rest encoder t := by
  rw [v4l2_encoder_open_devices, h]

theorem open_devices_probe (env : ProbeEnv) (media : Media) (udev : Udev)
    (path : String) (device : udev_device) (rest : List (Option String))
    (encoder : v4l2_encoder) (t : ProbeTrace)
    (h : udev.udev_device_new_from_syspath path = some device) :
    v4l2_encoder_open_devices env media udev (some path :: rest) encoder t =
      if (media_device_probe env media udev encoder device MEDIA_ENT_F_PROC_VIDEO_ENCODER t).1
          = 0 then
        ((media_device_probe env media udev encoder device MEDIA_ENT_F_PROC_VIDEO_ENCODER t).2.1,
         (media_device_probe env media udev encoder device MEDIA_ENT_F_PROC_VIDEO_ENCODER t).2.2)
      else
        v4l2_encoder_open_devices env media udev rest
          (media_device_probe env media udev encoder device MEDIA_ENT_F_PROC_VIDEO_ENCODER t).2.1
          (media_device_probe env media udev encoder device MEDIA_ENT_F_PROC_VIDEO_ENCODER t).2.2
    := by
  rw [v4l2_encoder_open_devices, h]

theorem spec_first_resolved_cons (env : ProbeEnv) (media : Media) (udev : Udev)
    (encoder : v4l2_encoder) (device : udev_device) (rest : List udev_device)
    (t : ProbeTrace) :
    spec_first_resolved env media udev encoder (device :: rest) t =
      if (media_device_probe env media udev encoder device MEDIA_ENT_F_PROC_VIDEO_ENCODER t).1
          = 0 then
        (some
          ((media_device_probe env media udev encoder device MEDIA_ENT_F_PROC_VIDEO_ENCODER
              t).2.1.media_fd,
           (media_device_probe env media udev encoder device MEDIA_ENT_F_PROC_VIDEO_ENCODER
              t).2.1.video_fd),
         (media_device_probe env media udev encoder device MEDIA_ENT_F_PROC_VIDEO_ENCODER t).2.2)
      else
        spec_first_resolved env media udev encoder rest
          (media_device_probe env media udev encoder device MEDIA_ENT_F_PROC_VIDEO_ENCODER t).2.2
    := by
  rw [spec_first_resolved]

theorem open_devices_spec (env : ProbeEnv) (media : Media) (udev : Udev)
    (encoder : v4l2_encoder) (entries : List (Option String)) :
    ∀ t : ProbeTrace,
      v4l2_encoder_open_devices env media udev entries encoder t =
        (match (spec_first_resolved env media udev encoder
            (entries.filterMap fun name => name.bind udev.udev_device_new_from_syspath) t).1 with
          | none => encoder
          | some (m, v) => { encoder with media_fd := m, video_fd := v },
         (spec_first_resolved env media udev encoder
            (entries.filterMap fun name => name.bind udev.udev_device_new_from_syspath) t).2) := by
  induction entries with
  | nil =>
    intro t
    rfl
  | cons entry rest ih =>
    intro t
    cases entry with
    | none =>
      rw [open_devices_skip_name, ih t]
      rfl
    | some path =>
      cases hd : udev.udev_device_new_from_syspath path with
      | none =>
        rw [open_devices_skip_device _ _ _ _ _ _ _ hd, ih t]
        have hf : (List.filterMap (fun name => Option.bind name udev.udev_device_new_from_syspath)
            (some path :: rest)) =
            List.filterMap (fun name => Option.bind name udev.udev_device_new_from_syspath) rest
            := by
          simp [List.filterMap_cons, hd]
        rw [hf]
      | some device =>
        have hf : (List.filterMap (fun name => Option.bind name udev.udev_device_new_from_syspath)
            (some path :: rest)) = device ::
            List.filterMap (fun name => Option.bind name udev.udev_device_new_from_syspath) rest
            := by
          simp [List.filterMap_cons, hd]
        rw [open_devices_probe _ _ _ _ _ _ _ _ hd, hf, spec_first_resolved_cons]
        rcases media_probe_encoder env media udev encoder device
          MEDIA_ENT_F_PROC_VIDEO_ENCODER t with ⟨hne, he⟩ | ⟨h0, m1, v1, he⟩
        · rw [if_neg hne, if_neg hne, he]
          exact ih _
        · rw [if_pos h0, if_pos h0]
          simp only
          rw [he]

theorem open_error_result (encoder : v4l2_encoder) (t : ProbeTrace) :
    (v4l2_encoder_open_error encoder t).1 = -1 ∧
      (v4l2_encoder_open_error encoder t).2.1.media_fd =
        (if encoder.media_fd = 0 then 0 else -1) ∧
      (v4l2_encoder_open_error encoder t).2.1.video_fd =
        (if encoder.video_fd = 0 then 0 else -1) := by
  unfold v4l2_encoder_open_error
  by_cases hm : encoder.media_fd = 0 <;> by_cases hv : encoder.video_fd = 0 <;>
    simp [hm, hv]

/-! ## The resolver fails on a missing element -/

/-- On the sample graph the resolver opens both devices; asked for a function
no entity has, or on a graph that reports no link, it returns `-ENODEV` with
the handles of the encoder as they were and the media device closed. -/
theorem media_probe_samples :
    ((media_device_probe cedrus_env sample_media sample_udev closed_encoder
        { devnode := some media0_devnode } MEDIA_ENT_F_PROC_VIDEO_ENCODER []).1,
      (media_device_probe cedrus_env sample_media sample_udev closed_encoder
        { devnode := some media0_devnode } MEDIA_ENT_F_PROC_VIDEO_ENCODER []).2.1.media_fd,
      (media_device_probe cedrus_env sample_media sample_udev closed_encoder
        { devnode := some media0_devnode } MEDIA_ENT_F_PROC_VIDEO_ENCODER []).2.1.video_fd) =
      (0, 3, 11) ∧
    (let r := media_device_probe cedrus_env sample_media sample_udev closed_encoder
        { devnode := some media0_devnode } 0x4008 []
     (r.1, r.2.1.media_fd, r.2.1.video_fd, opened_handles r.2.2, closed_handles r.2.2)) =
      (-ENODEV, 0, 0, [3], [3]) ∧
    (let r := media_device_probe unlinked_env sample_media sample_udev closed_encoder
        { devnode := some media0_devnode } MEDIA_ENT_F_PROC_VIDEO_ENCODER []
     (r.1, r.2.1.media_fd, r.2.1.video_fd, opened_handles r.2.2, closed_handles r.2.2)) =
      (-ENODEV, 0, 0, [3], [3]) := by
  refine ⟨?_, ?_, ?_⟩ <;> rfl

/-- C12: when, during `media_device_probe`, the first topology call (made with
the zeroed structure) succeeds and reports zero interfaces, zero entities, zero
pads or zero links, or the second one succeeds and a lookup of the chain finds
nothing in its answer, the probe returns `-ENODEV`, the encoder (its two
handles included) is as before, and the one descriptor opened during the probe,
the media device, is the one closed. -/
theorem media_probe_not_found (env : ProbeEnv) (media : Media) (udev : Udev)
    (encoder : v4l2_encoder) (device : udev_device) (function : Nat) (t : ProbeTrace)
    (fd : Int) (arg topology : media_v2_topology)
    (hget : ProbeEvent.media_topology_get fd arg 0 topology ∈
      trace_since t (media_device_probe env media udev encoder device function t).2.2)
    (hmiss : (arg = media_v2_topology.zero ∧
          (topology.num_interfaces = 0 ∨ topology.num_entities = 0 ∨ topology.num_pads = 0 ∨
            topology.num_links = 0)) ∨
        (arg ≠ media_v2_topology.zero ∧
          media_device_probe_lookup media topology function = none)) :
    (media_device_probe env media udev encoder device function t).1 = -ENODEV ∧
      (media_device_probe env media udev encoder device function t).2.1 = encoder ∧
      opened_handles
        (trace_since t (media_device_probe env media udev encoder device function t).2.2) = [fd] ∧
      closed_handles
        (trace_since t (media_device_probe env media udev encoder device function t).2.2) = [fd]
    := by
  obtain ⟨seg, hs, hall⟩ := media_probe_outcome env media udev encoder device function t
  rw [hs, trace_since_append] at hget
  obtain ⟨h1, h2, h3⟩ := hall fd arg topology hget hmiss
  rw [hs, trace_since_append]
  refine ⟨h1, ?_, h2, h3⟩
  rcases media_probe_encoder env media udev encoder device function t with ⟨_, he⟩ | ⟨h0, _⟩
  · exact he
  · rw [h1] at h0
    exact absurd h0 ENODEV_ne_zero

theorem media_probe_not_found_witness :
    ProbeEvent.media_topology_get 3 media_v2_topology.zero 0
        { sample_topology media_v2_topology.zero with num_links := 0 } ∈
      trace_since [] (media_device_probe unlinked_env sample_media sample_udev closed_encoder
        { devnode := some media0_devnode } MEDIA_ENT_F_PROC_VIDEO_ENCODER []).2.2 ∧
    (media_device_probe unlinked_env sample_media sample_udev closed_encoder
        { devnode := some media0_devnode } MEDIA_ENT_F_PROC_VIDEO_ENCODER []).1 = -ENODEV ∧
    (media_device_probe unlinked_env sample_media sample_udev closed_encoder
        { devnode := some media0_devnode } MEDIA_ENT_F_PROC_VIDEO_ENCODER []).2.1 =
      closed_encoder ∧
    opened_handles (trace_since [] (media_device_probe unlinked_env sample_media sample_udev
        closed_encoder { devnode := some media0_devnode }
        MEDIA_ENT_F_PROC_VIDEO_ENCODER []).2.2) = [3] ∧
    closed_handles (trace_since [] (media_device_probe unlinked_env sample_media sample_udev
        closed_encoder { devnode := some media0_devnode }
        MEDIA_ENT_F_PROC_VIDEO_ENCODER []).2.2) = [3] :=
  ⟨by decide,
   media_probe_not_found unlinked_env sample_media sample_udev closed_encoder
    { devnode := some media0_devnode } MEDIA_ENT_F_PROC_VIDEO_ENCODER [] 3
    media_v2_topology.zero { sample_topology media_v2_topology.zero with num_links := 0 }
    (by decide) (Or.inl ⟨rfl, Or.inr (Or.inr (Or.inr rfl))⟩)⟩

/-! ## Candidate iteration -/

/-- On `second_env` the first candidate is refused and the second one
resolves; `v4l2_encoder_open` returns 0 with the handles of the second. -/
theorem open_samples :
    ((v4l2_encoder_open second_env sample_media sample_udev closed_encoder []).1,
      (v4l2_encoder_open second_env sample_media sample_udev closed_encoder []).2.1.media_fd,
      (v4l2_encoder_open second_env sample_media sample_udev closed_encoder []).2.1.video_fd,
      opened_handles
        (v4l2_encoder_open second_env sample_media sample_udev closed_encoder []).2.2,
      closed_handles
        (v4l2_encoder_open second_env sample_media sample_udev closed_encoder []).2.2) =
      (0, 6, 14, [3, 6, 14, 19], [3]) := by
  rfl

/-- The first candidate resolves, with handles 3 and 11, and the output file
cannot be created: `v4l2_encoder_open` returns -1 and has closed both handles
and set them to -1. -/
theorem open_keeps_handles_counterexample :
    (media_device_probe readonly_env sample_media sample_udev
        { closed_encoder with media_fd := -1, video_fd := -1 }
        { devnode := some media0_devnode } MEDIA_ENT_F_PROC_VIDEO_ENCODER []).1 = 0 ∧
      open_candidates sample_udev =
        [{ devnode := some media0_devnode }, { devnode := some media1_devnode }] ∧
      ((v4l2_encoder_open readonly_env sample_media sample_udev closed_encoder []).1,
        (v4l2_encoder_open readonly_env sample_media sample_udev closed_encoder []).2.1.media_fd,
        (v4l2_encoder_open readonly_env sample_media sample_udev closed_encoder []).2.1.video_fd,
        closed_handles
          (v4l2_encoder_open readonly_env sample_media sample_udev closed_encoder []).2.2) =
        (-1, -1, -1, [3, 11]) := by
  refine ⟨?_, ?_, ?_⟩ <;> rfl

/-- C13 (amended): `v4l2_encoder_open` probes the candidates in the order of the
enumeration up to the first one for which `media_device_probe` returns 0
(`spec_first_resolved`).  If there is none, the empty list included, it returns
-1 with both handles -1.  If there is one and the output file opens, it returns
0 with the handles of that candidate and makes no other call.  If there is one
and the output file does not open, it returns -1 and each handle is -1, or 0 if
it was 0. -/
theorem open_first_candidate (env : ProbeEnv) (media : Media) (udev : Udev)
    (encoder : v4l2_encoder) (t : ProbeTrace) :
    (∀ tr, spec_first_resolved env media udev { encoder with media_fd := -1, video_fd := -1 }
          (open_candidates udev) t = (none, tr) →
        (v4l2_encoder_open env media udev encoder t).1 = -1 ∧
          (v4l2_encoder_open env media udev encoder t).2.1.media_fd = -1 ∧
          (v4l2_encoder_open env media udev encoder t).2.1.video_fd = -1) ∧
    (∀ m v tr fd,
        spec_first_resolved env media udev { encoder with media_fd := -1, video_fd := -1 }
          (open_candidates udev) t = (some (m, v), tr) →
        env.open_file tr (some bitstream_path) (O_WRONLY ||| O_CREAT ||| O_TRUNC) = .ok fd →
        v4l2_encoder_open env media udev encoder t =
          (0, { encoder with media_fd := m, video_fd := v, bitstream_fd := (fd : Int) },
           ProbeEvent.open_file (some bitstream_path) (O_WRONLY ||| O_CREAT ||| O_TRUNC)
             (.ok fd) :: tr)) ∧
    (∀ m v tr e,
        spec_first_resolved env media udev { encoder with media_fd := -1, video_fd := -1 }
          (open_candidates udev) t = (some (m, v), tr) →
        env.open_file tr (some bitstream_path) (O_WRONLY ||| O_CREAT ||| O_TRUNC) = .err e →
        (v4l2_encoder_open env media udev encoder t).1 = -1 ∧
          (v4l2_encoder_open env media udev encoder t).2.1.media_fd = (if m = 0 then 0 else -1) ∧
          (v4l2_encoder_open env media udev encoder t).2.1.video_fd = (if v = 0 then 0 else -1))
    := by
  have herr := open_error_result
  by_cases hu : (udev.udev_new && udev.udev_enumerate_new) = true
  swap
  · have hc : open_candidates udev = [] := by
      unfold open_candidates
      rw [if_neg hu]
    have ho : v4l2_encoder_open env media udev encoder t =
        v4l2_encoder_open_error { encoder with media_fd := -1, video_fd := -1 } t := by
      unfold v4l2_encoder_open
      cases h1 : udev.udev_new <;> cases h2 : udev.udev_enumerate_new <;>
        simp [h1, h2] at hu ⊢
    rw [hc, ho]
    refine ⟨fun _ _ => ?_, fun m v tr fd h => ?_, fun m v tr e h => ?_⟩
    · obtain ⟨a, b, c⟩ := herr { encoder with media_fd := -1, video_fd := -1 } t
      exact ⟨a, by rw [b]; rfl, by rw [c]; rfl⟩
    · simp [spec_first_resolved] at h
    · simp [spec_first_resolved] at h
  have hc : open_candidates udev =
      udev.list_entry.filterMap fun name => name.bind udev.udev_device_new_from_syspath := by
    unfold open_candidates
    rw [if_pos hu]
  have h1 : udev.udev_new = true := by
    cases h : udev.udev_new <;> simp [h] at hu ⊢
  have h2 : udev.udev_enumerate_new = true := by
    cases h : udev.udev_enumerate_new <;> simp [h] at hu ⊢
  have hl := open_devices_spec env media udev { encoder with media_fd := -1, video_fd := -1 }
    udev.list_entry t
  rw [hc]
  refine ⟨fun tr h => ?_, fun m v tr fd h hb => ?_, fun m v tr e h hb => ?_⟩
  · rw [h] at hl
    have ho : v4l2_encoder_open env media udev encoder t =
        v4l2_encoder_open_error { encoder with media_fd := -1, video_fd := -1 } tr := by
      unfold v4l2_encoder_open
      simp only [h1, h2, Bool.not_true, Bool.false_eq_true, ↓reduceIte]
      rw [hl]
      simp
    rw [ho]
    obtain ⟨a, b, c⟩ := herr { encoder with media_fd := -1, video_fd := -1 } tr
    exact ⟨a, by rw [b]; rfl, by rw [c]; rfl⟩
  · obtain ⟨hm, hv⟩ := spec_first_resolved_handles _ _ _ _ _ _ _ _ _ h
    rw [h] at hl
    unfold v4l2_encoder_open
    simp only [h1, h2, Bool.not_true, Bool.false_eq_true, ↓reduceIte]
    rw [hl]
    simp only [not_lt.2 hm, not_lt.2 hv, ↓reduceIte, hb]
  · obtain ⟨hm, hv⟩ := spec_first_resolved_handles _ _ _ _ _ _ _ _ _ h
    rw [h] at hl
    have ho : v4l2_encoder_open env media udev encoder t =
        v4l2_encoder_open_error
          { encoder with media_fd := m, video_fd := v, bitstream_fd := -1 }
          (ProbeEvent.open_file (some bitstream_path) (O_WRONLY ||| O_CREAT ||| O_TRUNC)
            (.err e) :: tr) := by
      unfold v4l2_encoder_open
      simp only [h1, h2, Bool.not_true, Bool.false_eq_true, ↓reduceIte]
      rw [hl]
      simp only [not_lt.2 hm, not_lt.2 hv, ↓reduceIte, hb]
    rw [ho]
    exact herr _ _

/-! ## Probe acceptance -/

/-- The probe returns when the device refuses every format index from `n` on
and `n + 1` enumerations are allowed. -/
theorem probe_returns (env : ProbeEnv) (encoder : v4l2_encoder) (t : ProbeTrace) (n : Nat)
    (hn : n + 1 < UINT_WIDTH)
    (hend : ∀ t fd type i, n ≤ i → ∃ e, env.enum_fmt t fd type i = .err e) :
    (v4l2_encoder_probe env (n + 1) encoder t).isSome = true := by
  unfold v4l2_encoder_probe
  lift_lets
  intro c e1 e2 e3 o e4 k e5
  have hp := pixel_format_check_returns env e5.video_fd e5.capture_type V4L2_PIX_FMT_H264 n
    (fun t i hi => hend t _ _ i hi) (n + 1) 0 k.2.2 (by omega) (by omega) (by omega)
  by_cases h0 : encoder.video_fd < 0
  · rw [if_pos h0]; rfl
  rw [if_neg h0]
  by_cases h1 : c.1 ≠ 0
  · rw [if_pos h1]; rfl
  rw [if_neg h1]
  by_cases h2 : (!v4l2_capabilities_check e1.capabilities V4L2_CAP_VIDEO_M2M) = true
  · rw [if_pos h2]; rfl
  rw [if_neg h2]
  by_cases h3 : o.1 ≠ 0
  · rw [if_pos h3]; rfl
  rw [if_neg h3]
  by_cases h4 : (!v4l2_capabilities_check e4.output_capabilities
      V4L2_BUF_CAP_SUPPORTS_REQUESTS) = true
  · rw [if_pos h4]; rfl
  rw [if_neg h4]
  by_cases h5 : k.1 ≠ 0
  · rw [if_pos h5]; rfl
  rw [if_neg h5]
  cases hc : v4l2_pixel_format_check env e5.video_fd e5.capture_type V4L2_PIX_FMT_H264
      (n + 1) 0 k.2.2 with
  | none =>
    rw [hc] at hp
    cases hp
  | some res =>
    obtain ⟨b, tp⟩ := res
    cases b <;> rfl

/-- The sample device is accepted; a device without request support, and one
that does not enumerate H.264, are refused with `-EINVAL`; one without the
memory-to-memory capability with -1. -/
theorem probe_samples :
    (v4l2_encoder_probe cedrus_env 2 opened_encoder []).map (fun r => r.1) = some 0 ∧
    (v4l2_encoder_probe plain_buffers_env 2 opened_encoder []).map (fun r => r.1) =
      some (-EINVAL) ∧
    (v4l2_encoder_probe raw_only_env 2 opened_encoder []).map (fun r => r.1) =
      some (-EINVAL) ∧
    (v4l2_encoder_probe capture_only_env 2 opened_encoder []).map (fun r => r.1) =
      some (-1) := by
  refine ⟨?_, ?_, ?_, ?_⟩ <;> rfl

/-- C14: a returning `v4l2_encoder_probe` returns 0 if and only if, among the
calls it made, the capability query succeeded with the memory-to-memory bit in
the probed capabilities (the device capabilities when the device announces
them), the buffer-capability probe of the raw-input queue succeeded with
request support in the capabilities it gives (`V4L2_BUF_CAP_SUPPORTS_MMAP` when
the device reports none), the buffer-capability probe of the coded queue
succeeded, and an enumeration on the coded queue gave H.264; and
`v4l2_capabilities_check p c` holds exactly when `p & c = c`. -/
theorem probe_acceptance (env : ProbeEnv) (fuel : Nat) (encoder e1 : v4l2_encoder)
    (t t1 : ProbeTrace) (r : Int)
    (h : v4l2_encoder_probe env fuel encoder t = some (r, e1, t1)) :
    (r = 0 ↔
      (∃ cap, ProbeEvent.querycap encoder.video_fd (.ok cap) ∈ trace_since t t1 ∧
        v4l2_capabilities_check
          (if cap.capabilities &&& V4L2_CAP_DEVICE_CAPS ≠ 0 then cap.device_caps
           else cap.capabilities) V4L2_CAP_VIDEO_M2M = true) ∧
      (∃ c, ProbeEvent.create_bufs encoder.video_fd e1.output_type V4L2_MEMORY_MMAP 0 (.ok c) ∈
          trace_since t t1 ∧
        v4l2_capabilities_check (if c ≠ 0 then c else V4L2_BUF_CAP_SUPPORTS_MMAP)
          V4L2_BUF_CAP_SUPPORTS_REQUESTS = true) ∧
      (∃ c, ProbeEvent.create_bufs encoder.video_fd e1.capture_type V4L2_MEMORY_MMAP 0 (.ok c) ∈
          trace_since t t1) ∧
      (∃ i, ProbeEvent.enum_fmt encoder.video_fd e1.capture_type i (.ok V4L2_PIX_FMT_H264) ∈
          trace_since t t1)) ∧
    ∀ p c : Nat, v4l2_capabilities_check p c = true ↔ p &&& c = c := by
  obtain ⟨seg, hs, hcase⟩ := probe_outcome h
  rw [hs, trace_since_append]
  refine ⟨?_, fun p c => by simp [v4l2_capabilities_check]⟩
  rcases hcase with ⟨hr, hno⟩ | ⟨hr, hA, hB, hC, hD⟩
  · constructor
    · intro h0
      exact absurd h0 hr
    · rintro ⟨_, _, _, i, hi⟩
      exact absurd rfl (hno _ hi i)
  · exact ⟨fun _ => ⟨hA, hB, hC, hD⟩, fun _ => hr⟩

theorem probe_acceptance_witness :
    v4l2_encoder_probe cedrus_env 2 opened_encoder [] =
        some (0,
          ((v4l2_encoder_probe cedrus_env 2 opened_encoder []).getD (0, opened_encoder, [])).2.1,
          ((v4l2_encoder_probe cedrus_env 2 opened_encoder []).getD (0, opened_encoder, [])).2.2) ∧
      (∃ i, ProbeEvent.enum_fmt opened_encoder.video_fd
          ((v4l2_encoder_probe cedrus_env 2 opened_encoder []).getD
            (0, opened_encoder, [])).2.1.capture_type i (.ok V4L2_PIX_FMT_H264) ∈
          trace_since [] ((v4l2_encoder_probe cedrus_env 2 opened_encoder []).getD
            (0, opened_encoder, [])).2.2) :=
  ⟨rfl, ((probe_acceptance cedrus_env 2 opened_encoder _ [] _ 0 rfl).1.1 rfl).2.2.2⟩

/-! ## The coded format of `v4l2_encoder_setup` -/

/-- C21: the coded format `v4l2_encoder_setup` builds.  On a single-plane
coded queue `v4l2_format_setup_sizeimage(format, 0, size)` after
`v4l2_format_setup_base` and `v4l2_format_setup_pixel` returns 0 and stores
`size`.  On a multi-plane coded queue the same call returns `-EINVAL` and
stores nothing, because `num_planes` is still zero; `v4l2_encoder_setup`
ignores the result, and the format it sets on `mplane_encoder` has the
requested dimensions and H.264 but a plane-0 image size of 0. -/
theorem coded_format_sizeimage (width height size : Nat) :
    v4l2_format_setup_sizeimage
        (v4l2_format_setup_pixel (v4l2_format_setup_base V4L2_BUF_TYPE_VIDEO_CAPTURE)
          width height V4L2_PIX_FMT_H264) 0 size =
      (0, { v4l2_format.zero with
            type := V4L2_BUF_TYPE_VIDEO_CAPTURE,
            pix := { width := width, height := height,
                     pixelformat := V4L2_PIX_FMT_H264, sizeimage := size } }) ∧
    v4l2_format_setup_sizeimage
        (v4l2_format_setup_pixel (v4l2_format_setup_base V4L2_BUF_TYPE_VIDEO_CAPTURE_MPLANE)
          width height V4L2_PIX_FMT_H264) 0 size =
      (-EINVAL,
       v4l2_format_setup_pixel (v4l2_format_setup_base V4L2_BUF_TYPE_VIDEO_CAPTURE_MPLANE)
         width height V4L2_PIX_FMT_H264) ∧
    (v4l2_format_setup_pixel (v4l2_format_setup_base V4L2_BUF_TYPE_VIDEO_CAPTURE_MPLANE)
        width height V4L2_PIX_FMT_H264).pix_mp.plane_fmt[0]? = some 0 ∧
    (v4l2_encoder_setup ready_env mplane_encoder []).map
        (fun r => (r.1, (format_sets r.2.2).head?.map
          (fun f => (f.type, f.pix_mp.width, f.pix_mp.height, f.pix_mp.pixelformat,
                     f.pix_mp.plane_fmt[0]?)))) =
      some (0, some (V4L2_BUF_TYPE_VIDEO_CAPTURE_MPLANE, 1280, 720, V4L2_PIX_FMT_H264,
                     some 0)) ∧
    (v4l2_encoder_setup ready_env opened_encoder []).map
        (fun r => (r.1, (format_sets r.2.2).head?.map
          (fun f => (f.type, f.pix.width, f.pix.height, f.pix.pixelformat,
                     f.pix.sizeimage)))) =
      some (0, some (V4L2_BUF_TYPE_VIDEO_CAPTURE, 1280, 720, V4L2_PIX_FMT_H264,
                     2 * 1024 * 1024)) := by
  refine ⟨rfl, rfl, rfl, ?_, ?_⟩ <;> rfl

/-! ## The result of `v4l2_encoder_setup` when the draw buffer fails -/

/-- C26: when `draw_buffer_create` fails, because `calloc` gives no memory or
because the width is zero, `v4l2_encoder_setup` rolls both pools back, leaves
`up` false and returns 0; when nothing fails it returns 0 with `up` true and
both pools allocated. -/
theorem setup_draw_failure :
    (v4l2_encoder_setup nomem_env opened_encoder []).map
        (fun r => (r.1, r.2.1.up, r.2.1.draw_buffer, released_queues r.2.2,
                   (mapped_regions r.2.2).length, (unmapped_regions r.2.2).length)) =
      some (0, false, none,
            [V4L2_BUF_TYPE_VIDEO_CAPTURE, V4L2_BUF_TYPE_VIDEO_OUTPUT], 6, 6) ∧
    (v4l2_encoder_setup ready_env unsized_encoder []).map
        (fun r => (r.1, r.2.1.up, r.2.1.draw_buffer, released_queues r.2.2,
                   (mapped_regions r.2.2).length, (unmapped_regions r.2.2).length)) =
      some (0, false, none,
            [V4L2_BUF_TYPE_VIDEO_CAPTURE, V4L2_BUF_TYPE_VIDEO_OUTPUT], 6, 6) ∧
    (v4l2_encoder_setup ready_env opened_encoder []).map
        (fun r => (r.1, r.2.1.up, r.2.1.capture_buffers_count, r.2.1.output_buffers_count,
                   released_queues r.2.2)) =
      some (0, true, BUFFERS_ARRAY_SIZE, BUFFERS_ARRAY_SIZE, []) := by
  refine ⟨?_, ?_, ?_⟩ <;> rfl

/-! ## Cleanup of a record whose setup failed early -/

/-- C27: a zero-initialised buffer record whose `v4l2_encoder_buffer_setup`
fails at the buffer query still has `request_fd == 0`, and the following
`v4l2_encoder_buffer_cleanup` closes descriptor 0 although no request handle
was allocated; so does the rollback of `v4l2_encoder_setup` on a transport that
refuses the first query, and on one that refuses the first mapping. -/
theorem cleanup_after_failed_query :
    (v4l2_encoder_buffer_setup query_env opened_encoder fresh_buffer
        V4L2_BUF_TYPE_VIDEO_CAPTURE 0 []).map
        (fun r => (r.1, r.2.1.request_fd, opened_requests r.2.2, closed_fds r.2.2)) =
      some (neg_errno errno_ENOMEM, 0, [], []) ∧
    ((v4l2_encoder_buffer_setup query_env opened_encoder fresh_buffer
        V4L2_BUF_TYPE_VIDEO_CAPTURE 0 []).bind
        (fun r => v4l2_encoder_buffer_cleanup query_env opened_encoder r.2.1 r.2.2)).map
        (fun r => (r.1, r.2.1.request_fd, opened_requests r.2.2, closed_fds r.2.2)) =
      some (0, -1, [], [0]) ∧
    (v4l2_encoder_setup query_env opened_encoder []).map
        (fun r => (r.1, r.2.1.up, opened_requests r.2.2, closed_fds r.2.2)) =
      some (neg_errno errno_ENOMEM, false, [], [0]) ∧
    (v4l2_encoder_setup nomap_env opened_encoder []).map
        (fun r => (r.1, r.2.1.up, opened_requests r.2.2, closed_fds r.2.2)) =
      some (neg_errno errno_ENOMEM, false, [], [0]) := by
  refine ⟨?_, ?_, ?_, ?_⟩ <;> rfl

/-! ## The setters on a configured session -/

/-- C28: on a session with `up` set, `v4l2_encoder_setup_defaults`,
`v4l2_encoder_setup_dimensions` and `v4l2_encoder_setup_format` return an error
and change nothing, while `v4l2_encoder_setup_fps`, `v4l2_encoder_setup_qp` and
`v4l2_encoder_setup_gop`, which do not test `up`, return 0 and store their
arguments in `encoder->setup`. -/
theorem setters_when_up (encoder : v4l2_encoder) (hup : encoder.up = true)
    (width height format qp_i qp_p closure size : Nat) (fps : c_float) :
    v4l2_encoder_setup_defaults encoder = (-EBUSY, encoder) ∧
    (v4l2_encoder_setup_dimensions encoder width height).1 ≠ 0 ∧
    (v4l2_encoder_setup_dimensions encoder width height).2 = encoder ∧
    v4l2_encoder_setup_format encoder format = (-EBUSY, encoder) ∧
    (fps.is_zero = false →
      v4l2_encoder_setup_fps encoder fps =
        (0, { encoder with
              setup := { encoder.setup with fps_den := 1000, fps_num := fps.times 1000 } })) ∧
    (qp_i ≠ 0 → qp_p ≠ 0 →
      v4l2_encoder_setup_qp encoder qp_i qp_p =
        (0, { encoder with setup := { encoder.setup with qp_i := qp_i, qp_p := qp_p } })) ∧
    v4l2_encoder_setup_gop encoder closure size =
      (0, { encoder with
            setup := { encoder.setup with gop_closure := closure, gop_size := size } }) := by
  refine ⟨?_, ?_, ?_, ?_, ?_, ?_, rfl⟩
  · simp [v4l2_encoder_setup_defaults, hup]
  · unfold v4l2_encoder_setup_dimensions
    by_cases h : width = 0 ∨ height = 0
    · rw [if_pos h]; simp [EINVAL]
    · rw [if_neg h]; simp [hup, EBUSY]
  · unfold v4l2_encoder_setup_dimensions
    by_cases h : width = 0 ∨ height = 0
    · rw [if_pos h]
    · rw [if_neg h]; simp [hup]
  · simp [v4l2_encoder_setup_format, hup]
  · intro hz
    simp [v4l2_encoder_setup_fps, hz]
  · intro hi hp
    simp [v4l2_encoder_setup_qp, hi, hp]

theorem setters_when_up_witness :
    configured_encoder.up = true ∧
    v4l2_encoder_setup_gop configured_encoder 1 5 =
      (0, { configured_encoder with
            setup := { configured_encoder.setup with gop_closure := 1, gop_size := 5 } }) ∧
    (v4l2_encoder_setup_gop configured_encoder 1 5).2.setup ≠ configured_encoder.setup :=
  ⟨rfl, (setters_when_up configured_encoder rfl 1 1 1 1 1 1 5 float_25).2.2.2.2.2.2,
   by decide⟩

/-! ## The test pattern -/

theorem test_pattern_pixel_some (color_width box_y box_height x y : Nat) (s : pattern_cursor)
    (hc : color_width ≠ 0) (hx : x / color_width < colors_count) :
    ∃ s1, test_pattern_pixel color_width box_y box_height x y s = some s1 ∧
      s1.luma.length = s.luma.length + 1 := by
  unfold test_pattern_pixel
  rw [if_neg hc]
  have hlt : x / color_width < colors.length := hx
  rw [List.getElem?_eq_getElem hlt]
  simp only []
  by_cases h : y % 2 = 0 ∧ x % 2 = 0
  · rw [if_pos h]; exact ⟨_, rfl, by simp⟩
  · rw [if_neg h]; exact ⟨_, rfl, by simp⟩

theorem test_pattern_pixel_none (color_width box_y box_height x y : Nat) (s : pattern_cursor)
    (h : color_width = 0 ∨ colors_count ≤ x / color_width) :
    test_pattern_pixel color_width box_y box_height x y s = none := by
  unfold test_pattern_pixel
  by_cases hc : color_width = 0
  · rw [if_pos hc]
  · rw [if_neg hc]
    have hle : colors.length ≤ x / color_width := by
      rcases h with h | h
      · exact absurd h hc
      · exact h
    rw [List.getElem?_eq_none hle]

theorem test_pattern_row_some (color_width box_y box_height y : Nat) (hc : color_width ≠ 0) :
    ∀ (n x : Nat) (s : pattern_cursor), x + n ≤ colors_count * color_width →
      ∃ s1, test_pattern_row color_width box_y box_height y n x s = some s1 ∧
        s1.luma.length = s.luma.length + n := by
  intro n
  induction n with
  | zero => intro x s _; exact ⟨s, rfl, rfl⟩
  | succ n ih =>
    intro x s hle
    have hx : x / color_width < colors_count := by
      rw [Nat.div_lt_iff_lt_mul (Nat.pos_of_ne_zero hc)]
      omega
    obtain ⟨s1, h1, hl1⟩ := test_pattern_pixel_some color_width box_y box_height x y s hc hx
    obtain ⟨s2, h2, hl2⟩ := ih (x + 1) s1 (by omega)
    refine ⟨s2, ?_, by omega⟩
    rw [test_pattern_row, h1]
    exact h2

theorem test_pattern_row_none (color_width box_y box_height y bad : Nat)
    (hbad : color_width = 0 ∨ colors_count ≤ bad / color_width) :
    ∀ (n x : Nat) (s : pattern_cursor), x ≤ bad → bad < x + n →
      test_pattern_row color_width box_y box_height y n x s = none := by
  intro n
  induction n with
  | zero => intro x s h1 h2; omega
  | succ n ih =>
    intro x s h1 h2
    rw [test_pattern_row]
    by_cases hx : x = bad
    · rw [hx, test_pattern_pixel_none color_width box_y box_height bad y s hbad]
    · cases hp : test_pattern_pixel color_width box_y box_height x y s with
      | none => rfl
      | some s1 => exact ih (x + 1) s1 (by omega) (by omega)

theorem test_pattern_rows_some (width stride color_width box_y box_height : Nat)
    (hc : color_width ≠ 0) (hw : width ≤ colors_count * color_width) :
    ∀ (n y : Nat) (s : pattern_cursor),
      ∃ s1, test_pattern_rows width stride color_width box_y box_height n y s = some s1 ∧
        s1.luma.length = s.luma.length + n * width := by
  intro n
  induction n with
  | zero => intro y s; exact ⟨s, rfl, by simp⟩
  | succ n ih =>
    intro y s
    obtain ⟨s1, h1, hl1⟩ :=
      test_pattern_row_some color_width box_y box_height y hc width 0 s (by omega)
    rw [test_pattern_rows, h1]
    simp only []
    by_cases hs : 0 < (stride + UINT_WIDTH - width) % UINT_WIDTH
    · rw [if_pos hs]
      obtain ⟨s2, h2, hl2⟩ := ih (y + 1)
        { s1 with l := s1.l + (stride + UINT_WIDTH - width) % UINT_WIDTH,
                  c := s1.c + (stride + UINT_WIDTH - width) % UINT_WIDTH }
      refine ⟨s2, h2, ?_⟩
      rw [hl2, Nat.succ_mul]
      simp only []
      omega
    · rw [if_neg hs]
      obtain ⟨s2, h2, hl2⟩ := ih (y + 1) s1
      refine ⟨s2, h2, ?_⟩
      rw [hl2, Nat.succ_mul]
      omega

/-- For a width that is a multiple of 8 and a height above 50,
`test_pattern_step` returns and stores `width * height` luma bytes. -/
theorem test_pattern_step_luma (width height stride step luma chroma : Nat)
    (hw : 0 < width) (h8 : 8 ∣ width) (hh : 50 < height) (hu : height < UINT_WIDTH) :
    ∃ r, test_pattern_step width height stride step luma chroma = some r ∧
      r.1.length = width * height := by
  unfold test_pattern_step
  simp only []
  have hne : ¬ (height + UINT_WIDTH - 50) % UINT_WIDTH = 0 := by
    have : (height + UINT_WIDTH - 50) % UINT_WIDTH = height - 50 := by
      have e : height + UINT_WIDTH - 50 = (height - 50) + UINT_WIDTH := by omega
      rw [e, Nat.add_mod_right, Nat.mod_eq_of_lt (by omega)]
    omega
  rw [if_neg hne]
  obtain ⟨k, hk⟩ := h8
  have hcc : colors_count = 8 := rfl
  have hcw : width / colors_count = k := by
    rw [hcc, hk]; exact Nat.mul_div_cancel_left k (by decide)
  have hc : width / colors_count ≠ 0 := by rw [hcw]; omega
  obtain ⟨s1, h1, hl1⟩ := test_pattern_rows_some width stride (width / colors_count)
    ((step * 2 % UINT_WIDTH) % ((height + UINT_WIDTH - 50) % UINT_WIDTH)) 50 hc
    (by rw [hcw, hcc]; omega) height 0
    { l := luma, c := chroma, luma := [], chroma := [] }
  rw [h1]
  refine ⟨_, rfl, ?_⟩
  simp only [List.length_reverse, hl1, List.length_nil, Nat.zero_add]
  exact Nat.mul_comm _ _

/-- C30: with `color_width = width / 8`, a width below 8 makes
`test_pattern_step` divide by zero, and any other width that is no multiple of
8 makes it read `colors[8]`, outside the 8-entry table: for every such width
above 0 and every height above 0 the function has no result, so no count of
luma bytes either. -/
theorem test_pattern_widths (width height stride step luma chroma : Nat)
    (hw : 0 < width) (h8 : ¬ 8 ∣ width) (hh : 0 < height) :
    test_pattern_step width height stride step luma chroma = none := by
  unfold test_pattern_step
  simp only []
  by_cases hne : (height + UINT_WIDTH - 50) % UINT_WIDTH = 0
  · rw [if_pos hne]
  · rw [if_neg hne]
    have hcc : colors_count = 8 := rfl
    have hbad : ∃ bad, bad < width ∧
        (width / colors_count = 0 ∨ colors_count ≤ bad / (width / colors_count)) := by
      by_cases hlt : width < 8
      · exact ⟨0, hw, Or.inl (by rw [hcc]; exact Nat.div_eq_of_lt hlt)⟩
      · refine ⟨8 * (width / 8), ?_, Or.inr ?_⟩
        · have h1 : 8 * (width / 8) ≤ width := Nat.mul_div_le width 8
          have h2 : 8 * (width / 8) ≠ width := by
            intro h; exact h8 ⟨width / 8, h.symm⟩
          omega
        · rw [hcc]
          have hpos : 0 < width / 8 := Nat.div_pos (by omega) (by decide)
          rw [Nat.mul_comm, Nat.mul_div_cancel_left _ hpos]
    obtain ⟨bad, hb1, hb2⟩ := hbad
    obtain ⟨n, hn⟩ : ∃ n, height = n + 1 := ⟨height - 1, by omega⟩
    rw [hn, test_pattern_rows,
      test_pattern_row_none (width / colors_count) _ 50 0 bad hb2 width 0 _ (Nat.zero_le _)
        (by omega)]

theorem test_pattern_widths_witness :
    (0 < 12 ∧ 50 < 51 ∧ 12 / colors_count ≠ 0 ∧ colors[8 / (12 / colors_count)]? = none ∧
      test_pattern_step 12 51 12 0 0 (12 * 51) = none) ∧
    (0 < 4 ∧ 50 < 51 ∧ 4 / colors_count = 0 ∧
      test_pattern_step 4 51 4 0 0 (4 * 51) = none) :=
  ⟨⟨by decide, by decide, by decide, by decide,
    test_pattern_widths 12 51 12 0 0 (12 * 51) (by decide) (by decide) (by decide)⟩,
   ⟨by decide, by decide, by decide,
    test_pattern_widths 4 51 4 0 0 (4 * 51) (by decide) (by decide) (by decide)⟩⟩

/-! ## The pixel-format check -/

theorem pixel_format_check_step (env : ProbeEnv) (fd : Int) (type pf : Nat) (t : ProbeTrace)
    (fuel k : Nat) :
    v4l2_pixel_format_check env fd type pf (fuel + 1) (k % UINT_WIDTH)
        (enum_trace env fd type t k) =
      match enum_result env fd type t k with
      | .error _ => some (false, enum_trace env fd type t (k + 1))
      | .ok p =>
        if p = pf then some (true, enum_trace env fd type t (k + 1))
        else
          v4l2_pixel_format_check env fd type pf fuel ((k + 1) % UINT_WIDTH)
            (enum_trace env fd type t (k + 1)) := by
  rw [v4l2_pixel_format_check]
  have hidx : (k % UINT_WIDTH + 1) % UINT_WIDTH = (k + 1) % UINT_WIDTH := by
    rw [Nat.add_mod, Nat.mod_mod, ← Nat.add_mod]
  have ht : enum_trace env fd type t (k + 1) =
      (v4l2_pixel_format_enum env fd type (k % UINT_WIDTH) (enum_trace env fd type t k)).2 := rfl
  have hr : enum_result env fd type t k =
      (v4l2_pixel_format_enum env fd type (k % UINT_WIDTH) (enum_trace env fd type t k)).1 := rfl
  rw [ht, hr, hidx]
  rcases v4l2_pixel_format_enum env fd type (k % UINT_WIDTH) (enum_trace env fd type t k) with
    ⟨r, t1⟩
  cases r with
  | error x => rfl
  | ok p => rfl

/-- The enumerations `k`, ..., `k + n - 1` succeed with other formats. -/
theorem pixel_format_check_skip (env : ProbeEnv) (fd : Int) (type pf : Nat) (t : ProbeTrace) :
    ∀ (n fuel k : Nat),
      (∀ j, k ≤ j → j < k + n → ∃ p, enum_result env fd type t j = .ok p ∧ p ≠ pf) →
      v4l2_pixel_format_check env fd type pf (fuel + n) (k % UINT_WIDTH)
          (enum_trace env fd type t k) =
        v4l2_pixel_format_check env fd type pf fuel ((k + n) % UINT_WIDTH)
          (enum_trace env fd type t (k + n)) := by
  intro n
  induction n with
  | zero => intro fuel k _; rfl
  | succ n ih =>
    intro fuel k hall
    obtain ⟨p, hp, hne⟩ := hall k (Nat.le_refl k) (by omega)
    have e1 : fuel + (n + 1) = (fuel + n) + 1 := by omega
    rw [e1, pixel_format_check_step, hp]
    simp only [hne, if_false]
    rw [ih fuel (k + 1) (fun j h1 h2 => hall j (by omega) (by omega))]
    have e2 : k + 1 + n = k + (n + 1) := by omega
    rw [e2]

theorem pixel_format_check_exhaust (env : ProbeEnv) (fd : Int) (type pf : Nat) (t : ProbeTrace)
    (fuel : Nat)
    (hall : ∀ j, j < fuel → ∃ p, enum_result env fd type t j = .ok p ∧ p ≠ pf) :
    v4l2_pixel_format_check env fd type pf fuel 0 t = none := by
  have h := pixel_format_check_skip env fd type pf t fuel 0 0
    (fun j _ h2 => hall j (by omega))
  simp only [Nat.zero_add, Nat.zero_mod] at h
  have h0 : enum_trace env fd type t 0 = t := rfl
  rw [h0] at h
  rw [h, v4l2_pixel_format_check]

theorem pixel_format_check_stop (env : ProbeEnv) (fd : Int) (type pf : Nat) (t : ProbeTrace)
    (fuel i : Nat) (hi : i < fuel)
    (hall : ∀ j, j < i → ∃ p, enum_result env fd type t j = .ok p ∧ p ≠ pf) :
    v4l2_pixel_format_check env fd type pf fuel 0 t =
      match enum_result env fd type t i with
      | .error _ => some (false, enum_trace env fd type t (i + 1))
      | .ok p =>
        if p = pf then some (true, enum_trace env fd type t (i + 1))
        else
          v4l2_pixel_format_check env fd type pf (fuel - i - 1) ((i + 1) % UINT_WIDTH)
            (enum_trace env fd type t (i + 1)) := by
  have h := pixel_format_check_skip env fd type pf t i (fuel - i) 0
    (fun j _ h2 => hall j (by omega))
  simp only [Nat.zero_add, Nat.zero_mod] at h
  have h0 : enum_trace env fd type t 0 = t := rfl
  have e1 : fuel - i + i = fuel := by omega
  rw [h0, e1] at h
  rw [h]
  have e2 : fuel - i = (fuel - i - 1) + 1 := by omega
  rw [e2, pixel_format_check_step]
  rfl

/-- A call that returns stopped at the first enumeration that failed or gave
the requested format. -/
theorem pixel_format_check_first (env : ProbeEnv) (fd : Int) (type pf : Nat) (t : ProbeTrace)
    (fuel : Nat) (b : Bool) (t1 : ProbeTrace)
    (h : v4l2_pixel_format_check env fd type pf fuel 0 t = some (b, t1)) :
    ∃ i, i < fuel ∧
      (∀ j, j < i → ∃ p, enum_result env fd type t j = .ok p ∧ p ≠ pf) ∧
      ((b = true ∧ enum_result env fd type t i = .ok pf) ∨
       (b = false ∧ ∃ x, enum_result env fd type t i = .error x)) ∧
      t1 = enum_trace env fd type t (i + 1) := by
  by_contra hcon
  have hall : ∀ n, n ≤ fuel →
      ∀ j, j < n → ∃ p, enum_result env fd type t j = .ok p ∧ p ≠ pf := by
    intro n
    induction n with
    | zero => intro _ j hj; omega
    | succ n ih =>
      intro hn j hj
      have ihn := ih (by omega)
      by_cases hjn : j < n
      · exact ihn j hjn
      · have hjeq : j = n := by omega
        subst hjeq
        have hs := pixel_format_check_stop env fd type pf t fuel j (by omega) ihn
        rw [h] at hs
        cases hr : enum_result env fd type t j with
        | error x =>
          rw [hr] at hs
          simp only [Option.some.injEq, Prod.mk.injEq] at hs
          exact absurd ⟨j, by omega, ihn, Or.inr ⟨hs.1, x, hr⟩, hs.2⟩ hcon
        | ok p =>
          rw [hr] at hs
          by_cases hp : p = pf
          · simp only [hp, if_true, Option.some.injEq, Prod.mk.injEq] at hs
            exact absurd ⟨j, by omega, ihn, Or.inl ⟨hs.1, by rw [hr, hp]⟩, hs.2⟩ hcon
          · exact ⟨p, rfl, hp⟩
  have hnone := pixel_format_check_exhaust env fd type pf t fuel (hall fuel (Nat.le_refl _))
  rw [hnone] at h
  cases h

/-- C29: a call of `v4l2_pixel_format_check` (index 0 first) with enough fuel
for `i + 1` enumerations returns true when enumeration `i` is the first to
give the requested format and all before it succeeded, and returns false when
enumeration `i` is the first to fail and none before it gave the requested
format; in both cases enumeration `i` is the last one made.  Whenever the call
returns, the result is true if and only if there is an `i` such that every
enumeration `0..i` succeeds and enumeration `i` gives the requested format. -/
theorem pixel_format_check_spec (env : ProbeEnv) (fd : Int) (type pf : Nat) (t : ProbeTrace) :
    (∀ fuel i, i < fuel →
      (∀ j, j < i → ∃ p, enum_result env fd type t j = .ok p ∧ p ≠ pf) →
      enum_result env fd type t i = .ok pf →
      v4l2_pixel_format_check env fd type pf fuel 0 t =
        some (true, enum_trace env fd type t (i + 1))) ∧
    (∀ fuel i, i < fuel →
      (∀ j, j < i → ∃ p, enum_result env fd type t j = .ok p ∧ p ≠ pf) →
      (∃ x, enum_result env fd type t i = .error x) →
      v4l2_pixel_format_check env fd type pf fuel 0 t =
        some (false, enum_trace env fd type t (i + 1))) ∧
    (∀ fuel b t1, v4l2_pixel_format_check env fd type pf fuel 0 t = some (b, t1) →
      (b = true ↔
        ∃ i, (∀ j, j ≤ i → ∃ p, enum_result env fd type t j = .ok p) ∧
          enum_result env fd type t i = .ok pf)) := by
  refine ⟨?_, ?_, ?_⟩
  · intro fuel i hi hall hm
    rw [pixel_format_check_stop env fd type pf t fuel i hi hall, hm]
    simp
  · intro fuel i hi hall hf
    obtain ⟨x, hx⟩ := hf
    rw [pixel_format_check_stop env fd type pf t fuel i hi hall, hx]
  · intro fuel b t1 h
    obtain ⟨i, _, hbefore, hcase, _⟩ := pixel_format_check_first env fd type pf t fuel b t1 h
    constructor
    · intro hb
      rcases hcase with ⟨_, hm⟩ | ⟨hfalse, _⟩
      · refine ⟨i, ?_, hm⟩
        intro j hj
        by_cases hji : j < i
        · obtain ⟨p, hp, _⟩ := hbefore j hji
          exact ⟨p, hp⟩
        · have hjeq : j = i := by omega
          subst hjeq
          exact ⟨pf, hm⟩
      · rw [hb] at hfalse
        cases hfalse
    · intro hex
      obtain ⟨k, hok, hk⟩ := hex
      rcases hcase with ⟨hb, _⟩ | ⟨_, x, hx⟩
      · exact hb
      · exfalso
        by_cases hki : k < i
        · obtain ⟨p, hp, hne⟩ := hbefore k hki
          rw [hk] at hp
          cases hp
          exact hne rfl
        · obtain ⟨p, hp⟩ := hok i (by omega)
          rw [hx] at hp
          cases hp

theorem pixel_format_check_spec_witness :
    v4l2_pixel_format_check cedrus_env 4 V4L2_BUF_TYPE_VIDEO_CAPTURE V4L2_PIX_FMT_H264 1 0 [] =
        some (true, enum_trace cedrus_env 4 V4L2_BUF_TYPE_VIDEO_CAPTURE [] 1) ∧
    v4l2_pixel_format_check raw_only_env 4 V4L2_BUF_TYPE_VIDEO_CAPTURE V4L2_PIX_FMT_H264 2 0 [] =
        some (false, enum_trace raw_only_env 4 V4L2_BUF_TYPE_VIDEO_CAPTURE [] 2) :=
  ⟨(pixel_format_check_spec cedrus_env 4 V4L2_BUF_TYPE_VIDEO_CAPTURE V4L2_PIX_FMT_H264 []).1
      1 0 (by decide) (fun j hj => absurd hj (Nat.not_lt_zero j)) rfl,
   (pixel_format_check_spec raw_only_env 4 V4L2_BUF_TYPE_VIDEO_CAPTURE V4L2_PIX_FMT_H264
      []).2.1 2 1 (by decide)
      (fun j hj => by
        have hj0 : j = 0 := by omega
        subst hj0
        exact ⟨V4L2_PIX_FMT_NV12, rfl, by decide⟩)
      ⟨_, rfl⟩⟩

/-! ## The per-frame step: what is exchanged with the queues -/

theorem setup_plane_length_used_index (buffer : v4l2_buffer) (i l : Nat) :
    (v4l2_buffer_setup_plane_length_used buffer i l).2.index = buffer.index ∧
    (v4l2_buffer_setup_plane_length_used buffer i l).2.type = buffer.type := by
  unfold v4l2_buffer_setup_plane_length_used
  repeat' split
  all_goals exact ⟨rfl, rfl⟩

theorem run_picture_index (e : v4l2_encoder) (ob : v4l2_encoder_buffer) :
    (v4l2_encoder_run_picture e ob).index = ob.buffer.index ∧
    (v4l2_encoder_run_picture e ob).type = ob.buffer.type := by
  unfold v4l2_encoder_run_picture v4l2_buffer_setup_timestamp
  exact setup_plane_length_used_index ob.buffer 0 _

theorem run_submit_shape {env : Env} {e e1 : v4l2_encoder} {t t1 : Trace} {oi ci : Nat}
    {ob : v4l2_encoder_buffer}
    (h : v4l2_encoder_run_submit env e t = some (.wait oi ci e1 t1))
    (hob : e.output_buffers[e.output_buffers_index]? = some ob) :
    ∃ qb cb cq sr,
      e.capture_buffers[e.capture_buffers_index]? = some cb ∧
      t1 = Event.select e.video_fd 300000 sr ::
             Event.qbuf e.video_fd cb.buffer (.ok cq) ::
             Event.qbuf e.video_fd (v4l2_encoder_run_picture e ob) (.ok qb) :: t ∧
      oi = e.output_buffers_index ∧ ci = e.capture_buffers_index ∧
      e1.output_buffers = e.output_buffers.set oi { ob with buffer := qb } ∧
      e1.capture_buffers = e.capture_buffers.set ci { cb with buffer := cq } ∧
      e1.video_fd = e.video_fd ∧ e1.output_type = e.output_type ∧
      e1.capture_type = e.capture_type ∧ e1.memory = e.memory ∧
      e1.capture_buffers_count = e.capture_buffers_count ∧
      env.qbuf t e.video_fd (v4l2_encoder_run_picture e ob) = .ok qb ∧
      env.qbuf (Event.qbuf e.video_fd (v4l2_encoder_run_picture e ob) (.ok qb) :: t)
        e.video_fd cb.buffer = .ok cq := by
  unfold v4l2_encoder_run_submit at h
  simp only [hob] at h
  by_cases hc : e.output_buffers_count = 0
  · simp [hc] at h
  · simp only [hc, ↓reduceIte] at h
    cases hq : env.qbuf t e.video_fd (v4l2_encoder_run_picture e ob) with
    | err x =>
      have hne := neg_errno_ne_zero x
      simp [v4l2_buffer_queue, hq, hne] at h
    | ok qb =>
      simp only [v4l2_buffer_queue, hq, ne_eq, not_true_eq_false, ↓reduceIte] at h
      cases hcb : e.capture_buffers[e.capture_buffers_index]? with
      | none => simp [hcb] at h
      | some cb =>
        simp only [hcb] at h
        by_cases hcc : e.capture_buffers_count = 0
        · simp [hcc] at h
        · simp only [hcc, ↓reduceIte] at h
          cases hq2 : env.qbuf
              (Event.qbuf e.video_fd (v4l2_encoder_run_picture e ob) (.ok qb) :: t)
              e.video_fd cb.buffer with
          | err x =>
            have hne := neg_errno_ne_zero x
            simp [hq2, hne] at h
          | ok cq =>
            simp only [hq2, ne_eq, not_true_eq_false, ↓reduceIte] at h
            obtain ⟨sr, hsr⟩ := poll_trace env e.video_fd 300000
              (Event.qbuf e.video_fd cb.buffer (.ok cq) ::
                Event.qbuf e.video_fd (v4l2_encoder_run_picture e ob) (.ok qb) :: t)
            split at h
            · cases h
            · simp only [Option.some.injEq, RunSubmit.wait.injEq] at h
              obtain ⟨h1, h2, h3, h4⟩ := h
              refine ⟨qb, cb, cq, sr, rfl, ?_, h1.symm, h2.symm, ?_, ?_, ?_, ?_, ?_, ?_, ?_, rfl,
                hq2⟩
              · rw [← h4, hsr]
              · rw [← h3, ← h1]
              · rw [← h3, ← h2]
              · rw [← h3]
              · rw [← h3]
              · rw [← h3]
              · rw [← h3]
              · rw [← h3]

theorem run_dequeue_shape {env : Env} {fd : Int} {fuel : Nat} {buffer b : v4l2_buffer}
    {t t' : Trace}
    (h : v4l2_encoder_run_dequeue env fd fuel buffer t = some (0, b, t')) :
    ∃ k, t' = Event.dqbuf fd buffer (.ok b) ::
      (List.replicate k (Event.dqbuf fd buffer (.err errno_EAGAIN)) ++ t) := by
  induction fuel generalizing t with
  | zero => simp [v4l2_encoder_run_dequeue] at h
  | succ n ih =>
    cases hq : env.dqbuf t fd buffer with
    | ok b0 =>
      rw [run_dequeue_ok n hq] at h
      simp only [Option.some.injEq, Prod.mk.injEq, true_and] at h
      refine ⟨0, ?_⟩
      rw [← h.2, ← h.1]
      rfl
    | err x =>
      by_cases hx : x = errno_EAGAIN
      · subst hx
        rw [run_dequeue_again n hq] at h
        obtain ⟨k, hk⟩ := ih h
        refine ⟨k + 1, ?_⟩
        rw [hk, List.replicate_succ', List.append_assoc]
        rfl
      · rw [run_dequeue_err n hq hx] at h
        simp only [Option.some.injEq, Prod.mk.injEq] at h
        exact absurd h.1 (neg_errno_ne_zero x)

theorem dequeued_buffers_retry (fd : Int) (buffer b : v4l2_buffer) (k : Nat) (t : Trace) :
    dequeued_buffers (Event.dqbuf fd buffer (.ok b) ::
      (List.replicate k (Event.dqbuf fd buffer (.err errno_EAGAIN)) ++ t)) =
      dequeued_buffers t ++ [(buffer.type, b.index)] ∧
    enqueued_buffers (Event.dqbuf fd buffer (.ok b) ::
      (List.replicate k (Event.dqbuf fd buffer (.err errno_EAGAIN)) ++ t)) =
      enqueued_buffers t := by
  have h1 : ∀ k, List.filterMap Event.dequeued
      (List.replicate k (Event.dqbuf fd buffer (.err errno_EAGAIN))) = [] := by
    intro k
    induction k with
    | zero => rfl
    | succ k ih => simp [Event.dequeued]
  have h2 : ∀ k, List.filterMap Event.enqueued
      (List.replicate k (Event.dqbuf fd buffer (.err errno_EAGAIN))) = [] := by
    intro k
    induction k with
    | zero => rfl
    | succ k ih => simp [Event.enqueued]
  constructor
  · simp [dequeued_buffers, List.filterMap_cons, List.filterMap_append, h1, Event.dequeued]
  · simp [enqueued_buffers, List.filterMap_cons, List.filterMap_append, h2, Event.enqueued]

theorem getElem_lt_of_some {α : Type} {l : List α} {i : Nat} {a : α} (h : l[i]? = some a) :
    i < l.length := by
  rcases List.getElem?_eq_some.1 h with ⟨h1, _⟩
  exact h1

theorem getElem_set_of_some {α : Type} {l : List α} {i : Nat} {a : α} (b : α)
    (h : l[i]? = some a) : (l.set i b)[i]? = some b := by
  simp [List.getElem?_set, getElem_lt_of_some h]

theorem queued_flags_set {l : List v4l2_encoder_buffer} {i : Nat} {b : v4l2_encoder_buffer}
    (x : v4l2_buffer) (h : l[i]? = some b) :
    queued_flags (l.set i { b with buffer := x }) = queued_flags l := by
  unfold queued_flags
  rw [List.map_set]
  apply List.ext_getElem?
  intro j
  by_cases hj : i = j
  · subst hj
    simp [List.getElem?_set, h]
    exact getElem_lt_of_some h
  · simp [List.getElem?_set, hj]

/-- C24: a call of `v4l2_encoder_run` that got past the wait and returns 0, on
a transport whose enqueue leaves the buffer index alone and from a state whose
coded slot carries its own number below `capture_buffers_count`, has enqueued
exactly one buffer on each queue (the input slot, then the coded slot) and
dequeued exactly one buffer from each queue, with the same indices; and
`capture_returned_index` is the number of the coded slot submitted, below
`capture_buffers_count` and inside the coded pool. -/
theorem run_one_pair (env : Env) (fuel : Nat) (e e' e1 : v4l2_encoder) (t t' t1 : Trace)
    (oi ci : Nat) (ob cb : v4l2_encoder_buffer)
    (h : v4l2_encoder_run env fuel e t = some (0, e', t'))
    (hwait : v4l2_encoder_run_submit env e t = some (.wait oi ci e1 t1))
    (hq : ∀ s fd arg b, env.qbuf s fd arg = .ok b → b.index = arg.index)
    (hob : e.output_buffers[e.output_buffers_index]? = some ob)
    (hcb : e.capture_buffers[e.capture_buffers_index]? = some cb)
    (hot : ob.buffer.type = e.output_type) (hct : cb.buffer.type = e.capture_type)
    (hci : cb.buffer.index = e.capture_buffers_index)
    (hlt : e.capture_buffers_index < e.capture_buffers_count) :
    enqueued_buffers t' =
      enqueued_buffers t ++
        [(e.output_type, ob.buffer.index), (e.capture_type, cb.buffer.index)] ∧
    dequeued_buffers t' =
      dequeued_buffers t ++
        [(e.output_type, ob.buffer.index), (e.capture_type, cb.buffer.index)] ∧
    e'.capture_returned_index = e.capture_buffers_index ∧
    e'.capture_returned_index < e'.capture_buffers_count ∧
    (e'.capture_buffers[e'.capture_returned_index]?).isSome = true := by
  obtain ⟨qb, cb0, cq, sr, hcb0, ht1, hoi, hci0, hobs, hcbs, hfd, hoty, hcty, hmem, hcnt, hq1,
    hq2⟩ := run_submit_shape hwait hob
  rw [hcb] at hcb0
  cases hcb0
  have hpi := run_picture_index e ob
  have hqb : qb.index = ob.buffer.index := by rw [hq _ _ _ _ hq1]; exact hpi.1
  have hcq : cq.index = cb.buffer.index := hq _ _ _ _ hq2
  have ho1 : e1.output_buffers[oi]? = some { ob with buffer := qb } := by
    rw [hobs, hoi]; exact getElem_set_of_some _ hob
  have hc1 : e1.capture_buffers[ci]? = some { cb with buffer := cq } := by
    rw [hcbs, hci0]; exact getElem_set_of_some _ hcb
  unfold v4l2_encoder_run at h
  simp only [hwait, ho1, hc1] at h
  cases hd1 : v4l2_encoder_run_dequeue env e1.video_fd fuel
      (v4l2_buffer_setup_base e1.output_type e1.memory) t1 with
  | none => simp [hd1] at h
  | some r1 =>
    obtain ⟨ret1, b1, t2⟩ := r1
    simp only [hd1] at h
    by_cases hr1 : ret1 = 0
    · subst hr1
      simp only [ne_eq, not_true_eq_false, ↓reduceIte] at h
      by_cases hi1 : b1.index = qb.index
      · simp only [hi1, not_true_eq_false, ↓reduceIte] at h
        cases hd2 : v4l2_encoder_run_dequeue env e1.video_fd fuel
            (v4l2_buffer_setup_base e1.capture_type e1.memory) t2 with
        | none => simp [hd2] at h
        | some r2 =>
          obtain ⟨ret2, b2, t3⟩ := r2
          simp only [hd2] at h
          by_cases hr2 : ret2 = 0
          · subst hr2
            simp only [ne_eq, not_true_eq_false, ↓reduceIte] at h
            by_cases hi2 : b2.index = cq.index
            · simp only [hi2, not_true_eq_false, ↓reduceIte] at h
              have hidx : cq.index = ci := by rw [hcq, hci, hci0]
              rw [hidx, hc1] at h
              simp only [Option.some.injEq, Prod.mk.injEq, true_and] at h
              obtain ⟨he', ht'⟩ := h
              obtain ⟨k1, hk1⟩ := run_dequeue_shape hd1
              obtain ⟨k2, hk2⟩ := run_dequeue_shape hd2
              have hD1 := dequeued_buffers_retry e1.video_fd
                (v4l2_buffer_setup_base e1.output_type e1.memory) b1 k1 t1
              have hD2 := dequeued_buffers_retry e1.video_fd
                (v4l2_buffer_setup_base e1.capture_type e1.memory) b2 k2 t2
              rw [← hk1] at hD1
              rw [← hk2, ht'] at hD2
              have hE1 : enqueued_buffers t1 =
                  enqueued_buffers t ++
                    [(e.output_type, ob.buffer.index), (e.capture_type, cb.buffer.index)] := by
                rw [ht1]
                simp [enqueued_buffers, List.filterMap_cons, Event.enqueued, hpi.1, hpi.2, hot,
                  hct]
              have hDt1 : dequeued_buffers t1 = dequeued_buffers t := by
                rw [ht1]
                simp [dequeued_buffers, List.filterMap_cons, Event.dequeued]
              refine ⟨?_, ?_, ?_, ?_, ?_⟩
              · rw [hD2.2, hD1.2, hE1]
              · rw [hD2.1, hD1.1, hDt1, List.append_assoc]
                simp [v4l2_buffer_setup_base, hoty, hcty, hi1, hqb, hi2, hcq]
              · rw [← he', ← hci0]
              · rw [← he']
                simp only []
                rw [hcnt, hci0]
                exact hlt
              · rw [← he']
                simp only []
                rw [getElem_set_of_some _ hc1]
                rfl
            · simp [hi2] at h
          · simp [hr2] at h
      · simp [hi1] at h
    · simp [hr1] at h

/-! ## The `queued` flag -/

theorem run_submit_queued_flags {env : Env} {e : v4l2_encoder} {t : Trace} {res : RunSubmit}
    (h : v4l2_encoder_run_submit env e t = some res) :
    queued_flags res.encoder.output_buffers = queued_flags e.output_buffers ∧
    queued_flags res.encoder.capture_buffers = queued_flags e.capture_buffers := by
  unfold v4l2_encoder_run_submit at h
  cases hob : e.output_buffers[e.output_buffers_index]? with
  | none => simp [hob] at h
  | some ob =>
    simp only [hob] at h
    have hO := fun x => queued_flags_set (l := e.output_buffers) x hob
    by_cases hc : e.output_buffers_count = 0
    · simp [hc] at h
    · simp only [hc, ↓reduceIte] at h
      split at h
      · cases h
        exact ⟨hO _, rfl⟩
      · split at h
        · simp at h
        · rename_i cb hcb
          have hC := fun x => queued_flags_set (l := e.capture_buffers) x hcb
          split at h
          · simp at h
          · split at h
            · cases h
              exact ⟨hO _, hC _⟩
            · split at h
              · cases h
                exact ⟨hO _, hC _⟩
              · cases h
                exact ⟨hO _, hC _⟩

theorem run_queued_flags {env : Env} {fuel : Nat} {e e' : v4l2_encoder} {t t' : Trace}
    {r : Int} (h : v4l2_encoder_run env fuel e t = some (r, e', t')) :
    queued_flags e'.output_buffers = queued_flags e.output_buffers ∧
    queued_flags e'.capture_buffers = queued_flags e.capture_buffers := by
  unfold v4l2_encoder_run at h
  cases hs : v4l2_encoder_run_submit env e t with
  | none => simp [hs] at h
  | some res =>
    have hf := run_submit_queued_flags hs
    cases res with
    | ret r0 e0 t0 =>
      simp only [hs] at h
      cases h
      exact hf
    | wait oi ci e0 t0 =>
      simp only [hs] at h
      simp only [RunSubmit.encoder] at hf
      split at h
      · split at h
        · cases h
        · split at h
          · cases h
            exact hf
          · split at h
            · cases h
              exact hf
            · split at h
              · cases h
              · split at h
                · cases h
                  exact hf
                · split at h
                  · cases h
                    exact hf
                  · split at h
                    · cases h
                    · rename_i returned hret
                      cases h
                      refine ⟨hf.1, ?_⟩
                      simp only []
                      rw [queued_flags_set _ hret]
                      exact hf.2
      · cases h

/-- C23, as stated, fails: on `timeout_env` a call of `v4l2_encoder_run` has
both slots accepted by the device (two buffers enqueued, none dequeued) and
returns with the `queued` flag of every record still false. -/
theorem queued_flag_counterexample :
    (v4l2_encoder_run timeout_env 1 configured_encoder configured_trace).map
        (fun r => (r.1, enqueued_buffers r.2.2, dequeued_buffers r.2.2,
                   queued_flags r.2.1.output_buffers, queued_flags r.2.1.capture_buffers)) =
      some (0, [(V4L2_BUF_TYPE_VIDEO_OUTPUT, 0), (V4L2_BUF_TYPE_VIDEO_CAPTURE, 0)], [],
            [false, false, false], [false, false, false]) := by
  rfl

/-- C23, amended: over every sequence of `v4l2_encoder_run` calls the `queued`
flag of every record of both pools keeps the value it had before the first
call; no enqueue or dequeue changes it. -/
theorem queued_flag_constant (env : Env) (fuel n : Nat) (e e' : v4l2_encoder) (t t' : Trace)
    (h : v4l2_encoder_run_times env fuel n e t = some (e', t')) :
    queued_flags e'.output_buffers = queued_flags e.output_buffers ∧
    queued_flags e'.capture_buffers = queued_flags e.capture_buffers := by
  induction n generalizing e' t' with
  | zero =>
    simp only [v4l2_encoder_run_times, Option.some.injEq, Prod.mk.injEq] at h
    rw [← h.1]
    exact ⟨rfl, rfl⟩
  | succ n ih =>
    rw [v4l2_encoder_run_times] at h
    cases hp : v4l2_encoder_run_times env fuel n e t with
    | none => simp [hp] at h
    | some p =>
      obtain ⟨e0, t0⟩ := p
      simp only [hp] at h
      cases hr : v4l2_encoder_run env fuel e0 t0 with
      | none => simp [hr] at h
      | some q =>
        obtain ⟨r, e1, t1⟩ := q
        simp only [hr, Option.some.injEq, Prod.mk.injEq] at h
        have h1 := run_queued_flags hr
        have h0 := ih _ _ hp
        rw [← h.1, h1.1, h1.2]
        exact h0

theorem queued_flag_constant_witness :
    v4l2_encoder_run_times ready_env 1 2 configured_encoder configured_trace =
        some ((v4l2_encoder_run_times ready_env 1 2 configured_encoder configured_trace).getD
          (configured_encoder, [])) ∧
    enqueued_buffers
        ((v4l2_encoder_run_times ready_env 1 2 configured_encoder configured_trace).getD
          (configured_encoder, [])).2 =
      [(V4L2_BUF_TYPE_VIDEO_OUTPUT, 0), (V4L2_BUF_TYPE_VIDEO_CAPTURE, 0),
       (V4L2_BUF_TYPE_VIDEO_OUTPUT, 1), (V4L2_BUF_TYPE_VIDEO_CAPTURE, 1)] ∧
    (queued_flags
        ((v4l2_encoder_run_times ready_env 1 2 configured_encoder configured_trace).getD
          (configured_encoder, [])).1.output_buffers =
      queued_flags configured_encoder.output_buffers ∧
     queued_flags
        ((v4l2_encoder_run_times ready_env 1 2 configured_encoder configured_trace).getD
          (configured_encoder, [])).1.capture_buffers =
      queued_flags configured_encoder.capture_buffers) :=
  ⟨rfl, rfl,
   queued_flag_constant ready_env 1 2 configured_encoder _ configured_trace _ rfl⟩

/-! ## Bytes used of the picture submitted -/

theorem setup_plane_length_used_spec (buffer : v4l2_buffer) (l : Nat)
    (hlen : v4l2_buffer_plane_length buffer 0 = .ok l) (hl : l ≠ 0) :
    v4l2_buffer_plane_length_used (v4l2_buffer_setup_plane_length_used buffer 0 l).2 0 = .ok l ∧
    v4l2_buffer_plane_length (v4l2_buffer_setup_plane_length_used buffer 0 l).2 0 = .ok l := by
  unfold v4l2_buffer_plane_length at hlen
  by_cases hm : v4l2_type_mplane_check buffer.type = true
  · rw [if_pos hm] at hlen
    cases hp : buffer.m_planes with
    | none => rw [hp] at hlen; cases hlen
    | some planes =>
      rw [hp] at hlen
      simp only [] at hlen
      by_cases hb : 0 ≥ buffer.length
      · rw [if_pos hb] at hlen; cases hlen
      · rw [if_neg hb] at hlen
        cases h0 : planes[0]? with
        | none => rw [h0] at hlen; cases hlen
        | some p =>
          rw [h0] at hlen
          simp only [Except.ok.injEq] at hlen
          have hs : v4l2_buffer_setup_plane_length_used buffer 0 l =
              (0, { buffer with
                    m_planes := some (planes.set 0 { p with bytesused := l }) }) := by
            unfold v4l2_buffer_setup_plane_length_used
            rw [if_neg hl, if_pos hm, hp]
            simp only []
            rw [if_neg hb, h0]
          rw [hs]
          unfold v4l2_buffer_plane_length_used v4l2_buffer_plane_length
          simp only []
          rw [if_pos hm, if_pos hm]
          rw [if_neg hb, if_neg hb, getElem_set_of_some _ h0]
          exact ⟨rfl, by rw [hlen]⟩
  · rw [if_neg hm] at hlen
    simp only [gt_iff_lt, Nat.lt_irrefl, if_false, Except.ok.injEq] at hlen
    have hs : v4l2_buffer_setup_plane_length_used buffer 0 l =
        (0, { buffer with bytesused := l }) := by
      unfold v4l2_buffer_setup_plane_length_used
      rw [if_neg hl, if_neg hm]
      simp
    rw [hs]
    unfold v4l2_buffer_plane_length_used v4l2_buffer_plane_length
    simp only []
    rw [if_neg hm, if_neg hm]
    simp only [gt_iff_lt, Nat.lt_irrefl, if_false, hlen]
    exact ⟨trivial, trivial⟩

theorem run_picture_length_used (e : v4l2_encoder) (ob : v4l2_encoder_buffer) (l : Nat)
    (hlen : v4l2_buffer_plane_length ob.buffer 0 = .ok l) (hl : l ≠ 0) :
    v4l2_buffer_plane_length_used (v4l2_encoder_run_picture e ob) 0 = .ok l ∧
    v4l2_buffer_plane_length (v4l2_encoder_run_picture e ob) 0 = .ok l := by
  have hs := setup_plane_length_used_spec ob.buffer l hlen hl
  unfold v4l2_encoder_run_picture
  rw [hlen]
  exact hs

/-- C25, as stated, fails: input slot 0 of `stale_encoder` reports a plane
length of 0 and holds 5 bytes used, and the buffer `v4l2_encoder_run` enqueues
on the raw-input queue still has 5 bytes used. -/
theorem run_bytes_used_counterexample :
    (stale_encoder.output_buffers[stale_encoder.output_buffers_index]?).map
        (fun b => (v4l2_buffer_plane_length b.buffer 0,
                   v4l2_buffer_plane_length_used b.buffer 0)) =
      some (.ok 0, .ok 5) ∧
    (v4l2_encoder_run ready_env 1 stale_encoder configured_trace).map
        (fun r => (r.1,
          ((enqueue_calls r.2.2)[(enqueue_calls configured_trace).length]?).map
            (fun b => (b.type, b.index, v4l2_buffer_plane_length b 0,
                       v4l2_buffer_plane_length_used b 0)))) =
      some (0, some (V4L2_BUF_TYPE_VIDEO_OUTPUT, 0, .ok 0, .ok 5)) := by
  constructor <;> rfl

/-- C25, amended: when plane 0 of the input slot has a length other than 0,
the first buffer a call of `v4l2_encoder_run` hands to an enqueue, the one for
the raw-input queue, is the slot's buffer with the bytes used of plane 0 equal
to that length, whatever value the bytes used held before, on a single-plane
and on a multi-plane queue. -/
theorem run_bytes_used (env : Env) (fuel : Nat) (e e' : v4l2_encoder) (t t' : Trace) (r : Int)
    (ob : v4l2_encoder_buffer) (l : Nat)
    (h : v4l2_encoder_run env fuel e t = some (r, e', t'))
    (hob : e.output_buffers[e.output_buffers_index]? = some ob)
    (hlen : v4l2_buffer_plane_length ob.buffer 0 = .ok l) (hl : l ≠ 0) :
    ∃ picture later,
      enqueue_calls t' = enqueue_calls t ++ picture :: later ∧
      picture.type = ob.buffer.type ∧ picture.index = ob.buffer.index ∧
      v4l2_buffer_plane_length picture 0 = .ok l ∧
      v4l2_buffer_plane_length_used picture 0 = .ok l := by
  obtain ⟨ob0, res, rest, hob0, ht⟩ := run_trace h
  rw [hob] at hob0
  cases hob0
  have hp := run_picture_length_used e ob l hlen hl
  have hi := run_picture_index e ob
  refine ⟨v4l2_encoder_run_picture e ob, enqueue_calls rest, ?_, hi.2, hi.1, hp.2, hp.1⟩
  rw [ht]
  simp [enqueue_calls, List.filterMap_append, List.filterMap_cons, Event.enqueue_call]

theorem run_bytes_used_witness :
    v4l2_encoder_run ready_env 1 configured_encoder configured_trace =
        some ((v4l2_encoder_run ready_env 1 configured_encoder configured_trace).getD
          (0, configured_encoder, [])) ∧
    configured_encoder.output_buffers[configured_encoder.output_buffers_index]? =
        some (configured_encoder.output_buffers.getD 0 v4l2_encoder_buffer.zero) ∧
    v4l2_buffer_plane_length
        (configured_encoder.output_buffers.getD 0 v4l2_encoder_buffer.zero).buffer 0 =
      .ok 4096 ∧
    ∃ picture later,
      enqueue_calls ((v4l2_encoder_run ready_env 1 configured_encoder configured_trace).getD
          (0, configured_encoder, [])).2.2 =
        enqueue_calls configured_trace ++ picture :: later ∧
      picture.type = (configured_encoder.output_buffers.getD 0 v4l2_encoder_buffer.zero).buffer.type ∧
      picture.index =
        (configured_encoder.output_buffers.getD 0 v4l2_encoder_buffer.zero).buffer.index ∧
      v4l2_buffer_plane_length picture 0 = .ok 4096 ∧
      v4l2_buffer_plane_length_used picture 0 = .ok 4096 :=
  ⟨rfl, rfl, rfl,
   run_bytes_used ready_env 1 configured_encoder _ configured_trace _ _
     (configured_encoder.output_buffers.getD 0 v4l2_encoder_buffer.zero) 4096 rfl rfl rfl
     (by decide)⟩

theorem run_one_pair_witness :
    v4l2_encoder_run ready_env 1 configured_encoder configured_trace =
        some (0, ready_run.2.1, ready_run.2.2) ∧
    v4l2_encoder_run_submit ready_env configured_encoder configured_trace =
        some (.wait 0 0 ready_submit.encoder ready_submit.trace) ∧
    (enqueued_buffers ready_run.2.2 =
      enqueued_buffers configured_trace ++
        [(configured_encoder.output_type,
          (configured_encoder.output_buffers.getD 0 v4l2_encoder_buffer.zero).buffer.index),
         (configured_encoder.capture_type,
          (configured_encoder.capture_buffers.getD 0 v4l2_encoder_buffer.zero).buffer.index)] ∧
     dequeued_buffers ready_run.2.2 =
      dequeued_buffers configured_trace ++
        [(configured_encoder.output_type,
          (configured_encoder.output_buffers.getD 0 v4l2_encoder_buffer.zero).buffer.index),
         (configured_encoder.capture_type,
          (configured_encoder.capture_buffers.getD 0 v4l2_encoder_buffer.zero).buffer.index)] ∧
     ready_run.2.1.capture_returned_index = configured_encoder.capture_buffers_index ∧
     ready_run.2.1.capture_returned_index < ready_run.2.1.capture_buffers_count ∧
     (ready_run.2.1.capture_buffers[ready_run.2.1.capture_returned_index]?).isSome = true) :=
  ⟨rfl, rfl,
   run_one_pair ready_env 1 configured_encoder ready_run.2.1 ready_submit.encoder
     configured_trace ready_run.2.2 ready_submit.trace 0 0
     (configured_encoder.output_buffers.getD 0 v4l2_encoder_buffer.zero)
     (configured_encoder.capture_buffers.getD 0 v4l2_encoder_buffer.zero)
     rfl rfl (fun _ _ _ _ hq => by cases hq; rfl) rfl rfl rfl rfl rfl (by decide)⟩

/-! ## The bitstream -/

theorem written_chunks_cons (ev : Event) (t : Trace) :
    written_chunks (ev :: t) =
      written_chunks t ++ (match Event.chunk ev with | some c => [c] | none => []) := by
  unfold written_chunks
  rw [List.filterMap_cons]
  cases Event.chunk ev with
  | none => simp
  | some c => simp

theorem written_chunks_append (gap t : Trace) :
    written_chunks (gap ++ t) = written_chunks t ++ written_chunks gap := by
  unfold written_chunks
  rw [List.filterMap_append, List.reverse_append]

theorem complete_chunk (env : Env) (encoder : v4l2_encoder) (t : Trace)
    (buffer : v4l2_encoder_buffer) (length : Nat)
    (hfd : 0 ≤ encoder.bitstream_fd)
    (hslot : encoder.capture_buffers[encoder.capture_returned_index]? = some buffer)
    (hlength : v4l2_buffer_plane_length_used buffer.buffer 0 = .ok length) :
    ∃ e1 t1, v4l2_encoder_complete env encoder t = some (0, e1, t1) ∧
      written_chunks t1 =
        written_chunks t ++
          (match spec_bitstream_chunk encoder with | some c => [c] | none => []) := by
  have hrun : v4l2_encoder_complete env encoder t
        = some (0, { encoder with frame_number := (encoder.frame_number + 1) % UINT_WIDTH },
                if 0 ≤ encoder.bitstream_fd ∧ 0 < length then
                  Event.write encoder.bitstream_fd (buffer.mmap_data.getD 0 Ptr.null) length :: t
                else t) := by
    simp only [v4l2_encoder_complete, hslot, hlength]
  refine ⟨_, _, hrun, ?_⟩
  unfold spec_bitstream_chunk
  rw [hslot]
  simp only [hlength]
  by_cases hl : 0 < length
  · rw [if_pos ⟨hfd, hl⟩, if_pos hl, written_chunks_cons]
    rfl
  · rw [if_neg (fun hh => hl hh.2), if_neg hl]
    simp

/-- C22: over a sequence of calls of `v4l2_encoder_complete` with the sink
open, where each call finds a completed coded buffer whose plane 0 can be read
and no other call writes in between, every call returns and the chunks handed
to `write` are, in call order, the first bytes-used bytes of plane 0 of each
completed buffer whose bytes used are not 0: one `write` of exactly that
address and length per such buffer, and nothing else. -/
theorem bitstream_content (env : Env) (calls : List (Trace × v4l2_encoder)) (t : Trace)
    (hcalls : ∀ c, c ∈ calls →
      0 ≤ c.2.bitstream_fd ∧ written_chunks c.1 = [] ∧
      ∃ buffer length, c.2.capture_buffers[c.2.capture_returned_index]? = some buffer ∧
        v4l2_buffer_plane_length_used buffer.buffer 0 = .ok length) :
    ∃ t1, v4l2_encoder_complete_calls env calls t = some t1 ∧
      written_chunks t1 =
        written_chunks t ++ calls.filterMap (fun c => spec_bitstream_chunk c.2) := by
  induction calls generalizing t with
  | nil => exact ⟨t, rfl, by simp⟩
  | cons c rest ih =>
    obtain ⟨gap, encoder⟩ := c
    obtain ⟨hfd, hgap, buffer, length, hslot, hlength⟩ := hcalls (gap, encoder) (by simp)
    obtain ⟨e1, t1, hc, hw⟩ := complete_chunk env encoder (gap ++ t) buffer length hfd hslot
      hlength
    obtain ⟨t2, hrest, hw2⟩ := ih t1 (fun c hc => hcalls c (by simp [hc]))
    refine ⟨t2, ?_, ?_⟩
    · rw [v4l2_encoder_complete_calls, hc]
      exact hrest
    · rw [hw2, hw, written_chunks_append, hgap, List.filterMap_cons]
      simp only [] at hgap ⊢
      cases spec_bitstream_chunk encoder with
      | none => simp
      | some x => simp

theorem bitstream_content_witness :
    (∃ t1,
      v4l2_encoder_complete_calls ready_env
          [([], errored_encoder), ([Event.free], configured_encoder),
           ([], second_frame_encoder)] [] = some t1 ∧
        written_chunks t1 =
          written_chunks [] ++
            [([], errored_encoder), ([Event.free], configured_encoder),
             ([], second_frame_encoder)].filterMap (fun c => spec_bitstream_chunk c.2)) ∧
    [([], errored_encoder), ([Event.free], configured_encoder),
     ([], second_frame_encoder)].filterMap (fun c => spec_bitstream_chunk c.2) =
      [(5, Ptr.addr 393216, 100), (5, Ptr.addr 524288, 7)] :=
  ⟨bitstream_content ready_env
    [([], errored_encoder), ([Event.free], configured_encoder), ([], second_frame_encoder)] []
    (by
      intro c hc
      simp only [List.mem_cons, List.mem_singleton, List.not_mem_nil, or_false] at hc
      rcases hc with rfl | rfl | rfl
      · exact ⟨by decide, rfl, _, 100, rfl, rfl⟩
      · exact ⟨by decide, rfl, _, 0, rfl, rfl⟩
      · exact ⟨by decide, rfl, _, 7, rfl, rfl⟩),
   rfl⟩

end Cedrus
